import Mathlib

/-! # VQEngine: shader constant buffers

A shallow embedding of the constant-buffer management of
`Source/Renderer/Source/Shader.cpp`: the pool of CPU constants (`CPUConstant`),
the registration of the reflected constant-buffer layouts
(`Shader::RegisterConstantBufferLayout`), the creation of the CPU constants and
of the GPU buffers (`Shader::SetConstantBuffers`), and the upload of the dirty
buffers (`Shader::ClearConstantBuffers`, `Shader::UpdateConstants`); and of the
loop over the batches of instances of `ShadowMapPass::RenderShadowMaps` in
`Source/Engine/Source/ShadowPass.cpp`.

Conventions of the embedding.

* `Shader.h` is not among the sources. The members of its structs are those the
  code of `Shader.cpp` reads and writes, and the constant `MAX_CONSTANT_BUFFERS`
  is a parameter of the properties that speak of the capacity of the pool.
* Unsigned and `size_t` counters are natural numbers; none of the loops below
  can reach the width of its counter before the memory of the process is
  exhausted. The cast of `s_nextConstIndex` to `CPUConstantID` keeps the value.
* The `int` counters of the depth pass (`batchCount`, `instanceID`,
  `renderListIndex`) are natural numbers as well. The values they take are at
  most the length of the render list, the batch size, or the number of batches,
  so they are the values of the code for every render list whose length fits an
  `int`.
* The matrices of the depth pass are of a type left open, with their product
  as a parameter: nothing below depends on floating-point arithmetic.
* A pointer to a device object (`ID3D11Buffer*`) is an `Option`: `none` is
  `nullptr`, `some b` is the object pointed to. A `ConstantBuffer` is the only
  holder of the buffer it points to (each one comes from its own
  `CreateBuffer`), so the object is kept where the pointer is. A call made with
  a null pointer is recorded and has no effect on any buffer.
* `std::array::operator[]` does no bounds check; the pool is therefore the map
  from an index to the slot found there, and an index at or past
  `MAX_CONSTANT_BUFFERS` stands for what lies behind the array.
* A copy of `count` bytes always delivers `count` bytes; a byte it takes from
  outside the block it reads has no determinate value.
* `assert(false)` ends the run: a function that reaches it has no result.
* `std::sort` is library code. A merge sort stands for it in the definition of
  `Shader::SetConstantBuffers`; the properties speak of the range and of the
  comparison that the code hands to it, not of the order that it leaves.
* The pool is a map without an end and the memory mapped for a buffer a list
  without an end, where the source has an array and a region of `ByteWidth`
  bytes. The properties on the constants that `Shader::SetConstantBuffers`
  allocates therefore assume that the constants find room in the pool, and the
  property on an upload that does not fill its buffer assumes that it writes
  fewer bytes than the buffer has: beyond these ends the source has no defined
  behaviour.
* The calls made on the device context, and the copies into the memory it has
  mapped, are recorded in order in the context.
-/

namespace VQEngine

/-! ## Bytes and raw memory -/

/-- A `char` of raw constant data. -/
abbrev Byte := Fin 256

/-- A byte as a copy reads it: `none` when it has no determinate value (it lies
outside the block that was allocated, or was never written). -/
abbrev Cell := Option Byte

/-- The C function `memcpy(dest + pos, src, src.length)` on a region that is
known from its first byte up to the last byte written so far. -/
def memcpy (dest : List Cell) (pos : Nat) (src : List Cell) : List Cell :=
  dest.take pos ++ List.replicate (pos - dest.length) none ++ src
    ++ dest.drop (pos + src.length)

/-! ## The pool of CPU constants -/

/-- The type `CPUConstantID`: the index of a slot of the pool. -/
abbrev CPUConstantID := Nat

/-- The struct `CPUConstant`: a named block of raw bytes. `_data` is `none` for
`nullptr`, and the allocated block otherwise. -/
structure CPUConstant where
  _name : String
  _size : Nat
  _data : Option (List Byte)
deriving DecidableEq, Repr

/-- The `count` bytes a copy reads at the pointer `_data`. -/
def CPUConstant.read (data : Option (List Byte)) (count : Nat) : List Cell :=
  (List.range count).map fun k =>
    match data with
    | none => none
    | some block => block[k]?

/-- The bytes `(c._data, c._size)` that `memcpy(bufferPos, c._data, c._size)`
copies. -/
def CPUConstant.bytes (c : CPUConstant) : List Cell :=
  CPUConstant.read c._data c._size

/-- The static members of `CPUConstant`: the array `s_constants` and the index
`s_nextConstIndex` of the next slot to hand out. -/
structure CPUConstant.Statics where
  s_constants : Nat → CPUConstant
  s_nextConstIndex : Nat

/-- `CPUConstant::GetNextAvailable`: the pair of a reference to the slot
`s_constants[id]` (its index) and of `id`, where `id` is the value of
`s_nextConstIndex` before it is incremented. -/
def CPUConstant.GetNextAvailable (statics : CPUConstant.Statics) :
    (Nat × CPUConstantID) × CPUConstant.Statics :=
  let id : CPUConstantID := statics.s_nextConstIndex
  ((id, id), { statics with s_nextConstIndex := statics.s_nextConstIndex + 1 })

/-- Modelled from the spec: `CPUConstant::Get`, declared in `Shader.h`, which is
not among the sources. `Get(id)` is a reference to the slot `id` of the pool. -/
def CPUConstant.Get (statics : CPUConstant.Statics) (id : CPUConstantID) : CPUConstant :=
  statics.s_constants id

/-- The identifiers returned by `count` successive calls of
`CPUConstant::GetNextAvailable`, with the statics after the last call. -/
def CPUConstant.GetNextAvailableTimes :
    Nat → CPUConstant.Statics → List CPUConstantID × CPUConstant.Statics
  | 0, statics => ([], statics)
  | count + 1, statics =>
    let next := CPUConstant.GetNextAvailable statics
    let rest := CPUConstant.GetNextAvailableTimes count next.2
    (next.1.2 :: rest.1, rest.2)

/-! ## Reflection data -/

/-- The enum `ShaderType`. Its enumerators index the tables `SetShaderConstants`
and `shaderCompilerVersions`, which puts `VS` at 0, `GS` at 1 and `PS` at 5. -/
inductive ShaderType where
  | VS | GS | DS | HS | CS | PS
deriving DecidableEq, Repr

/-- The value of an enumerator of `ShaderType`. -/
def ShaderType.toNat : ShaderType → Nat
  | .VS => 0 | .GS => 1 | .DS => 2 | .HS => 3 | .CS => 4 | .PS => 5

/-- The fields of `D3D11_SHADER_VARIABLE_DESC` the engine reads. -/
structure D3D11_SHADER_VARIABLE_DESC where
  Name : String
  StartOffset : Nat
  Size : Nat
deriving DecidableEq, Repr

/-- The fields of `D3D11_SHADER_TYPE_DESC` kept by the engine. -/
structure D3D11_SHADER_TYPE_DESC where
  Rows : Nat
  Columns : Nat
deriving DecidableEq, Repr

/-- The struct `D3D11_SHADER_BUFFER_DESC`: `Variables` is the number of member
variables and `Size` the size of the buffer in bytes, as reflection reports
them. -/
structure D3D11_SHADER_BUFFER_DESC where
  Name : String
  Variables : Nat
  Size : Nat
deriving DecidableEq, Repr

/-- What `ID3D11ShaderReflectionVariable` answers: `GetDesc` and
`GetType()->GetDesc`. -/
structure ID3D11ShaderReflectionVariable where
  desc : D3D11_SHADER_VARIABLE_DESC
  type : D3D11_SHADER_TYPE_DESC
deriving DecidableEq, Repr

/-- What `ID3D11ShaderReflectionConstantBuffer` answers: the name and the size
of the buffer, and its member variables `vars` in the order of
`GetVariableByIndex`. -/
structure ID3D11ShaderReflectionConstantBuffer where
  Name : String
  Size : Nat
  vars : List ID3D11ShaderReflectionVariable
deriving DecidableEq, Repr

/-- The method `ID3D11ShaderReflectionConstantBuffer::GetDesc`. -/
def ID3D11ShaderReflectionConstantBuffer.GetDesc
    (pCBuffer : ID3D11ShaderReflectionConstantBuffer) : D3D11_SHADER_BUFFER_DESC :=
  { Name := pCBuffer.Name, Variables := pCBuffer.vars.length, Size := pCBuffer.Size }

/-- The enum `D3D_SHADER_INPUT_TYPE`, as far as the engine tells its values
apart. -/
inductive D3D_SHADER_INPUT_TYPE where
  | D3D_SIT_CBUFFER | D3D_SIT_TBUFFER | D3D_SIT_TEXTURE | D3D_SIT_SAMPLER | D3D_SIT_OTHER
deriving DecidableEq, Repr

/-- The fields of `D3D11_SHADER_INPUT_BIND_DESC` the engine reads (`Type_` is the
field `Type`). -/
structure D3D11_SHADER_INPUT_BIND_DESC where
  Name : String
  Type_ : D3D_SHADER_INPUT_TYPE
deriving DecidableEq, Repr

/-- What `ID3D11ShaderReflection` answers for one compiled stage: its constant
buffers in the order of `GetConstantBufferByIndex` and its bound resources in
the order of `GetResourceBindingDesc`. `address` identifies the object. -/
structure ID3D11ShaderReflection where
  address : Nat
  ConstantBuffers : List ID3D11ShaderReflectionConstantBuffer
  BoundResources : List D3D11_SHADER_INPUT_BIND_DESC
deriving DecidableEq, Repr

/-! ## The device -/

/-- The struct `D3D11_BUFFER_DESC`. -/
structure D3D11_BUFFER_DESC where
  ByteWidth : Nat
  Usage : Nat
  BindFlags : Nat
  CPUAccessFlags : Nat
  MiscFlags : Nat
  StructureByteStride : Nat
deriving DecidableEq, Repr

/-- The value of `D3D11_USAGE_DYNAMIC`. -/
def D3D11_USAGE_DYNAMIC : Nat := 2

/-- The value of `D3D11_BIND_CONSTANT_BUFFER`. -/
def D3D11_BIND_CONSTANT_BUFFER : Nat := 4

/-- The value of `D3D11_CPU_ACCESS_WRITE`. -/
def D3D11_CPU_ACCESS_WRITE : Nat := 65536

/-- A buffer object of the device. `address` is the value of the pointer to it,
`desc` the description it was created with, and `contents` its bytes from the
first one up to the last one written since the buffer was last discarded (the
bytes behind have no determinate value). -/
structure ID3D11Buffer where
  address : Nat
  desc : D3D11_BUFFER_DESC
  contents : List Cell
deriving DecidableEq, Repr

/-- The value of a pointer to a buffer: 0 for `nullptr`. -/
def ID3D11Buffer.pointer : Option ID3D11Buffer → Nat
  | none => 0
  | some buffer => buffer.address

/-- A compiled stage, `ID3D10Blob`: its address, and what `D3DReflect` answers
for its bytes (`none` when it fails). -/
structure ID3D10Blob where
  address : Nat
  reflection : Option ID3D11ShaderReflection
deriving DecidableEq, Repr

/-- The struct `D3D11_INPUT_ELEMENT_DESC`. -/
structure D3D11_INPUT_ELEMENT_DESC where
  SemanticName : String
  SemanticIndex : Nat
  Format : Nat
  InputSlot : Nat
  AlignedByteOffset : Nat
  InputSlotClass : Nat
  InstanceDataStepRate : Nat
deriving DecidableEq, Repr

/-- The device, an external collaborator: `created` counts the objects it has
created, and `CreateBufferFAILED created desc` tells whether its next
`CreateBuffer`, asked for `desc`, fails; in the same way for the creation of a
stage program from a blob and of an input layout. -/
structure ID3D11Device where
  created : Nat
  CreateBufferFAILED : Nat → D3D11_BUFFER_DESC → Bool
  CreateVertexShaderFAILED : Nat → ID3D10Blob → Bool := fun _ _ => false
  CreatePixelShaderFAILED : Nat → ID3D10Blob → Bool := fun _ _ => false
  CreateGeometryShaderFAILED : Nat → ID3D10Blob → Bool := fun _ _ => false
  CreateInputLayoutFAILED : Nat → List D3D11_INPUT_ELEMENT_DESC → ID3D10Blob → Bool :=
    fun _ _ _ => false

/-- The method `ID3D11Device::CreateBuffer` without initial data: `none` when
the call fails, else the new buffer (at a pointer that is not null, with no
byte written) and the device after the call. -/
def ID3D11Device.CreateBuffer (device : ID3D11Device) (desc : D3D11_BUFFER_DESC) :
    Option (ID3D11Buffer × ID3D11Device) :=
  if device.CreateBufferFAILED device.created desc then none
  else some ({ address := device.created + 1, desc := desc, contents := [] },
    { device with created := device.created + 1 })

/-- The method `ID3D11Device::CreateVertexShader` on the bytes of a blob: `none`
when the call fails, else the address of the new program and the device after
the call. -/
def ID3D11Device.CreateVertexShader (device : ID3D11Device) (blob : ID3D10Blob) :
    Option (Nat × ID3D11Device) :=
  if device.CreateVertexShaderFAILED device.created blob then none
  else some (device.created + 1, { device with created := device.created + 1 })

/-- The method `ID3D11Device::CreatePixelShader` on the bytes of a blob. -/
def ID3D11Device.CreatePixelShader (device : ID3D11Device) (blob : ID3D10Blob) :
    Option (Nat × ID3D11Device) :=
  if device.CreatePixelShaderFAILED device.created blob then none
  else some (device.created + 1, { device with created := device.created + 1 })

/-- The method `ID3D11Device::CreateGeometryShader` on the bytes of a blob. -/
def ID3D11Device.CreateGeometryShader (device : ID3D11Device) (blob : ID3D10Blob) :
    Option (Nat × ID3D11Device) :=
  if device.CreateGeometryShaderFAILED device.created blob then none
  else some (device.created + 1, { device with created := device.created + 1 })

/-- The method `ID3D11Device::CreateInputLayout` for the elements `descs` and
the bytes of the vertex blob. -/
def ID3D11Device.CreateInputLayout (device : ID3D11Device)
    (descs : List D3D11_INPUT_ELEMENT_DESC) (blob : ID3D10Blob) :
    Option (Nat × ID3D11Device) :=
  if device.CreateInputLayoutFAILED device.created descs blob then none
  else some (device.created + 1, { device with created := device.created + 1 })

/-- One operation on the device context, or one write into memory it has
mapped. -/
inductive ContextCall where
  | Map (pResource : Nat)
  | memcpy (pResource : Nat) (offset : Nat) (src : List Cell)
  | Unmap (pResource : Nat)
  | VSSetConstantBuffers (StartSlot NumBuffers : Nat) (ppConstantBuffers : List Nat)
  | GSSetConstantBuffers (StartSlot NumBuffers : Nat) (ppConstantBuffers : List Nat)
  | DSSetConstantBuffers (StartSlot NumBuffers : Nat) (ppConstantBuffers : List Nat)
  | HSSetConstantBuffers (StartSlot NumBuffers : Nat) (ppConstantBuffers : List Nat)
  | CSSetConstantBuffers (StartSlot NumBuffers : Nat) (ppConstantBuffers : List Nat)
  | PSSetConstantBuffers (StartSlot NumBuffers : Nat) (ppConstantBuffers : List Nat)
deriving DecidableEq, Repr

/-- The device context: the calls made on it so far, oldest first. -/
structure ID3D11DeviceContext where
  calls : List ContextCall
deriving DecidableEq, Repr

/-- The table `SetShaderConstants[6]` of the `XSSetConstantBuffers` methods,
indexed by the value of a `ShaderType`. -/
def SetShaderConstants (index : Nat) : Nat → Nat → List Nat → ContextCall :=
  match index with
  | 0 => ContextCall.VSSetConstantBuffers
  | 1 => ContextCall.GSSetConstantBuffers
  | 2 => ContextCall.DSSetConstantBuffers
  | 3 => ContextCall.HSSetConstantBuffers
  | 4 => ContextCall.CSSetConstantBuffers
  | _ => ContextCall.PSSetConstantBuffers

/-! ## The shader -/

/-- The struct `ConstantBufferLayout` (`vars` is its member `variables`). -/
structure ConstantBufferLayout where
  desc : D3D11_SHADER_BUFFER_DESC
  vars : List D3D11_SHADER_VARIABLE_DESC
  types : List D3D11_SHADER_TYPE_DESC
  shdType : ShaderType
  bufSlot : Nat
  buffSize : Nat
deriving DecidableEq, Repr

/-- The type `ConstantBufferMapping`: the pair of the index of a constant buffer
of the shader and of the identifier of a CPU constant. -/
abbrev ConstantBufferMapping := Nat × CPUConstantID

/-- The struct `ConstantBuffer`. -/
structure ConstantBuffer where
  shdType : ShaderType
  bufferSlot : Nat
  data : Option ID3D11Buffer
  dirty : Bool
deriving DecidableEq, Repr

/-- The struct `ShaderTexture`. -/
structure ShaderTexture where
  name : String
  shdType : ShaderType
  bufferSlot : Nat
deriving DecidableEq, Repr

/-- The struct `ShaderSampler`. -/
structure ShaderSampler where
  name : String
  shdType : ShaderType
  bufferSlot : Nat
deriving DecidableEq, Repr

/-- The data members of the class `Shader`. A pointer to a stage program, to the
input layout or to a reflection object is `none` when it is null; a program or
an input layout is known by its address only. -/
structure Shader where
  m_vertexShader : Option Nat
  m_pixelShader : Option Nat
  m_geometryShader : Option Nat
  m_layout : Option Nat
  m_name : String
  m_id : Int
  m_vsRefl : Option ID3D11ShaderReflection
  m_psRefl : Option ID3D11ShaderReflection
  m_gsRefl : Option ID3D11ShaderReflection
  m_CBLayouts : List ConstantBufferLayout
  m_cBuffers : List ConstantBuffer
  m_constants : List ConstantBufferMapping
  m_constantsUnsorted : List ConstantBufferMapping
  m_textures : List ShaderTexture
  m_samplers : List ShaderSampler
deriving DecidableEq, Repr

/-- The constructor `Shader::Shader(shaderFileName)`. Its initialiser list sets
the stage programs and the input layout to null, the name, and the id to -1; the
vectors start empty. The reflection pointers are not named there and are given
here. (The name `Shader.Shader` would hide the type inside its own namespace.) -/
def Shader.new (shaderFileName : String)
    (vsRefl psRefl gsRefl : Option ID3D11ShaderReflection) : Shader :=
  { m_vertexShader := none, m_pixelShader := none, m_geometryShader := none,
    m_layout := none, m_name := shaderFileName, m_id := -1,
    m_vsRefl := vsRefl, m_psRefl := psRefl, m_gsRefl := gsRefl,
    m_CBLayouts := [], m_cBuffers := [], m_constants := [], m_constantsUnsorted := [],
    m_textures := [], m_samplers := [] }

/-! ### `Shader::RegisterConstantBufferLayout` -/

/-- The body of the loop over the variables of one constant buffer: the
descriptions of the variable and of its type are pushed back and its size is
added to `buffSize`. -/
def Shader.RegisterConstantBufferLayout.variable (bufferLayout : ConstantBufferLayout)
    (pVariable : ID3D11ShaderReflectionVariable) : ConstantBufferLayout :=
  let varDesc := pVariable.desc
  let typeDesc := pVariable.type
  { bufferLayout with
    vars := bufferLayout.vars ++ [varDesc],
    types := bufferLayout.types ++ [typeDesc],
    buffSize := bufferLayout.buffSize + varDesc.Size }

/-- The body of the loop over the constant buffers of a stage, on the pair of
`bufSlot` and of `m_CBLayouts`. -/
def Shader.RegisterConstantBufferLayout.buffer (type : ShaderType)
    (acc : Nat × List ConstantBufferLayout)
    (pCBuffer : ID3D11ShaderReflectionConstantBuffer) : Nat × List ConstantBufferLayout :=
  let bufSlot := acc.1
  let bufferLayout : ConstantBufferLayout :=
    { desc := pCBuffer.GetDesc, vars := [], types := [], shdType := .VS, bufSlot := 0,
      buffSize := 0 }
  let bufferLayout :=
    pCBuffer.vars.foldl Shader.RegisterConstantBufferLayout.variable bufferLayout
  let bufferLayout := { bufferLayout with shdType := type, bufSlot := bufSlot }
  (bufSlot + 1, acc.2 ++ [bufferLayout])

/-- The method `Shader::RegisterConstantBufferLayout(sRefl, type)`, for a
reflection pointer that is not null. -/
def Shader.RegisterConstantBufferLayout (shader : Shader) (sRefl : ID3D11ShaderReflection)
    (type : ShaderType) : Shader :=
  { shader with
    m_CBLayouts :=
      (sRefl.ConstantBuffers.foldl (Shader.RegisterConstantBufferLayout.buffer type)
        (0, shader.m_CBLayouts)).2 }

/-! ### `Shader::SetConstantBuffers` -/

/-- The body of the loop over the variables of a layout, on the pair of the
statics of the pool and of `m_constants`: the next slot of the pool is taken, it
is given the name and the size of the variable and a new block of `_size` zero
bytes, and the pair of `constantBufferSlot` and of its identifier is pushed
back. -/
def Shader.SetConstantBuffers.variable (constantBufferSlot : Nat)
    (acc : CPUConstant.Statics × List ConstantBufferMapping)
    (varDesc : D3D11_SHADER_VARIABLE_DESC) :
    CPUConstant.Statics × List ConstantBufferMapping :=
  let next := CPUConstant.GetNextAvailable acc.1
  let c_id : CPUConstantID := next.1.2
  let ref : Nat := next.1.1
  let statics := next.2
  let c := statics.s_constants ref
  let c := { c with _name := varDesc.Name }
  let c := { c with _size := varDesc.Size }
  let c := { c with _data := some (List.replicate c._size (0 : Byte)) }
  ({ statics with s_constants := Function.update statics.s_constants ref c },
    acc.2 ++ [(constantBufferSlot, c_id)])

/-- The body of the loop over `m_CBLayouts` that creates the CPU constants, on
the statics of the pool, `m_constants` and `constantBufferSlot`. -/
def Shader.SetConstantBuffers.layout
    (acc : (CPUConstant.Statics × List ConstantBufferMapping) × Nat)
    (cbLayout : ConstantBufferLayout) :
    (CPUConstant.Statics × List ConstantBufferMapping) × Nat :=
  let constantBufferSlot := acc.2
  (cbLayout.vars.foldl (Shader.SetConstantBuffers.variable constantBufferSlot) acc.1,
    constantBufferSlot + 1)

/-- The comparison given to `std::sort`: `lstr <= rstr` on the names of the two
constants. -/
def Shader.SetConstantBuffers.compare (statics : CPUConstant.Statics)
    (lhs rhs : ConstantBufferMapping) : Bool :=
  let lstr := (CPUConstant.Get statics lhs.2)._name
  let rstr := (CPUConstant.Get statics rhs.2)._name
  decide (lstr ≤ rstr)

/-- The library function `std::sort(first, last, comp)`. The library is not
among the sources; a merge sort stands for it here. It is what the call yields
for a strict weak ordering under which no two elements are equivalent; for any
other comparison the order that the library leaves is not determined by the
sources, and no property below speaks of it. -/
def std_sort {α : Type} (comp : α → α → Bool) (range : List α) : List α :=
  range.mergeSort comp

/-- The body of the loop over `m_CBLayouts` that creates the GPU buffers, on the
device and `m_cBuffers`; `none` when `CreateBuffer` fails (`assert(false)`). -/
def Shader.SetConstantBuffers.gpuBuffer (cBufferDesc : D3D11_BUFFER_DESC)
    (acc : Option (ID3D11Device × List ConstantBuffer))
    (cbLayout : ConstantBufferLayout) : Option (ID3D11Device × List ConstantBuffer) :=
  match acc with
  | none => none
  | some (device, m_cBuffers) =>
    let cBufferDesc := { cBufferDesc with ByteWidth := cbLayout.desc.Size }
    match device.CreateBuffer cBufferDesc with
    | none => none
    | some (data, device) =>
      let cBuffer : ConstantBuffer :=
        { data := some data, dirty := true, shdType := cbLayout.shdType,
          bufferSlot := cbLayout.bufSlot }
      some (device, m_cBuffers ++ [cBuffer])

/-- The block `OBTAIN CBUFFER LAYOUT INFORMATION` of `Shader::SetConstantBuffers`:
the layouts of the vertex stage, then of the pixel stage, then of the geometry
stage when `m_gsRefl` is not null. -/
def Shader.SetConstantBuffers.layouts (shader : Shader)
    (vsRefl psRefl : ID3D11ShaderReflection) : Shader :=
  let shader := shader.RegisterConstantBufferLayout vsRefl ShaderType.VS
  let shader := shader.RegisterConstantBufferLayout psRefl ShaderType.PS
  match shader.m_gsRefl with
  | some gsRefl => shader.RegisterConstantBufferLayout gsRefl ShaderType.GS
  | none => shader

/-- The block `CPU CBuffers` of `Shader::SetConstantBuffers`, up to the sort:
the loop over `m_CBLayouts` with `constantBufferSlot` starting at 0, the copy of
`m_constants` to `m_constantsUnsorted`, and the sort of `m_constants`. -/
def Shader.SetConstantBuffers.cpuCBuffers (statics : CPUConstant.Statics) (shader : Shader) :
    Shader × CPUConstant.Statics :=
  let cpu := shader.m_CBLayouts.foldl Shader.SetConstantBuffers.layout
    ((statics, shader.m_constants), 0)
  let statics := cpu.1.1
  let shader := { shader with m_constants := cpu.1.2 }
  let shader := { shader with m_constantsUnsorted := shader.m_constants }
  let shader :=
    { shader with
      m_constants := std_sort (Shader.SetConstantBuffers.compare statics) shader.m_constants }
  (shader, statics)

/-- The description `cBufferDesc` of `Shader::SetConstantBuffers`, before its
`ByteWidth` is set. -/
def Shader.SetConstantBuffers.cBufferDesc : D3D11_BUFFER_DESC :=
  { ByteWidth := 0, Usage := D3D11_USAGE_DYNAMIC, BindFlags := D3D11_BIND_CONSTANT_BUFFER,
    CPUAccessFlags := D3D11_CPU_ACCESS_WRITE, MiscFlags := 0, StructureByteStride := 0 }

/-- The block `GPU CBuffers` of `Shader::SetConstantBuffers`: the loop over
`m_CBLayouts` that creates one buffer for each layout. -/
def Shader.SetConstantBuffers.gpuCBuffers (device : ID3D11Device) (shader : Shader) :
    Option (Shader × ID3D11Device) :=
  match shader.m_CBLayouts.foldl
      (Shader.SetConstantBuffers.gpuBuffer Shader.SetConstantBuffers.cBufferDesc)
      (some (device, shader.m_cBuffers)) with
  | none => none
  | some (device, m_cBuffers) => some ({ shader with m_cBuffers := m_cBuffers }, device)

/-- The method `Shader::SetConstantBuffers(device)`, on the shader, the statics
of the pool and the device. The result is `none` when the vertex or the pixel
reflection pointer is null (it is dereferenced) or when a `CreateBuffer`
fails. -/
def Shader.SetConstantBuffers (device : ID3D11Device) (statics : CPUConstant.Statics)
    (shader : Shader) : Option (Shader × CPUConstant.Statics × ID3D11Device) :=
  match shader.m_vsRefl, shader.m_psRefl with
  | some vsRefl, some psRefl =>
    let shader := Shader.SetConstantBuffers.layouts shader vsRefl psRefl
    let cpu := Shader.SetConstantBuffers.cpuCBuffers statics shader
    match Shader.SetConstantBuffers.gpuCBuffers device cpu.1 with
    | none => none
    | some (shader, device) => some (shader, cpu.2, device)
  | _, _ => none

/-! ### `Shader::ClearConstantBuffers` and `Shader::UpdateConstants` -/

/-- The method `Shader::ClearConstantBuffers`. -/
def Shader.ClearConstantBuffers (shader : Shader) : Shader :=
  { shader with m_cBuffers := shader.m_cBuffers.map fun cBuffer => { cBuffer with dirty := true } }

/-- The state of the copy loop of `Shader::UpdateConstants`: the mapped region,
the offset of `bufferPos` in it, and the device context. -/
structure Shader.UpdateConstants.Mapped where
  pData : List Cell
  bufferPos : Nat
  context : ID3D11DeviceContext
deriving DecidableEq, Repr

/-- The body of the loop over `m_constantsUnsorted` for the buffer of index `i`,
mapped from the pointer `data`: a mapping of another buffer is skipped; else the
`_size` bytes of the constant are copied at `bufferPos`, which advances by
`_size`. -/
def Shader.UpdateConstants.copy (statics : CPUConstant.Statics) (i : Nat) (data : Nat)
    (mapped : Shader.UpdateConstants.Mapped) (indexIDPair : ConstantBufferMapping) :
    Shader.UpdateConstants.Mapped :=
  if indexIDPair.1 != i then mapped
  else
    let c_id := indexIDPair.2
    let c := CPUConstant.Get statics c_id
    { pData := memcpy mapped.pData mapped.bufferPos c.bytes,
      bufferPos := mapped.bufferPos + c._size,
      context :=
        { calls := mapped.context.calls ++ [ContextCall.memcpy data mapped.bufferPos c.bytes] } }

/-- The body of the loop of `Shader::UpdateConstants` for the index `i`. A dirty
buffer is mapped with `D3D11_MAP_WRITE_DISCARD` (no byte of the mapped region is
written yet), filled by the copy loop and unmapped, which makes the region the
contents of the buffer; it is then bound through the entry of
`SetShaderConstants` for its stage, and its dirty flag is cleared. -/
def Shader.UpdateConstants.body (statics : CPUConstant.Statics) (i : Nat)
    (state : Shader × ID3D11DeviceContext) : Shader × ID3D11DeviceContext :=
  let shader := state.1
  let context := state.2
  match shader.m_cBuffers[i]? with
  | none => state
  | some CB =>
    if CB.dirty then
      let data := ID3D11Buffer.pointer CB.data
      let context : ID3D11DeviceContext := { calls := context.calls ++ [ContextCall.Map data] }
      let mapped : Shader.UpdateConstants.Mapped :=
        { pData := [], bufferPos := 0, context := context }
      let mapped :=
        shader.m_constantsUnsorted.foldl (Shader.UpdateConstants.copy statics i data) mapped
      let context : ID3D11DeviceContext :=
        { calls := mapped.context.calls ++ [ContextCall.Unmap data] }
      let CB : ConstantBuffer :=
        { CB with
          data := CB.data.map fun (buffer : ID3D11Buffer) =>
            { buffer with contents := mapped.pData } }
      let context : ID3D11DeviceContext :=
        { calls := context.calls ++ [SetShaderConstants CB.shdType.toNat CB.bufferSlot 1 [data]] }
      let CB : ConstantBuffer := { CB with dirty := false }
      ({ shader with m_cBuffers := shader.m_cBuffers.set i CB }, context)
    else state

/-- The method `Shader::UpdateConstants(context)`: the loop over the indices of
`m_cBuffers`, whose length no iteration changes. It reads the pool, and changes
the shader and the device context. -/
def Shader.UpdateConstants (statics : CPUConstant.Statics) (shader : Shader)
    (context : ID3D11DeviceContext) : Shader × ID3D11DeviceContext :=
  (List.range shader.m_cBuffers.length).foldl
    (fun state i => Shader.UpdateConstants.body statics i state) (shader, context)

/-! ### `CPUConstant::CleanUp` -/

/-- The body of the loop of `CPUConstant::CleanUp` for the slot `i`, on the
statics of the pool and the list of the slots whose block has been given to
`delete`: a block that is not null is deleted and the pointer set to null. -/
def CPUConstant.CleanUp.slot (acc : CPUConstant.Statics × List Nat) (i : Nat) :
    CPUConstant.Statics × List Nat :=
  match (acc.1.s_constants i)._data with
  | some _ =>
    ({ acc.1 with
        s_constants :=
          Function.update acc.1.s_constants i { acc.1.s_constants i with _data := none } },
      acc.2 ++ [i])
  | none => acc

/-- The function `CPUConstant::CleanUp`, for a pool of `MAX_CONSTANT_BUFFERS`
slots: the statics after the call, and the slots whose block was deleted, in
order. -/
def CPUConstant.CleanUp (MAX_CONSTANT_BUFFERS : Nat) (statics : CPUConstant.Statics) :
    CPUConstant.Statics × List Nat :=
  (List.range MAX_CONSTANT_BUFFERS).foldl CPUConstant.CleanUp.slot (statics, [])

/-! ### `Shader::~Shader` -/

/-- The statement `if (p) { p->Release(); p = nullptr; }` on a pointer to an
object known by its address, with the list of the addresses released so far. -/
def Shader.destructor.release (p : Option Nat) (released : List Nat) : Option Nat × List Nat :=
  match p with
  | some address => (none, released ++ [address])
  | none => (none, released)

/-- The body of the loop of `Shader::~Shader` over `m_cBuffers`, on the buffers
done and the addresses released so far. -/
def Shader.destructor.cbuf (acc : List ConstantBuffer × List Nat) (cbuf : ConstantBuffer) :
    List ConstantBuffer × List Nat :=
  match cbuf.data with
  | some buffer => (acc.1 ++ [{ cbuf with data := none }], acc.2 ++ [buffer.address])
  | none => (acc.1 ++ [cbuf], acc.2)

/-- The statement `if (p) { p->Release(); p = nullptr; }` on a pointer to a
reflection object. -/
def Shader.destructor.releaseRefl (p : Option ID3D11ShaderReflection) (released : List Nat) :
    Option ID3D11ShaderReflection × List Nat :=
  match p with
  | some refl => (none, released ++ [refl.address])
  | none => (none, released)

/-- The destructor `Shader::~Shader`: the shader it leaves, and the addresses of
the objects on which it has called `Release`, in order. -/
def Shader.destructor (shader : Shader) : Shader × List Nat :=
  -- release constants
  let cbufs := shader.m_cBuffers.foldl Shader.destructor.cbuf ([], [])
  let shader := { shader with m_cBuffers := cbufs.1 }
  let m_layout := Shader.destructor.release shader.m_layout cbufs.2
  let shader := { shader with m_layout := m_layout.1 }
  let m_pixelShader := Shader.destructor.release shader.m_pixelShader m_layout.2
  let shader := { shader with m_pixelShader := m_pixelShader.1 }
  let m_vertexShader := Shader.destructor.release shader.m_vertexShader m_pixelShader.2
  let shader := { shader with m_vertexShader := m_vertexShader.1 }
  let m_geometryShader := Shader.destructor.release shader.m_geometryShader m_vertexShader.2
  let shader := { shader with m_geometryShader := m_geometryShader.1 }
  let m_vsRefl := Shader.destructor.releaseRefl shader.m_vsRefl m_geometryShader.2
  let shader := { shader with m_vsRefl := m_vsRefl.1 }
  let m_psRefl := Shader.destructor.releaseRefl shader.m_psRefl m_vsRefl.2
  let shader := { shader with m_psRefl := m_psRefl.1 }
  (shader, m_psRefl.2)

/-! ### `Shader::Compile` -/

/-- The struct `InputLayout` as far as `Shader::Compile` reads it. -/
structure InputLayout where
  semanticName : String
  format : Nat
deriving DecidableEq, Repr

/-- The value of `D3D11_APPEND_ALIGNED_ELEMENT`. -/
def D3D11_APPEND_ALIGNED_ELEMENT : Nat := 4294967295

/-- The value of `D3D11_INPUT_PER_VERTEX_DATA`. -/
def D3D11_INPUT_PER_VERTEX_DATA : Nat := 0

/-- The codes of `ERROR_LOG` that `Shader.cpp` uses. -/
inductive ERROR_LOG where
  | CANT_OPEN_FILE
deriving DecidableEq, Repr

/-- One message: `Log::Info`, `Log::Error` or `OutputDebugString`. -/
inductive LogEntry where
  | Info (s : String)
  | Error (code : ERROR_LOG) (s : String)
  | OutputDebugString (s : String)
deriving DecidableEq, Repr

/-- The functions `HandleCompileError` and `OutputShaderErrorMessage`: the text
of the error message when there is one, else the report that the file cannot be
opened; the run goes on. -/
def HandleCompileError (errorMessage : Option String) (shdPath : String)
    (log : List LogEntry) : List LogEntry :=
  match errorMessage with
  | some compileErrors => log ++ [LogEntry.OutputDebugString compileErrors]
  | none => log ++ [LogEntry.Error ERROR_LOG.CANT_OPEN_FILE shdPath]

/-- The table `shaderCompilerVersions`, indexed by the value of a
`ShaderType`. -/
def shaderCompilerVersions (index : Nat) : String :=
  match index with
  | 0 => "vs_5_0"
  | 1 => "gs_5_0"
  | 5 => "ps_5_0"
  | _ => ""

/-- The method `Shader::SetReflections(vsBlob, psBlob, gsBlob)`. A blob pointer
is `none` when null. The vertex and the pixel blobs are dereferenced, the
geometry blob only when it is not null; there is no result when a null blob is
dereferenced or when `D3DReflect` fails (`assert(false)`). -/
def Shader.SetReflections (shader : Shader) (vsBlob psBlob gsBlob : Option ID3D10Blob) :
    Option Shader :=
  -- Vertex Shader
  match vsBlob with
  | none => none
  | some vs =>
  match vs.reflection with
  | none => none
  | some vsRefl =>
  let shader := { shader with m_vsRefl := some vsRefl }
  -- Pixel Shader
  match psBlob with
  | none => none
  | some ps =>
  match ps.reflection with
  | none => none
  | some psRefl =>
  let shader := { shader with m_psRefl := some psRefl }
  -- Geometry Shader
  match gsBlob with
  | none => some shader
  | some gs =>
    match gs.reflection with
    | none => none
    | some gsRefl => some { shader with m_gsRefl := some gsRefl }

/-- The body of the loop of `Shader::Compile` over the bound resources of the
pixel stage, on `texSlot`, `smpSlot`, `m_textures` and `m_samplers`. -/
def Shader.Compile.resource
    (acc : (Nat × Nat) × List ShaderTexture × List ShaderSampler)
    (shdInpDesc : D3D11_SHADER_INPUT_BIND_DESC) :
    (Nat × Nat) × List ShaderTexture × List ShaderSampler :=
  let texSlot := acc.1.1
  let smpSlot := acc.1.2
  if shdInpDesc.Type_ = D3D_SHADER_INPUT_TYPE.D3D_SIT_SAMPLER then
    let smp : ShaderSampler :=
      { name := shdInpDesc.Name, shdType := ShaderType.PS, bufferSlot := smpSlot }
    ((texSlot, smpSlot + 1), acc.2.1, acc.2.2 ++ [smp])
  else if shdInpDesc.Type_ = D3D_SHADER_INPUT_TYPE.D3D_SIT_TEXTURE then
    let tex : ShaderTexture :=
      { name := shdInpDesc.Name, shdType := ShaderType.PS, bufferSlot := texSlot }
    ((texSlot + 1, smpSlot), acc.2.1 ++ [tex], acc.2.2)
  else acc

/-- The block `SET TEXTURES & SAMPLERS` of `Shader::Compile`, for the reflection
`sRefl` of the pixel stage. -/
def Shader.Compile.resources (shader : Shader) (sRefl : ID3D11ShaderReflection) : Shader :=
  let acc := sRefl.BoundResources.foldl Shader.Compile.resource
    ((0, 0), shader.m_textures, shader.m_samplers)
  { shader with m_textures := acc.2.1, m_samplers := acc.2.2 }

/-- The input layout that `Shader::Compile` sets up from `layouts`. -/
def Shader.Compile.inputLayout (layouts : List InputLayout) : List D3D11_INPUT_ELEMENT_DESC :=
  layouts.enum.map fun p =>
    { SemanticName := p.2.semanticName,
      SemanticIndex := 0,
      Format := p.2.format,
      InputSlot := 0,
      AlignedByteOffset := if p.1 = 0 then 0 else D3D11_APPEND_ALIGNED_ELEMENT,
      InputSlotClass := D3D11_INPUT_PER_VERTEX_DATA,
      InstanceDataStepRate := 0 }

/-- What `Shader::Compile` works on besides its arguments: the shader, the
statics of the pool, the device, the messages written, and the addresses of the
blobs released. -/
structure World where
  shader : Shader
  statics : CPUConstant.Statics
  device : ID3D11Device
  log : List LogEntry
  released : List Nat

/-- The statement `if (geoShader) { ... CreateGeometryShader ... }` of
`Shader::Compile`: the geometry blob is dereferenced when a geometry stage was
asked for. -/
def Shader.Compile.geometryProgram (shader : Shader) (device : ID3D11Device)
    (gsBlob : Option ID3D10Blob) (geoShader : Bool) : Option (Shader × ID3D11Device) :=
  if geoShader then
    match gsBlob with
    | none => none
    | some gs =>
      match device.CreateGeometryShader gs with
      | none => none
      | some geometry => some ({ shader with m_geometryShader := some geometry.1 }, geometry.2)
  else some (shader, device)

/-- The part of `Shader::Compile` behind the compilation of the stages: the
reflections, the stage programs, the input layout, the constant buffers, the
textures and samplers, and the release of the blobs. A blob pointer is `none`
when null; there is no result when a null blob is dereferenced or an
`assert(false)` is reached. -/
def Shader.Compile.create (world : World) (vsBlob : ID3D10Blob)
    (psBlob gsBlob : Option ID3D10Blob) (layouts : List InputLayout) (geoShader : Bool) :
    Option World := do
  let shader ← Shader.SetReflections world.shader (some vsBlob) psBlob gsBlob
  -- CREATE SHADER PROGRAMS
  let vertex ← world.device.CreateVertexShader vsBlob
  let shader := { shader with m_vertexShader := some vertex.1 }
  let ps ← psBlob
  let pixel ← vertex.2.CreatePixelShader ps
  let shader := { shader with m_pixelShader := some pixel.1 }
  let geometry ← Shader.Compile.geometryProgram shader pixel.2 gsBlob geoShader
  -- INPUT LAYOUT
  let layout ← geometry.2.CreateInputLayout (Shader.Compile.inputLayout layouts) vsBlob
  let shader := { geometry.1 with m_layout := some layout.1 }
  -- CBUFFERS & SHADER RESOURCES
  let buffers ← Shader.SetConstantBuffers layout.2 world.statics shader
  -- SET TEXTURES & SAMPLERS
  let sRefl ← buffers.1.m_psRefl
  let shader := Shader.Compile.resources buffers.1 sRefl
  -- release shader buffers
  let released := world.released ++ [vsBlob.address, ps.address]
  let released :=
    match gsBlob with
    | some gs => released ++ [gs.address]
    | none => released
  pure
    { shader := shader, statics := buffers.2.1, device := buffers.2.2,
      log := world.log ++ [LogEntry.OutputDebugString " - Done.\n"], released := released }

/-- The method `Shader::Compile(device, shaderFileName, layouts, geoShader)`.
`D3DCompileFromFile path entry target` is what the compiler answers: the blob, or
a failure with the error message if there is one. A failure of the vertex stage
is reported and ends the call; a failure of the geometry or of the pixel stage
is reported and the call goes on with a null blob. -/
def Shader.Compile
    (D3DCompileFromFile : String → String → String → Except (Option String) ID3D10Blob)
    (world : World) (shaderFileName : String) (layouts : List InputLayout)
    (geoShader : Bool) : Option World :=
  -- SHADER PATHS
  let vspath := shaderFileName ++ "_vs.hlsl"
  let gspath := shaderFileName ++ "_gs.hlsl"
  let pspath := shaderFileName ++ "_ps.hlsl"
  let info := "\tCompiling  \"" ++ world.shader.m_name ++ "\"...\t"
  let log := world.log ++ [LogEntry.Info info]
  -- vertex shader
  match D3DCompileFromFile vspath "VSMain" (shaderCompilerVersions ShaderType.VS.toNat) with
  | .error errorMessage =>
    some { world with log := HandleCompileError errorMessage vspath log }
  | .ok vsBlob =>
    -- geometry shader
    let gs : Option ID3D10Blob × List LogEntry :=
      if geoShader then
        match D3DCompileFromFile gspath "GSMain" (shaderCompilerVersions ShaderType.GS.toNat) with
        | .error errorMessage => (none, HandleCompileError errorMessage gspath log)
        | .ok gsBlob => (some gsBlob, log)
      else (none, log)
    -- pixel shader
    let ps : Option ID3D10Blob × List LogEntry :=
      match D3DCompileFromFile pspath "PSMain" (shaderCompilerVersions ShaderType.PS.toNat) with
      | .error errorMessage => (none, HandleCompileError errorMessage pspath gs.2)
      | .ok psBlob => (some psBlob, gs.2)
    Shader.Compile.create { world with log := ps.2 } vsBlob ps.1 gs.1 layouts geoShader

/-! ### The setters of constants -/

/-- A `float`, as the four bytes that hold it. -/
structure float where
  b0 : Byte
  b1 : Byte
  b2 : Byte
  b3 : Byte
deriving DecidableEq, Repr

/-- The bytes of a `float`. -/
def float.bytes (value : float) : List Byte :=
  [value.b0, value.b1, value.b2, value.b3]

/-- Modelled from the spec: the step of the linear scan of
`SetConstant(name, data, byteSize)` (section 4.3 of the spec; its code is in
`Renderer.cpp`, which is not among the sources) for one declared constant, on
the statics of the pool, `m_cBuffers`, and whether the name was found: on a
match of the name, the byte buffer of the constant is overwritten with `data`
and the buffer that owns the constant is marked dirty. -/
def Shader.SetConstant.step (name : String) (data : List Byte)
    (acc : CPUConstant.Statics × List ConstantBuffer × Bool)
    (indexIDPair : ConstantBufferMapping) :
    CPUConstant.Statics × List ConstantBuffer × Bool :=
  let c := CPUConstant.Get acc.1 indexIDPair.2
  if c._name = name then
    ({ acc.1 with
        s_constants := Function.update acc.1.s_constants indexIDPair.2 { c with _data := some data } },
      (match acc.2.1[indexIDPair.1]? with
        | some CB => acc.2.1.set indexIDPair.1 { CB with dirty := true }
        | none => acc.2.1),
      true)
  else acc

/-- Modelled from the spec: `SetConstant(name, data, byteSize)` (section 4.3 of
the spec; `Renderer.cpp` is not among the sources) on the bound shader: a linear
scan, by name, of the declared constants of all the buffers of the shader. The
result tells whether the name was found; when it was not, nothing is changed
(the spec leaves the scan of two constants of the same name open: every match is
treated here). -/
def Shader.SetConstant (statics : CPUConstant.Statics) (shader : Shader) (name : String)
    (data : List Byte) : CPUConstant.Statics × Shader × Bool :=
  let acc := shader.m_constantsUnsorted.foldl (Shader.SetConstant.step name data)
    (statics, shader.m_cBuffers, false)
  (acc.1, { shader with m_cBuffers := acc.2.1 }, acc.2.2)

/-- Modelled from the spec: `Renderer::SetConstant1f(name, value)` on the bound
shader (`Renderer.cpp` is not among the sources), the typed setter of one
`float` of section 4.3 of the spec: the size of a declared constant of that name
must be the 4 bytes of a `float`, a mismatch being a fatal error (no result);
else it is `SetConstant` with the bytes of the value. -/
def Renderer.SetConstant1f (statics : CPUConstant.Statics) (shader : Shader) (name : String)
    (value : float) : Option (CPUConstant.Statics × Shader × Bool) :=
  if shader.m_constantsUnsorted.all fun indexIDPair =>
      decide ((CPUConstant.Get statics indexIDPair.2)._name = name →
        (CPUConstant.Get statics indexIDPair.2)._size = 4) then
    some (Shader.SetConstant statics shader name value.bytes)
  else none

/-! ## The shadow pass -/

/-- The constant `DRAW_INSTANCED_COUNT_DEPTH_PASS`. -/
def DRAW_INSTANCED_COUNT_DEPTH_PASS : Nat := 256

/-- The struct `PerObjectMatrices`. The type `XMMATRIX` of the matrices is left
open. -/
structure PerObjectMatrices (XMMATRIX : Type) where
  wvp : XMMATRIX

/-- The struct `InstancedObjectCBuffer`: the array `objMatrices`, of
`DRAW_INSTANCED_COUNT_DEPTH_PASS` entries, by index. -/
structure InstancedObjectCBuffer (XMMATRIX : Type) where
  objMatrices : Nat → PerObjectMatrices XMMATRIX

/-- A `GameObject`, as far as the instanced depth pass reads it: the matrix
`GetTransform().WorldTransformationMatrix()`. -/
structure GameObject (XMMATRIX : Type) where
  WorldTransformationMatrix : XMMATRIX

/-- A call the instanced depth pass makes on the renderer; `SetConstantStruct`
is recorded with the contents of the struct it is given. -/
inductive RendererCall (XMMATRIX : Type) where
  | SetConstantStruct (name : String) (data : InstancedObjectCBuffer XMMATRIX)
  | Apply
  | DrawIndexedInstanced (instanceCount : Nat)

/-- What the loop over the batches of one render list works on: the struct
`cbuffer`, the calls made on the renderer, and the indices at which
`renderList` has been read. -/
structure ShadowMapPass.RenderShadowMaps.Instanced (XMMATRIX : Type) where
  cbuffer : InstancedObjectCBuffer XMMATRIX
  calls : List (RendererCall XMMATRIX)
  read : List Nat

/-- The loop `for (; instanceID < DRAW_INSTANCED_COUNT_DEPTH_PASS; ++instanceID)`
of `ShadowMapPass::RenderShadowMaps`, from `instanceID` on; `remaining` is how
often the condition of the loop still holds, that is
`DRAW_INSTANCED_COUNT_DEPTH_PASS - instanceID`. The result is `instanceID` when
the loop is left; there is none when `renderList` is read behind its end. -/
def ShadowMapPass.RenderShadowMaps.instances {XMMATRIX : Type}
    (mul : XMMATRIX → XMMATRIX → XMMATRIX) (viewProj : XMMATRIX)
    (renderList : List (GameObject XMMATRIX)) (batchCount : Nat) :
    Nat → Nat → ShadowMapPass.RenderShadowMaps.Instanced XMMATRIX →
      Option (Nat × ShadowMapPass.RenderShadowMaps.Instanced XMMATRIX)
  | 0, instanceID, state => some (instanceID, state)
  | remaining + 1, instanceID, state =>
    let renderListIndex := DRAW_INSTANCED_COUNT_DEPTH_PASS * batchCount + instanceID
    if renderListIndex = renderList.length then some (instanceID, state)
    else
      match renderList[renderListIndex]? with
      | none => none
      | some pObj =>
        ShadowMapPass.RenderShadowMaps.instances mul viewProj renderList batchCount remaining
          (instanceID + 1)
          { state with
            cbuffer :=
              { objMatrices := Function.update state.cbuffer.objMatrices instanceID
                  { wvp := mul pObj.WorldTransformationMatrix viewProj } },
            read := state.read ++ [renderListIndex] }

/-- The loop `do { ... } while (batchCount++ < renderList.size() /
DRAW_INSTANCED_COUNT_DEPTH_PASS)` of `ShadowMapPass::RenderShadowMaps` for one
render list, from `batchCount` on, with at most `fuel` runs of its body. The
result is `batchCount` when the loop is left, and the state; there is none when
the fuel runs out or `renderList` is read behind its end. -/
def ShadowMapPass.RenderShadowMaps.batches {XMMATRIX : Type}
    (mul : XMMATRIX → XMMATRIX → XMMATRIX) (viewProj : XMMATRIX)
    (renderList : List (GameObject XMMATRIX)) :
    Nat → Nat → ShadowMapPass.RenderShadowMaps.Instanced XMMATRIX →
      Option (Nat × ShadowMapPass.RenderShadowMaps.Instanced XMMATRIX)
  | 0, _, _ => none
  | fuel + 1, batchCount, state =>
    match ShadowMapPass.RenderShadowMaps.instances mul viewProj renderList batchCount
        DRAW_INSTANCED_COUNT_DEPTH_PASS 0 state with
    | none => none
    | some (instanceID, state) =>
      let state :=
        { state with
          calls := state.calls ++
            [RendererCall.SetConstantStruct "ObjMats" state.cbuffer,
             RendererCall.Apply,
             RendererCall.DrawIndexedInstanced instanceID] }
      if batchCount < renderList.length / DRAW_INSTANCED_COUNT_DEPTH_PASS then
        ShadowMapPass.RenderShadowMaps.batches mul viewProj renderList fuel (batchCount + 1) state
      else some (batchCount + 1, state)

/-! ## Vocabulary of the properties

The definitions below are not taken from the source: they name what the
properties speak of (the constants mapped to a buffer, the calls an upload is
expected to make, what is read off a list of calls). -/

/-- The CPU constants mapped to the constant buffer of index `i`: the constants
of the entries of `m_constantsUnsorted` whose first component is `i`, in the
order of the list. -/
def Shader.packed (statics : CPUConstant.Statics)
    (m_constantsUnsorted : List ConstantBufferMapping) (i : Nat) : List CPUConstant :=
  (m_constantsUnsorted.filter fun indexIDPair => indexIDPair.1 == i).map
    fun indexIDPair => CPUConstant.Get statics indexIDPair.2

/-- Copies of the constants `cs`, one after the other with no gap, into the
buffer at `data` from the offset `offset` on. -/
def memcpyCalls (data : Nat) : Nat → List CPUConstant → List ContextCall
  | _, [] => []
  | offset, c :: rest =>
    ContextCall.memcpy data offset c.bytes :: memcpyCalls data (offset + c._size) rest

/-- The constant buffer `CB` of index `i` after an upload: a dirty buffer holds
the bytes of its constants and is clean; a clean one is left as it is. -/
def Shader.UpdateConstants.uploaded (statics : CPUConstant.Statics)
    (m_constantsUnsorted : List ConstantBufferMapping) (i : Nat) (CB : ConstantBuffer) :
    ConstantBuffer :=
  if CB.dirty then
    { CB with
      data := CB.data.map fun (buffer : ID3D11Buffer) =>
        { buffer with
          contents := (Shader.packed statics m_constantsUnsorted i).flatMap CPUConstant.bytes },
      dirty := false }
  else CB

/-- The calls expected for the constant buffer `CB` of index `i`: for a dirty
buffer its `Map`, the copies of its constants, its `Unmap` and its bind; none
for a clean one. -/
def Shader.UpdateConstants.issued (statics : CPUConstant.Statics)
    (m_constantsUnsorted : List ConstantBufferMapping) (i : Nat) (CB : ConstantBuffer) :
    List ContextCall :=
  if CB.dirty then
    ContextCall.Map (ID3D11Buffer.pointer CB.data)
      :: memcpyCalls (ID3D11Buffer.pointer CB.data) 0 (Shader.packed statics m_constantsUnsorted i)
      ++ [ContextCall.Unmap (ID3D11Buffer.pointer CB.data),
          SetShaderConstants CB.shdType.toNat CB.bufferSlot 1 [ID3D11Buffer.pointer CB.data]]
  else []

/-- Whether a call is one of the six `XSSetConstantBuffers`. -/
def ContextCall.isBind : ContextCall → Bool
  | .Map _ => false
  | .memcpy _ _ _ => false
  | .Unmap _ => false
  | _ => true

/-- Whether a call is a `Map`. -/
def ContextCall.isMap : ContextCall → Bool
  | .Map _ => true
  | _ => false

/-- The CPU constant that `Shader::SetConstantBuffers` is expected to make of a
variable: its name, its size, and a block of that many zero bytes. -/
def Shader.SetConstantBuffers.constantOf (varDesc : D3D11_SHADER_VARIABLE_DESC) : CPUConstant :=
  { _name := varDesc.Name, _size := varDesc.Size,
    _data := some (List.replicate varDesc.Size (0 : Byte)) }

/-- The mappings expected for a list of layouts: for each layout in turn, one
entry for each of its variables, with the index of the layout (counted from
`constantBufferSlot`) and consecutive identifiers (counted from `id`). -/
def Shader.SetConstantBuffers.mappings :
    Nat → CPUConstantID → List ConstantBufferLayout → List ConstantBufferMapping
  | _, _, [] => []
  | constantBufferSlot, id, cbLayout :: rest =>
    (List.range' id cbLayout.vars.length).map (fun c_id => (constantBufferSlot, c_id))
      ++ Shader.SetConstantBuffers.mappings (constantBufferSlot + 1) (id + cbLayout.vars.length) rest

/-- The constant buffer expected for the layout of index `k`, on a device that
had created `created` buffers before: dirty, with the stage and the slot of the
layout, and a buffer of `desc.Size` bytes. -/
def Shader.SetConstantBuffers.bufferOf (created : Nat) (k : Nat)
    (cbLayout : ConstantBufferLayout) : ConstantBuffer :=
  { shdType := cbLayout.shdType, bufferSlot := cbLayout.bufSlot,
    data := some
      { address := created + 1 + k,
        desc := { Shader.SetConstantBuffers.cBufferDesc with ByteWidth := cbLayout.desc.Size },
        contents := [] },
    dirty := true }

/-- The layout expected for the constant buffer `pCBuffer` of a stage: its
description, the descriptions of its variables and of their types in the order
of reflection, the stage, the slot, and the sum of the sizes of the
variables. -/
def Shader.RegisterConstantBufferLayout.layoutOf (type : ShaderType) (bufSlot : Nat)
    (pCBuffer : ID3D11ShaderReflectionConstantBuffer) : ConstantBufferLayout :=
  { desc := pCBuffer.GetDesc,
    vars := pCBuffer.vars.map fun pVariable => pVariable.desc,
    types := pCBuffer.vars.map fun pVariable => pVariable.type,
    shdType := type, bufSlot := bufSlot,
    buffSize := (pCBuffer.vars.map fun pVariable => pVariable.desc.Size).sum }

/-- The instance counts of the `DrawIndexedInstanced` among `calls`, in order. -/
def RendererCall.draws {XMMATRIX : Type} (calls : List (RendererCall XMMATRIX)) : List Nat :=
  calls.filterMap fun call =>
    match call with
    | .DrawIndexedInstanced instanceCount => some instanceCount
    | _ => none

/-- The struct `cbuffer` with its first `count` entries taken from the objects
of `renderList` from the index `first` on. -/
def ShadowMapPass.RenderShadowMaps.filled {XMMATRIX : Type}
    (mul : XMMATRIX → XMMATRIX → XMMATRIX) (viewProj : XMMATRIX)
    (renderList : List (GameObject XMMATRIX)) (cbuffer : InstancedObjectCBuffer XMMATRIX)
    (first count : Nat) : InstancedObjectCBuffer XMMATRIX :=
  { objMatrices := fun j =>
      if j < count then
        match renderList[first + j]? with
        | some pObj => { wvp := mul pObj.WorldTransformationMatrix viewProj }
        | none => cbuffer.objMatrices j
      else cbuffer.objMatrices j }

/-- The number of instances expected in the batch `batchCount` of a render list
of `n` objects. -/
def ShadowMapPass.RenderShadowMaps.instanceCount (n batchCount : Nat) : Nat :=
  min DRAW_INSTANCED_COUNT_DEPTH_PASS (n - DRAW_INSTANCED_COUNT_DEPTH_PASS * batchCount)

/-- The state expected after the batch `batchCount`: the struct filled with the
objects of the batch, the three calls of the batch, and the indices of the batch
read. -/
def ShadowMapPass.RenderShadowMaps.batchOf {XMMATRIX : Type}
    (mul : XMMATRIX → XMMATRIX → XMMATRIX) (viewProj : XMMATRIX)
    (renderList : List (GameObject XMMATRIX))
    (state : ShadowMapPass.RenderShadowMaps.Instanced XMMATRIX) (batchCount : Nat) :
    ShadowMapPass.RenderShadowMaps.Instanced XMMATRIX :=
  let count := ShadowMapPass.RenderShadowMaps.instanceCount renderList.length batchCount
  let cbuffer := ShadowMapPass.RenderShadowMaps.filled mul viewProj renderList state.cbuffer
    (DRAW_INSTANCED_COUNT_DEPTH_PASS * batchCount) count
  { cbuffer := cbuffer,
    calls := state.calls ++
      [RendererCall.SetConstantStruct "ObjMats" cbuffer,
       RendererCall.Apply,
       RendererCall.DrawIndexedInstanced count],
    read := state.read ++ List.range' (DRAW_INSTANCED_COUNT_DEPTH_PASS * batchCount) count }

/-- The state expected after the batches `0, ..., m - 1`. -/
def ShadowMapPass.RenderShadowMaps.afterBatches {XMMATRIX : Type}
    (mul : XMMATRIX → XMMATRIX → XMMATRIX) (viewProj : XMMATRIX)
    (renderList : List (GameObject XMMATRIX))
    (state : ShadowMapPass.RenderShadowMaps.Instanced XMMATRIX) (m : Nat) :
    ShadowMapPass.RenderShadowMaps.Instanced XMMATRIX :=
  (List.range m).foldl (ShadowMapPass.RenderShadowMaps.batchOf mul viewProj renderList) state

/-- Whether a call is a copy into mapped memory. -/
def ContextCall.isCopy : ContextCall → Bool
  | .memcpy _ _ _ => true
  | _ => false

/-- What `std::sort` asks of its comparison on the elements of the range: a
strict weak ordering, that is, no element is before itself, no two elements are
before each other, being before is transitive, and so is being neither before
nor behind. -/
def StrictWeakOrdering {α : Type} (comp : α → α → Bool) (range : List α) : Prop :=
  (∀ a ∈ range, comp a a = false) ∧
  (∀ a ∈ range, ∀ b ∈ range, comp a b = true → comp b a = false) ∧
  (∀ a ∈ range, ∀ b ∈ range, ∀ c ∈ range, comp a b = true → comp b c = true →
    comp a c = true) ∧
  (∀ a ∈ range, ∀ b ∈ range, ∀ c ∈ range,
    (comp a b = false ∧ comp b a = false) → (comp b c = false ∧ comp c b = false) →
    (comp a c = false ∧ comp c a = false))

/-! ## Examples

The values at which the properties below are shown to apply. -/

/-- A pool in which every slot holds the two bytes 1 and 2. -/
def Example.statics : CPUConstant.Statics :=
  { s_constants := fun _ => { _name := "c", _size := 2, _data := some [1, 2] },
    s_nextConstIndex := 0 }

/-- A device buffer of 16 bytes at the pointer 1, with no byte written. -/
def Example.buffer : ID3D11Buffer :=
  { address := 1, desc := { Shader.SetConstantBuffers.cBufferDesc with ByteWidth := 16 },
    contents := [] }

/-- A dirty constant buffer of the vertex stage. -/
def Example.dirtyCB : ConstantBuffer :=
  { shdType := .VS, bufferSlot := 0, data := some Example.buffer, dirty := true }

/-- A clean constant buffer of the pixel stage, whose device buffer holds one
byte. -/
def Example.cleanCB : ConstantBuffer :=
  { shdType := .PS, bufferSlot := 0,
    data := some { Example.buffer with address := 2, contents := [some 7] }, dirty := false }

/-- A shader with a dirty and a clean constant buffer; the constants 0 and 2
are mapped to the first one and the constant 1 to the second one. -/
def Example.shader : Shader :=
  { Shader.new "example" none none none with
    m_cBuffers := [Example.dirtyCB, Example.cleanCB],
    m_constantsUnsorted := [(0, 0), (1, 1), (0, 2)] }

/-- A member variable of a reflected constant buffer, with its name, its offset
in the buffer and its size; its type is not looked at. -/
def Example.variable (Name : String) (StartOffset Size : Nat) : ID3D11ShaderReflectionVariable :=
  { desc := { Name := Name, StartOffset := StartOffset, Size := Size },
    type := { Rows := 1, Columns := 1 } }

/-- The reflection of a stage that declares `cbuffer { float3 v; }`: one variable
of 12 bytes in a buffer whose size is rounded up to 16 bytes. -/
def Example.float3Refl : ID3D11ShaderReflection :=
  { address := 100,
    ConstantBuffers := [{ Name := "padded", Size := 16, vars := [Example.variable "v" 0 12] }],
    BoundResources := [] }

/-- The reflection of a stage that declares, in this order, the constants `z` of
4 bytes, `m` of 12 bytes and `a` of 16 bytes in one buffer of 32 bytes. -/
def Example.orderRefl : ID3D11ShaderReflection :=
  { address := 101,
    ConstantBuffers :=
      [{ Name := "ordered", Size := 32,
         vars := [Example.variable "z" 0 4, Example.variable "m" 4 12,
           Example.variable "a" 16 16] }],
    BoundResources := [] }

/-- A device that has created no buffer yet and on which no `CreateBuffer`
fails. -/
def Example.device : ID3D11Device :=
  { created := 0, CreateBufferFAILED := fun _ _ => false }

/-- A pool of default constants of which 3 slots are taken. -/
def Example.pool : CPUConstant.Statics :=
  { s_constants := fun _ => { _name := "", _size := 0, _data := none }, s_nextConstIndex := 3 }

/-- A shader on which `Shader::SetConstantBuffers` has not run yet: the vertex
stage declares the three ordered constants and the pixel stage the padded
buffer. -/
def Example.compiling : Shader :=
  Shader.new "example" (some Example.orderRefl) (some Example.float3Refl) none

/-- The shader, the pool and the device after `Shader::SetConstantBuffers` on
the example. -/
def Example.produced : Shader × CPUConstant.Statics × ID3D11Device :=
  match Shader.SetConstantBuffers Example.device Example.pool Example.compiling with
  | some result => result
  | none => (Example.compiling, Example.pool, Example.device)

/-- The reflection of a pixel stage that declares a sampler, the padded
constant buffer, two textures and another sampler, in this order. -/
def Example.texturedRefl : ID3D11ShaderReflection :=
  { address := 102,
    ConstantBuffers := [{ Name := "padded", Size := 16, vars := [Example.variable "v" 0 12] }],
    BoundResources :=
      [{ Name := "Sampler", Type_ := .D3D_SIT_SAMPLER },
       { Name := "padded", Type_ := .D3D_SIT_CBUFFER },
       { Name := "ColorTexture", Type_ := .D3D_SIT_TEXTURE },
       { Name := "DepthTexture", Type_ := .D3D_SIT_TEXTURE },
       { Name := "PointSampler", Type_ := .D3D_SIT_SAMPLER }] }

/-- The reflection of a geometry stage that declares nothing. -/
def Example.geometryRefl : ID3D11ShaderReflection :=
  { address := 103, ConstantBuffers := [], BoundResources := [] }

/-- The blob of a compiled vertex stage. -/
def Example.vsBlob : ID3D10Blob := { address := 200, reflection := some Example.orderRefl }

/-- The blob of a compiled geometry stage. -/
def Example.gsBlob : ID3D10Blob := { address := 201, reflection := some Example.geometryRefl }

/-- The blob of a compiled pixel stage. -/
def Example.psBlob : ID3D10Blob := { address := 202, reflection := some Example.texturedRefl }

/-- A compiler that fails, without an error message, on the entry point
`failing` and answers the blob of the stage on the others. -/
def Example.compiler (failing : String) (_path entry _target : String) :
    Except (Option String) ID3D10Blob :=
  if entry = failing then Except.error none
  else if entry = "VSMain" then Except.ok Example.vsBlob
  else if entry = "GSMain" then Except.ok Example.gsBlob
  else Except.ok Example.psBlob

/-- A new shader named `tonemapping` before `Shader::Compile`, with the example
pool and the example device; nothing written, nothing released. -/
def Example.world : World :=
  { shader := Shader.new "tonemapping" none none none, statics := Example.pool,
    device := Example.device, log := [], released := [] }

/-- A shader whose three stages are compiled: it holds the three reflection
objects, the three programs, an input layout and one constant buffer. -/
def Example.compiled : Shader :=
  { Shader.new "example" (some Example.orderRefl) (some Example.float3Refl)
      (some { address := 103, ConstantBuffers := [], BoundResources := [] }) with
    m_vertexShader := some 1, m_pixelShader := some 2, m_geometryShader := some 3,
    m_layout := some 4,
    m_cBuffers := [{ Example.dirtyCB with data := some { Example.buffer with address := 5 } }] }

/-- A pool with the constants `color`, `exposure` and `isHDR`, of 4 bytes
each, in the slots 0, 1 and 2. -/
def Example.tonemappingPool : CPUConstant.Statics :=
  { s_constants := fun id =>
      { _name := if id = 0 then "color" else if id = 1 then "exposure" else if id = 2 then "isHDR"
          else "",
        _size := 4, _data := some [0, 0, 0, 0] },
    s_nextConstIndex := 3 }

/-- A shader with two clean constant buffers: `color` is mapped to the first
one, `exposure` and `isHDR` to the second one. -/
def Example.tonemapping : Shader :=
  { Shader.new "tonemapping" none none none with
    m_cBuffers := [Example.cleanCB, { Example.cleanCB with bufferSlot := 1 }],
    m_constants := [(0, 0), (1, 1), (1, 2)],
    m_constantsUnsorted := [(0, 0), (1, 1), (1, 2)] }

/-- The pool, the shader and the flag after `SetConstant1f("exposure", v)` on
the tonemapping shader, `v` being the `float` of the bytes 1, 2, 3, 4. -/
def Example.exposureSet : CPUConstant.Statics × Shader × Bool :=
  match Renderer.SetConstant1f Example.tonemappingPool Example.tonemapping "exposure"
      { b0 := 1, b1 := 2, b2 := 3, b3 := 4 } with
  | some result => result
  | none => (Example.tonemappingPool, Example.tonemapping, false)

/-- A render list of `n` objects, the object of index `k` with the matrix
`k + 1`; the matrices are natural numbers here. -/
def Example.objects (n : Nat) : List (GameObject Nat) :=
  (List.range n).map fun k => { WorldTransformationMatrix := k + 1 }

/-- The state before the batches of a render list: the struct holds zeros,
nothing is called, nothing is read. -/
def Example.instanced : ShadowMapPass.RenderShadowMaps.Instanced Nat :=
  { cbuffer := { objMatrices := fun _ => { wvp := 0 } }, calls := [], read := [] }

theorem memcpy_at_end (dest src : List Cell) : memcpy dest dest.length src = dest ++ src := by
  simp [memcpy]

/-- A copy of a constant reads `_size` bytes. -/
theorem CPUConstant.length_bytes (c : CPUConstant) : c.bytes.length = c._size := by
  simp [CPUConstant.bytes, CPUConstant.read]

/-- The copy loop of `Shader::UpdateConstants`, started with `bufferPos` at the end of the
region: it appends the bytes of the constants mapped to `i`, advances `bufferPos` by their
sizes, and records one copy for each of them. -/
theorem copy_foldl (statics : CPUConstant.Statics) (i data : Nat)
    (l : List ConstantBufferMapping) :
    ∀ mapped : Shader.UpdateConstants.Mapped, mapped.bufferPos = mapped.pData.length →
      l.foldl (Shader.UpdateConstants.copy statics i data) mapped =
        { pData := mapped.pData ++ (Shader.packed statics l i).flatMap CPUConstant.bytes,
          bufferPos := mapped.bufferPos + ((Shader.packed statics l i).map CPUConstant._size).sum,
          context := { calls := mapped.context.calls ++
            memcpyCalls data mapped.bufferPos (Shader.packed statics l i) } } := by
  induction l with
  | nil => intro mapped _; simp [Shader.packed, memcpyCalls]
  | cons m l ih =>
    intro mapped hpos
    rw [List.foldl_cons]
    by_cases hm : m.1 = i
    · have hstep : Shader.UpdateConstants.copy statics i data mapped m =
          { pData := mapped.pData ++ (CPUConstant.Get statics m.2).bytes,
            bufferPos := mapped.bufferPos + (CPUConstant.Get statics m.2)._size,
            context := { calls := mapped.context.calls ++
              [ContextCall.memcpy data mapped.bufferPos (CPUConstant.Get statics m.2).bytes] } } := by
        simp [Shader.UpdateConstants.copy, hm, hpos, memcpy_at_end]
      rw [hstep, ih _ (by simp [hpos, CPUConstant.length_bytes])]
      simp [Shader.packed, hm, memcpyCalls, Nat.add_assoc]
    · have hstep : Shader.UpdateConstants.copy statics i data mapped m = mapped := by
        simp [Shader.UpdateConstants.copy, hm]
      rw [hstep, ih _ hpos]
      simp [Shader.packed, hm]

/-- Storing back the element that is already there changes nothing. -/
theorem set_of_getElem? {α : Type} (l : List α) (i : Nat) (a : α) (h : l[i]? = some a) :
    l.set i a = l := by
  induction l generalizing i with
  | nil => simp
  | cons b l ih =>
    cases i with
    | zero => simp at h; simp [h]
    | succ i => simp at h; simp [ih i h]

/-- One iteration of the loop of `Shader::UpdateConstants` on an index in range. -/
theorem body_eq (statics : CPUConstant.Statics) (i : Nat) (shader : Shader)
    (context : ID3D11DeviceContext) (CB : ConstantBuffer) (h : shader.m_cBuffers[i]? = some CB) :
    Shader.UpdateConstants.body statics i (shader, context) =
      ({ shader with
          m_cBuffers := shader.m_cBuffers.set i
            (Shader.UpdateConstants.uploaded statics shader.m_constantsUnsorted i CB) },
        { calls := context.calls ++
            Shader.UpdateConstants.issued statics shader.m_constantsUnsorted i CB }) := by
  by_cases hd : CB.dirty = true
  · simp only [Shader.UpdateConstants.body, h, hd, if_true]
    rw [copy_foldl statics i _ _ _ rfl]
    simp [Shader.UpdateConstants.uploaded, Shader.UpdateConstants.issued, hd]
  · simp only [Shader.UpdateConstants.body, h, hd]
    simp [Shader.UpdateConstants.uploaded, Shader.UpdateConstants.issued, hd,
      set_of_getElem? _ _ _ h]

/-- The iterations of `Shader::UpdateConstants` for the buffers `rest`, behind the buffers
`pre` that are done. -/
theorem loop_eq (statics : CPUConstant.Statics) (shader : Shader) (rest : List ConstantBuffer) :
    ∀ (pre : List ConstantBuffer) (context : ID3D11DeviceContext),
      (List.range' pre.length rest.length).foldl
          (fun state i => Shader.UpdateConstants.body statics i state)
          ({ shader with m_cBuffers := pre ++ rest }, context) =
        ({ shader with
            m_cBuffers := pre ++ (rest.enumFrom pre.length).map fun p =>
              Shader.UpdateConstants.uploaded statics shader.m_constantsUnsorted p.1 p.2 },
          { calls := context.calls ++ (rest.enumFrom pre.length).flatMap fun p =>
              Shader.UpdateConstants.issued statics shader.m_constantsUnsorted p.1 p.2 }) := by
  induction rest with
  | nil => intro pre context; simp
  | cons CB rest ih =>
    intro pre context
    have hget : ({ shader with m_cBuffers := pre ++ CB :: rest } : Shader).m_cBuffers[pre.length]?
        = some CB := by
      show (pre ++ CB :: rest)[pre.length]? = some CB
      rw [List.getElem?_append_right (Nat.le_refl _)]
      simp
    rw [List.length_cons, List.range'_succ, List.foldl_cons, body_eq statics _ _ _ CB hget]
    have hset : (pre ++ CB :: rest).set pre.length
        (Shader.UpdateConstants.uploaded statics shader.m_constantsUnsorted pre.length CB) =
        (pre ++ [Shader.UpdateConstants.uploaded statics shader.m_constantsUnsorted pre.length CB])
          ++ rest := by simp
    have hlen : pre.length + 1 =
        (pre ++ [Shader.UpdateConstants.uploaded statics shader.m_constantsUnsorted
          pre.length CB]).length := by simp
    simp only [hset]
    rw [hlen]
    have := ih (pre ++ [Shader.UpdateConstants.uploaded statics shader.m_constantsUnsorted
          pre.length CB]) { calls := context.calls ++
            Shader.UpdateConstants.issued statics shader.m_constantsUnsorted pre.length CB }
    simp only [] at this
    rw [this]
    simp [List.enumFrom_cons]

/-- The closed form of `Shader::UpdateConstants`: each buffer is uploaded when dirty, and
the calls of the buffers follow one another in the order of the indices. -/
theorem UpdateConstants_eq (statics : CPUConstant.Statics) (shader : Shader)
    (context : ID3D11DeviceContext) :
    Shader.UpdateConstants statics shader context =
      ({ shader with
          m_cBuffers := shader.m_cBuffers.enum.map fun p =>
            Shader.UpdateConstants.uploaded statics shader.m_constantsUnsorted p.1 p.2 },
        { calls := context.calls ++ shader.m_cBuffers.enum.flatMap fun p =>
            Shader.UpdateConstants.issued statics shader.m_constantsUnsorted p.1 p.2 }) := by
  have := loop_eq statics shader shader.m_cBuffers [] context
  simp only [List.nil_append, List.length_nil] at this
  rw [Shader.UpdateConstants, List.range_eq_range', this]
  rfl

/-- The loop over the variables of one layout in `Shader::SetConstantBuffers`. -/
theorem variable_foldl (slot : Nat) (vars : List D3D11_SHADER_VARIABLE_DESC) :
    ∀ (statics : CPUConstant.Statics) (ms : List ConstantBufferMapping),
      (vars.foldl (Shader.SetConstantBuffers.variable slot) (statics, ms)).2 =
          ms ++ (List.range' statics.s_nextConstIndex vars.length).map (fun id => (slot, id)) ∧
      (vars.foldl (Shader.SetConstantBuffers.variable slot) (statics, ms)).1.s_nextConstIndex =
          statics.s_nextConstIndex + vars.length ∧
      (∀ id, id < statics.s_nextConstIndex →
        (vars.foldl (Shader.SetConstantBuffers.variable slot) (statics, ms)).1.s_constants id =
          statics.s_constants id) ∧
      (∀ k v, vars[k]? = some v →
        (vars.foldl (Shader.SetConstantBuffers.variable slot) (statics, ms)).1.s_constants
          (statics.s_nextConstIndex + k) = Shader.SetConstantBuffers.constantOf v) := by
  induction vars with
  | nil => intro statics ms; simp
  | cons v vars ih =>
    intro statics ms
    rw [List.foldl_cons]
    have hstep : Shader.SetConstantBuffers.variable slot (statics, ms) v =
        ({ s_constants := Function.update statics.s_constants statics.s_nextConstIndex
              (Shader.SetConstantBuffers.constantOf v),
           s_nextConstIndex := statics.s_nextConstIndex + 1 },
          ms ++ [(slot, statics.s_nextConstIndex)]) := by
      simp [Shader.SetConstantBuffers.variable, CPUConstant.GetNextAvailable,
        Shader.SetConstantBuffers.constantOf]
    rw [hstep]
    obtain ⟨h1, h2, h3, h4⟩ := ih
      { s_constants := Function.update statics.s_constants statics.s_nextConstIndex
              (Shader.SetConstantBuffers.constantOf v),
        s_nextConstIndex := statics.s_nextConstIndex + 1 }
      (ms ++ [(slot, statics.s_nextConstIndex)])
    refine ⟨?_, ?_, ?_, ?_⟩
    · rw [h1]; simp [List.range'_succ]
    · rw [h2]; simp; omega
    · intro id hid
      rw [h3 id (by simp; omega)]
      simp [Function.update, Nat.ne_of_lt hid]
    · intro k w hk
      cases k with
      | zero =>
        simp at hk
        rw [Nat.add_zero, h3 _ (by simp), ← hk]
        simp [Function.update]
      | succ k =>
        simp at hk
        have := h4 k w hk
        simp only [] at this
        rw [← this]
        congr 1
        omega

/-- The loop over the layouts that creates the CPU constants in
`Shader::SetConstantBuffers`. -/
theorem layout_foldl (layouts : List ConstantBufferLayout) :
    ∀ (statics : CPUConstant.Statics) (ms : List ConstantBufferMapping) (slot : Nat),
      (layouts.foldl Shader.SetConstantBuffers.layout ((statics, ms), slot)).1.2 =
          ms ++ Shader.SetConstantBuffers.mappings slot statics.s_nextConstIndex layouts ∧
      (layouts.foldl Shader.SetConstantBuffers.layout ((statics, ms), slot)).1.1.s_nextConstIndex =
          statics.s_nextConstIndex + (layouts.flatMap (·.vars)).length ∧
      (∀ id, id < statics.s_nextConstIndex →
        (layouts.foldl Shader.SetConstantBuffers.layout ((statics, ms), slot)).1.1.s_constants id =
          statics.s_constants id) ∧
      (∀ k v, (layouts.flatMap (·.vars))[k]? = some v →
        (layouts.foldl Shader.SetConstantBuffers.layout ((statics, ms), slot)).1.1.s_constants
          (statics.s_nextConstIndex + k) = Shader.SetConstantBuffers.constantOf v) := by
  induction layouts with
  | nil => intro statics ms slot; simp [Shader.SetConstantBuffers.mappings]
  | cons L layouts ih =>
    intro statics ms slot
    rw [List.foldl_cons]
    obtain ⟨v1, v2, v3, v4⟩ := variable_foldl slot L.vars statics ms
    have hstep : Shader.SetConstantBuffers.layout ((statics, ms), slot) L =
        (((L.vars.foldl (Shader.SetConstantBuffers.variable slot) (statics, ms)).1,
          (L.vars.foldl (Shader.SetConstantBuffers.variable slot) (statics, ms)).2), slot + 1) := by
      simp [Shader.SetConstantBuffers.layout]
    rw [hstep]
    obtain ⟨h1, h2, h3, h4⟩ := ih
      (L.vars.foldl (Shader.SetConstantBuffers.variable slot) (statics, ms)).1
      (L.vars.foldl (Shader.SetConstantBuffers.variable slot) (statics, ms)).2 (slot + 1)
    refine ⟨?_, ?_, ?_, ?_⟩
    · rw [h1, v1, v2]; simp [Shader.SetConstantBuffers.mappings]
    · rw [h2, v2]; simp; omega
    · intro id hid
      rw [h3 id (by rw [v2]; omega), v3 id hid]
    · intro k w hk
      by_cases hlt : k < L.vars.length
      · have hk' : L.vars[k]? = some w := by
          rw [List.flatMap_cons, List.getElem?_append_left hlt] at hk
          exact hk
        rw [h3 _ (by rw [v2]; omega)]
        exact v4 k w hk'
      · have hge : L.vars.length ≤ k := Nat.le_of_not_lt hlt
        have hk' : (layouts.flatMap (·.vars))[k - L.vars.length]? = some w := by
          rw [List.flatMap_cons, List.getElem?_append_right hge] at hk
          exact hk
        have := h4 (k - L.vars.length) w hk'
        rw [v2] at this
        rw [← this]
        congr 1
        omega

/-- The mappings of a list of layouts have first components from `slot` on. -/
theorem mappings_fst_ge (layouts : List ConstantBufferLayout) :
    ∀ (slot id : Nat) (m : ConstantBufferMapping),
      m ∈ Shader.SetConstantBuffers.mappings slot id layouts → slot ≤ m.1 := by
  induction layouts with
  | nil => intro slot id m hm; simp [Shader.SetConstantBuffers.mappings] at hm
  | cons L layouts ih =>
    intro slot id m hm
    simp only [Shader.SetConstantBuffers.mappings, List.mem_append, List.mem_map] at hm
    rcases hm with ⟨c, _, rfl⟩ | hm
    · exact Nat.le_refl _
    · exact Nat.le_of_succ_le (ih _ _ m hm)

/-- The identifiers of the mappings of a list of layouts are consecutive. -/
theorem mappings_snd (layouts : List ConstantBufferLayout) :
    ∀ (slot id : Nat),
      (Shader.SetConstantBuffers.mappings slot id layouts).map Prod.snd =
        List.range' id (layouts.flatMap (·.vars)).length := by
  induction layouts with
  | nil => intro slot id; simp [Shader.SetConstantBuffers.mappings]
  | cons L layouts ih =>
    intro slot id
    simp only [Shader.SetConstantBuffers.mappings, List.map_append, ih, List.flatMap_cons,
      List.length_append, List.map_map]
    rw [Nat.add_comm L.vars.length, ← List.range'_append_1]
    simp [Function.comp_def]

/-- The first components of the mappings of a list of layouts. -/
theorem mappings_fst (layouts : List ConstantBufferLayout) :
    ∀ (slot id : Nat),
      (Shader.SetConstantBuffers.mappings slot id layouts).map Prod.fst =
        (layouts.enumFrom slot).flatMap fun p => List.replicate p.2.vars.length p.1 := by
  induction layouts with
  | nil => intro slot id; simp [Shader.SetConstantBuffers.mappings]
  | cons L layouts ih =>
    intro slot id
    simp only [Shader.SetConstantBuffers.mappings, List.map_append, ih, List.enumFrom_cons,
      List.flatMap_cons, List.map_map]
    congr 1
    simp [Function.comp_def, List.eq_replicate_iff]

/-- The constants mapped to a buffer, in two lists of mappings put end to end. -/
theorem packed_append (statics : CPUConstant.Statics) (l₁ l₂ : List ConstantBufferMapping)
    (i : Nat) :
    Shader.packed statics (l₁ ++ l₂) i = Shader.packed statics l₁ i ++ Shader.packed statics l₂ i := by
  simp [Shader.packed]

/-- The constants mapped to the buffer `i` by the mappings of a list of layouts are those
of the variables of the layout `i`, when the pool holds them. -/
theorem packed_mappings (pool : Nat → CPUConstant) (next : Nat)
    (layouts : List ConstantBufferLayout) :
    ∀ (slot id i : Nat), slot ≤ i →
      (∀ k v, (layouts.flatMap (·.vars))[k]? = some v →
        pool (id + k) = Shader.SetConstantBuffers.constantOf v) →
      Shader.packed { s_constants := pool, s_nextConstIndex := next }
          (Shader.SetConstantBuffers.mappings slot id layouts) i =
        (((layouts[i - slot]?).map (·.vars)).getD []).map Shader.SetConstantBuffers.constantOf := by
  induction layouts with
  | nil => intro slot id i _ _; simp [Shader.SetConstantBuffers.mappings, Shader.packed]
  | cons L layouts ih =>
    intro slot id i hle hpool
    rw [Shader.SetConstantBuffers.mappings, packed_append]
    by_cases hi : i = slot
    · subst hi
      have hrest : Shader.packed { s_constants := pool, s_nextConstIndex := next }
          (Shader.SetConstantBuffers.mappings (i + 1) (id + L.vars.length) layouts) i = [] := by
        simp only [Shader.packed, List.map_eq_nil_iff, List.filter_eq_nil_iff]
        intro m hm
        have := mappings_fst_ge layouts _ _ m hm
        simp
        omega
      rw [hrest, List.append_nil]
      simp only [Shader.packed, Nat.sub_self, List.getElem?_cons_zero, Option.map_some',
        Option.getD_some]
      rw [List.filter_eq_self.mpr (by
        intro m hm
        simp only [List.mem_map] at hm
        obtain ⟨c, _, rfl⟩ := hm
        simp)]
      simp only [List.map_map]
      apply List.ext_getElem?
      intro k
      simp only [List.getElem?_map]
      by_cases hk : k < L.vars.length
      · have h1 : (List.range' id L.vars.length)[k]? = some (id + k) := by
          simp [List.getElem?_range', hk]
        have h2 : L.vars[k]? = some L.vars[k] := List.getElem?_eq_getElem hk
        rw [h1, h2]
        simp only [Option.map_some', Function.comp, CPUConstant.Get]
        congr 1
        apply hpool k
        rw [List.flatMap_cons, List.getElem?_append_left hk]
        exact h2
      · have h1 : (List.range' id L.vars.length)[k]? = none := by
          apply List.getElem?_eq_none_iff.mpr
          simpa using Nat.le_of_not_lt hk
        have h2 : L.vars[k]? = none := List.getElem?_eq_none_iff.mpr (Nat.le_of_not_lt hk)
        rw [h1, h2]
        rfl
    · have hlt : slot < i := Nat.lt_of_le_of_ne hle (Ne.symm hi)
      have hfirst : Shader.packed { s_constants := pool, s_nextConstIndex := next }
          ((List.range' id L.vars.length).map (fun c_id => (slot, c_id))) i = [] := by
        simp only [Shader.packed, List.map_eq_nil_iff, List.filter_eq_nil_iff]
        intro m hm
        simp only [List.mem_map] at hm
        obtain ⟨c, _, rfl⟩ := hm
        simp
        omega
      rw [hfirst, List.nil_append, ih (slot + 1) (id + L.vars.length) i hlt]
      · have : i - slot = (i - (slot + 1)) + 1 := by omega
        rw [this, List.getElem?_cons_succ]
      · intro k v hk
        have := hpool (L.vars.length + k) v (by
          rw [List.flatMap_cons, List.getElem?_append_right (Nat.le_add_right _ _)]
          simpa using hk)
        rw [← this]
        congr 1
        omega

/-- Once a `CreateBuffer` has failed, the loop over the layouts stays failed. -/
theorem gpuBuffer_foldl_none (desc : D3D11_BUFFER_DESC) (layouts : List ConstantBufferLayout) :
    layouts.foldl (Shader.SetConstantBuffers.gpuBuffer desc) none = none := by
  induction layouts with
  | nil => rfl
  | cons L layouts ih => simpa [Shader.SetConstantBuffers.gpuBuffer] using ih

/-- The loop over the layouts that creates the GPU buffers in
`Shader::SetConstantBuffers`, when it succeeds. -/
theorem gpuBuffer_foldl (layouts : List ConstantBufferLayout) :
    ∀ (device device' : ID3D11Device) (cbs cbs' : List ConstantBuffer),
      layouts.foldl (Shader.SetConstantBuffers.gpuBuffer Shader.SetConstantBuffers.cBufferDesc)
          (some (device, cbs)) = some (device', cbs') →
      cbs' = cbs ++ (layouts.enum).map (fun p =>
          Shader.SetConstantBuffers.bufferOf device.created p.1 p.2) ∧
      device'.created = device.created + layouts.length := by
  induction layouts with
  | nil => intro device device' cbs cbs' h; simp at h; simp [h.1, h.2]
  | cons L layouts ih =>
    intro device device' cbs cbs' h
    rw [List.foldl_cons] at h
    cases hc : device.CreateBufferFAILED device.created
        { Shader.SetConstantBuffers.cBufferDesc with ByteWidth := L.desc.Size } with
    | true =>
      have : Shader.SetConstantBuffers.gpuBuffer Shader.SetConstantBuffers.cBufferDesc
          (some (device, cbs)) L = none := by
        simp [Shader.SetConstantBuffers.gpuBuffer, ID3D11Device.CreateBuffer, hc]
      rw [this, gpuBuffer_foldl_none] at h
      exact absurd h (by simp)
    | false =>
      have : Shader.SetConstantBuffers.gpuBuffer Shader.SetConstantBuffers.cBufferDesc
          (some (device, cbs)) L =
          some ({ device with created := device.created + 1 },
            cbs ++ [Shader.SetConstantBuffers.bufferOf device.created 0 L]) := by
        simp [Shader.SetConstantBuffers.gpuBuffer, ID3D11Device.CreateBuffer, hc,
          Shader.SetConstantBuffers.bufferOf]
      rw [this] at h
      obtain ⟨h1, h2⟩ := ih _ _ _ _ h
      refine ⟨?_, ?_⟩
      · rw [h1, List.enum_cons, List.map_cons, List.append_assoc, List.singleton_append]
        congr 2
        rw [← List.map_fst_add_enum_eq_enumFrom layouts 1]
        simp only [List.map_map]
        apply List.map_congr_left
        intro p _
        simp [Shader.SetConstantBuffers.bufferOf, Function.comp_def]
        omega
      · rw [h2]; simp; omega

/-- The element of index `i` of a map over an enumerated list. -/
theorem getElem?_enum_map {α β : Type} (l : List α) (f : Nat × α → β) (i : Nat) :
    (l.enum.map f)[i]? = (l[i]?).map fun a => f (i, a) := by
  rw [List.getElem?_map, List.getElem?_enum]
  cases l[i]? <;> rfl

/-- `Shader::UpdateConstants` changes nothing when no buffer is dirty. -/
theorem UpdateConstants_of_clean (statics : CPUConstant.Statics) (shader : Shader)
    (context : ID3D11DeviceContext)
    (h : ∀ CB, CB ∈ shader.m_cBuffers → CB.dirty = false) :
    Shader.UpdateConstants statics shader context = (shader, context) := by
  have hmem : ∀ p, p ∈ shader.m_cBuffers.enum → p.2.dirty = false := by
    intro p hp
    have := List.enum_map_snd shader.m_cBuffers
    apply h
    rw [← this]
    exact List.mem_map_of_mem Prod.snd hp
  rw [UpdateConstants_eq]
  have h1 : (shader.m_cBuffers.enum.map fun p =>
      Shader.UpdateConstants.uploaded statics shader.m_constantsUnsorted p.1 p.2)
      = shader.m_cBuffers := by
    conv => rhs; rw [← List.enum_map_snd shader.m_cBuffers]
    apply List.map_congr_left
    intro p hp
    simp [Shader.UpdateConstants.uploaded, hmem p hp]
  have h2 : (shader.m_cBuffers.enum.flatMap fun p =>
      Shader.UpdateConstants.issued statics shader.m_constantsUnsorted p.1 p.2) = [] := by
    rw [List.flatMap_eq_nil_iff]
    intro p hp
    simp [Shader.UpdateConstants.issued, hmem p hp]
  rw [h1, h2, List.append_nil]

/-- A buffer is clean after its upload. -/
theorem uploaded_dirty (statics : CPUConstant.Statics) (ms : List ConstantBufferMapping)
    (i : Nat) (CB : ConstantBuffer) :
    (Shader.UpdateConstants.uploaded statics ms i CB).dirty = false := by
  unfold Shader.UpdateConstants.uploaded
  split
  · rfl
  · simpa using ‹¬CB.dirty = true›

/-- The bytes of the constants mapped to a buffer, read off the mappings. -/
theorem packed_bytes (statics : CPUConstant.Statics) (ms : List ConstantBufferMapping) (i : Nat) :
    (Shader.packed statics ms i).flatMap CPUConstant.bytes =
      (ms.filter fun indexIDPair => indexIDPair.1 == i).flatMap fun indexIDPair =>
        CPUConstant.read (CPUConstant.Get statics indexIDPair.2)._data
          (CPUConstant.Get statics indexIDPair.2)._size := by
  simp [Shader.packed, List.flatMap_map, CPUConstant.bytes, Function.comp_def]

/-- Every entry of `SetShaderConstants` is a bind. -/
theorem isBind_SetShaderConstants (index a b : Nat) (c : List Nat) :
    (SetShaderConstants index a b c).isBind = true := by
  unfold SetShaderConstants
  split <;> rfl

/-- No entry of `SetShaderConstants` is a `Map`. -/
theorem isMap_SetShaderConstants (index a b : Nat) (c : List Nat) :
    (SetShaderConstants index a b c).isMap = false := by
  unfold SetShaderConstants
  split <;> rfl

/-- Copies hold no bind. -/
theorem countP_isBind_memcpyCalls (data : Nat) (cs : List CPUConstant) :
    ∀ offset, (memcpyCalls data offset cs).countP ContextCall.isBind = 0 := by
  induction cs with
  | nil => intro offset; simp [memcpyCalls]
  | cons c cs ih => intro offset; simp [memcpyCalls, ih, ContextCall.isBind]

/-- Copies hold no `Map`. -/
theorem countP_isMap_memcpyCalls (data : Nat) (cs : List CPUConstant) :
    ∀ offset, (memcpyCalls data offset cs).countP ContextCall.isMap = 0 := by
  induction cs with
  | nil => intro offset; simp [memcpyCalls]
  | cons c cs ih => intro offset; simp [memcpyCalls, ih, ContextCall.isMap]

/-- The calls for a buffer hold one bind when it is dirty and none otherwise. -/
theorem countP_isBind_issued (statics : CPUConstant.Statics) (ms : List ConstantBufferMapping)
    (i : Nat) (CB : ConstantBuffer) :
    (Shader.UpdateConstants.issued statics ms i CB).countP ContextCall.isBind =
      if CB.dirty then 1 else 0 := by
  unfold Shader.UpdateConstants.issued
  split
  · have h1 : ∀ p, (ContextCall.Map p).isBind = false := fun _ => rfl
    have h2 : ∀ p, (ContextCall.Unmap p).isBind = false := fun _ => rfl
    simp [List.countP_cons, List.countP_append, countP_isBind_memcpyCalls,
      isBind_SetShaderConstants, h1, h2]
  · simp

/-- The calls for a buffer hold one `Map` when it is dirty and none otherwise. -/
theorem countP_isMap_issued (statics : CPUConstant.Statics) (ms : List ConstantBufferMapping)
    (i : Nat) (CB : ConstantBuffer) :
    (Shader.UpdateConstants.issued statics ms i CB).countP ContextCall.isMap =
      if CB.dirty then 1 else 0 := by
  unfold Shader.UpdateConstants.issued
  split
  · have h1 : ∀ p, (ContextCall.Map p).isMap = true := fun _ => rfl
    have h2 : ∀ p, (ContextCall.Unmap p).isMap = false := fun _ => rfl
    simp [List.countP_cons, List.countP_append, countP_isMap_memcpyCalls,
      isMap_SetShaderConstants, h1, h2]
  · simp

/-- What is counted once in the calls of each dirty buffer is counted as often as there are
dirty buffers in the calls of a list of buffers. -/
theorem countP_issued_enumFrom (statics : CPUConstant.Statics) (ms : List ConstantBufferMapping)
    (q : ContextCall → Bool)
    (hq : ∀ i CB, (Shader.UpdateConstants.issued statics ms i CB).countP q =
      if CB.dirty then 1 else 0)
    (l : List ConstantBuffer) :
    ∀ k, ((l.enumFrom k).flatMap fun p =>
        Shader.UpdateConstants.issued statics ms p.1 p.2).countP q =
      l.countP fun CB => CB.dirty := by
  induction l with
  | nil => intro k; simp
  | cons CB l ih =>
    intro k
    rw [List.enumFrom_cons, List.flatMap_cons, List.countP_append, ih, hq, List.countP_cons]
    cases hd : CB.dirty <;> simp [hd]
    omega

/-- What is counted once in the calls of each dirty buffer is counted as often as there are
dirty buffers in the calls `Shader::UpdateConstants` adds. -/
theorem UpdateConstants_count (statics : CPUConstant.Statics) (shader : Shader)
    (context : ID3D11DeviceContext) (q : ContextCall → Bool)
    (hq : ∀ i CB, (Shader.UpdateConstants.issued statics shader.m_constantsUnsorted i CB).countP q
      = if CB.dirty then 1 else 0) :
    (((Shader.UpdateConstants statics shader context).2.calls.drop context.calls.length).countP q) =
      shader.m_cBuffers.countP fun CB => CB.dirty := by
  rw [UpdateConstants_eq]
  simp only [List.drop_left]
  exact countP_issued_enumFrom statics _ q hq _ 0

/-- The iteration for a clean buffer changes nothing. -/
theorem body_of_clean (statics : CPUConstant.Statics) (i : Nat)
    (state : Shader × ID3D11DeviceContext) (CB : ConstantBuffer)
    (h : state.1.m_cBuffers[i]? = some CB) (hclean : CB.dirty = false) :
    Shader.UpdateConstants.body statics i state = state := by
  simp [Shader.UpdateConstants.body, h, hclean]

/-- The iteration for `j` leaves the entry of another index `i` as it is. -/
theorem body_getElem?_ne (statics : CPUConstant.Statics) (i j : Nat) (hne : j ≠ i)
    (state : Shader × ID3D11DeviceContext) :
    (Shader.UpdateConstants.body statics j state).1.m_cBuffers[i]? = state.1.m_cBuffers[i]? := by
  cases hj : state.1.m_cBuffers[j]? with
  | none => simp [Shader.UpdateConstants.body, hj]
  | some CBj =>
    obtain ⟨shader, context⟩ := state
    rw [body_eq statics j shader context CBj hj]
    simp [List.getElem?_set, hne]

/-- The iterations for a list of indices, with those for the clean buffer `i` left out. -/
theorem foldl_body_skip (statics : CPUConstant.Statics) (i : Nat) (CB : ConstantBuffer)
    (hclean : CB.dirty = false) (indices : List Nat) :
    ∀ state : Shader × ID3D11DeviceContext, state.1.m_cBuffers[i]? = some CB →
      indices.foldl (fun state j => Shader.UpdateConstants.body statics j state) state =
        (indices.filter fun j => j != i).foldl
          (fun state j => Shader.UpdateConstants.body statics j state) state := by
  induction indices with
  | nil => intro state _; rfl
  | cons j indices ih =>
    intro state h
    rw [List.foldl_cons]
    by_cases hj : j = i
    · subst hj
      rw [body_of_clean statics j state CB h hclean, ih state h]
      simp
    · have hstep : (Shader.UpdateConstants.body statics j state).1.m_cBuffers[i]? = some CB := by
        rw [body_getElem?_ne statics i j hj state, h]
      rw [ih _ hstep]
      simp [hj]

/-- The closed form of `count` successive calls of `CPUConstant::GetNextAvailable`. -/
theorem GetNextAvailableTimes_eq (count : Nat) :
    ∀ statics : CPUConstant.Statics,
      CPUConstant.GetNextAvailableTimes count statics =
        (List.range' statics.s_nextConstIndex count,
          { statics with s_nextConstIndex := statics.s_nextConstIndex + count }) := by
  induction count with
  | zero => intro statics; rfl
  | succ count ih =>
    intro statics
    simp only [CPUConstant.GetNextAvailableTimes, ih, CPUConstant.GetNextAvailable,
      List.range'_succ]
    simp [Nat.add_assoc, Nat.add_comm 1]

/-- The loop over the variables of one constant buffer in
`Shader::RegisterConstantBufferLayout`. -/
theorem register_variable_foldl (vars : List ID3D11ShaderReflectionVariable) :
    ∀ bufferLayout : ConstantBufferLayout,
      vars.foldl Shader.RegisterConstantBufferLayout.variable bufferLayout =
        { bufferLayout with
          vars := bufferLayout.vars ++ vars.map fun pVariable => pVariable.desc,
          types := bufferLayout.types ++ vars.map fun pVariable => pVariable.type,
          buffSize := bufferLayout.buffSize +
            (vars.map fun pVariable => pVariable.desc.Size).sum } := by
  induction vars with
  | nil => intro bufferLayout; simp
  | cons v vars ih =>
    intro bufferLayout
    rw [List.foldl_cons, ih]
    simp [Shader.RegisterConstantBufferLayout.variable, Nat.add_assoc]

/-- The loop over the constant buffers of a stage in
`Shader::RegisterConstantBufferLayout`. -/
theorem register_buffer_foldl (type : ShaderType)
    (buffers : List ID3D11ShaderReflectionConstantBuffer) :
    ∀ (bufSlot : Nat) (layouts : List ConstantBufferLayout),
      buffers.foldl (Shader.RegisterConstantBufferLayout.buffer type) (bufSlot, layouts) =
        (bufSlot + buffers.length,
          layouts ++ (buffers.enumFrom bufSlot).map fun p =>
            Shader.RegisterConstantBufferLayout.layoutOf type p.1 p.2) := by
  induction buffers with
  | nil => intro bufSlot layouts; simp
  | cons b buffers ih =>
    intro bufSlot layouts
    rw [List.foldl_cons]
    have hstep : Shader.RegisterConstantBufferLayout.buffer type (bufSlot, layouts) b =
        (bufSlot + 1, layouts ++ [Shader.RegisterConstantBufferLayout.layoutOf type bufSlot b]) := by
      simp [Shader.RegisterConstantBufferLayout.buffer, register_variable_foldl,
        Shader.RegisterConstantBufferLayout.layoutOf]
    rw [hstep, ih]
    simp [List.enumFrom_cons, Nat.add_assoc, Nat.add_comm 1]

/-- The closed form of `Shader::RegisterConstantBufferLayout`: one layout is pushed back for
each constant buffer of the stage, with the slots 0, 1, ... -/
theorem RegisterConstantBufferLayout_eq (shader : Shader) (sRefl : ID3D11ShaderReflection)
    (type : ShaderType) :
    shader.RegisterConstantBufferLayout sRefl type =
      { shader with
        m_CBLayouts := shader.m_CBLayouts ++ sRefl.ConstantBuffers.enum.map fun p =>
          Shader.RegisterConstantBufferLayout.layoutOf type p.1 p.2 } := by
  simp [Shader.RegisterConstantBufferLayout, register_buffer_foldl, List.enum]

/-- The layouts after the three registrations of `Shader::SetConstantBuffers`. -/
theorem layouts_eq (shader : Shader) (vsRefl psRefl : ID3D11ShaderReflection) :
    Shader.SetConstantBuffers.layouts shader vsRefl psRefl =
      { shader with
        m_CBLayouts := shader.m_CBLayouts
          ++ (vsRefl.ConstantBuffers.enum.map fun p =>
            Shader.RegisterConstantBufferLayout.layoutOf ShaderType.VS p.1 p.2)
          ++ (psRefl.ConstantBuffers.enum.map fun p =>
            Shader.RegisterConstantBufferLayout.layoutOf ShaderType.PS p.1 p.2)
          ++ (match shader.m_gsRefl with
              | some gsRefl => gsRefl.ConstantBuffers.enum.map fun p =>
                  Shader.RegisterConstantBufferLayout.layoutOf ShaderType.GS p.1 p.2
              | none => []) } := by
  unfold Shader.SetConstantBuffers.layouts
  simp only [RegisterConstantBufferLayout_eq]
  cases shader.m_gsRefl <;> simp

/-- What `Shader::SetConstantBuffers` returns when it does: the layouts, the mappings, the
pool and the buffers. -/
theorem SetConstantBuffers_some (device dev1 : ID3D11Device) (statics st1 : CPUConstant.Statics)
    (shader sh1 : Shader)
    (h : Shader.SetConstantBuffers device statics shader = some (sh1, st1, dev1)) :
    (∃ vsRefl psRefl, shader.m_vsRefl = some vsRefl ∧ shader.m_psRefl = some psRefl ∧
      sh1.m_CBLayouts = (Shader.SetConstantBuffers.layouts shader vsRefl psRefl).m_CBLayouts) ∧
    sh1.m_constantsUnsorted = shader.m_constants ++
      Shader.SetConstantBuffers.mappings 0 statics.s_nextConstIndex sh1.m_CBLayouts ∧
    sh1.m_constants =
      std_sort (Shader.SetConstantBuffers.compare st1) sh1.m_constantsUnsorted ∧
    st1.s_nextConstIndex = statics.s_nextConstIndex + (sh1.m_CBLayouts.flatMap (·.vars)).length ∧
    (∀ id, id < statics.s_nextConstIndex → st1.s_constants id = statics.s_constants id) ∧
    (∀ k v, (sh1.m_CBLayouts.flatMap (·.vars))[k]? = some v →
      st1.s_constants (statics.s_nextConstIndex + k) = Shader.SetConstantBuffers.constantOf v) ∧
    sh1.m_cBuffers = shader.m_cBuffers ++ sh1.m_CBLayouts.enum.map (fun p =>
      Shader.SetConstantBuffers.bufferOf device.created p.1 p.2) ∧
    dev1.created = device.created + sh1.m_CBLayouts.length := by
  unfold Shader.SetConstantBuffers at h
  cases hvs : shader.m_vsRefl with
  | none => simp [hvs] at h
  | some vsRefl =>
    cases hps : shader.m_psRefl with
    | none => simp [hvs, hps] at h
    | some psRefl =>
      simp only [hvs, hps] at h
      have hL := layouts_eq shader vsRefl psRefl
      generalize hshL : Shader.SetConstantBuffers.layouts shader vsRefl psRefl = shL at h hL
      have hLc : shL.m_constants = shader.m_constants := by rw [hL]
      have hLb : shL.m_cBuffers = shader.m_cBuffers := by rw [hL]
      obtain ⟨c1, c2, c3, c4⟩ := layout_foldl shL.m_CBLayouts statics shL.m_constants 0
      unfold Shader.SetConstantBuffers.gpuCBuffers at h
      simp only [Shader.SetConstantBuffers.cpuCBuffers] at h
      cases hg : shL.m_CBLayouts.foldl
        (Shader.SetConstantBuffers.gpuBuffer Shader.SetConstantBuffers.cBufferDesc)
        (some (device, shL.m_cBuffers)) with
      | none => simp [hg] at h
      | some r =>
        obtain ⟨dev', cbs'⟩ := r
        simp only [hg, Option.some.injEq, Prod.mk.injEq] at h
        obtain ⟨h1, h2, h3⟩ := h
        obtain ⟨g1, g2⟩ := gpuBuffer_foldl _ _ _ _ _ hg
        subst h1 h2 h3
        refine ⟨⟨vsRefl, psRefl, rfl, rfl, by rw [hshL]⟩, ?_, rfl, ?_, ?_, ?_, ?_, ?_⟩
        · show (shL.m_CBLayouts.foldl Shader.SetConstantBuffers.layout
            ((statics, shL.m_constants), 0)).1.2 = _
          rw [c1, hLc]
        · exact c2
        · exact c3
        · exact c4
        · show cbs' = _
          rw [g1, hLb]
        · exact g2

/-- The enumeration of a map over an enumerated list. -/
theorem enum_map_enum {α β : Type} (l : List α) (g : Nat × α → β) :
    (l.enum.map g).enum = l.enum.map fun p => (p.1, g p) := by
  apply List.ext_getElem?
  intro j
  rw [List.getElem?_enum, List.getElem?_map, List.getElem?_map, List.getElem?_enum]
  cases l[j]? <;> rfl

/-- The bytes of a list of constants are as many as the sum of their sizes. -/
theorem length_flatMap_bytes (cs : List CPUConstant) :
    (cs.flatMap CPUConstant.bytes).length = (cs.map (·._size)).sum := by
  induction cs with
  | nil => rfl
  | cons c cs ih => simp [List.flatMap_cons, ih, CPUConstant.length_bytes]

/-- What a shader that starts with no layout, no mapping and no constant buffer
holds after `Shader::SetConstantBuffers`, for the layout of index `i`: the
constants mapped to the buffer `i` are those made of the variables of the
layout, and the buffer `i` is the one created for the layout. -/
theorem SetConstantBuffers_buffer (device dev1 : ID3D11Device)
    (statics st1 : CPUConstant.Statics) (shader sh1 : Shader)
    (hconstants : shader.m_constants = []) (hbuffers : shader.m_cBuffers = [])
    (hset : Shader.SetConstantBuffers device statics shader = some (sh1, st1, dev1))
    (i : Nat) (cbLayout : ConstantBufferLayout) (hi : sh1.m_CBLayouts[i]? = some cbLayout) :
    Shader.packed st1 sh1.m_constantsUnsorted i =
      cbLayout.vars.map Shader.SetConstantBuffers.constantOf ∧
    sh1.m_cBuffers[i]? = some (Shader.SetConstantBuffers.bufferOf device.created i cbLayout) ∧
    sh1.m_cBuffers.enum = sh1.m_CBLayouts.enum.map (fun p =>
      (p.1, Shader.SetConstantBuffers.bufferOf device.created p.1 p.2)) := by
  obtain ⟨_, h2, _, _, _, h6, h7, _⟩ := SetConstantBuffers_some _ _ _ _ _ _ hset
  rw [hconstants, List.nil_append] at h2
  rw [hbuffers, List.nil_append] at h7
  refine ⟨?_, ?_, ?_⟩
  · rw [h2]
    have := packed_mappings st1.s_constants st1.s_nextConstIndex sh1.m_CBLayouts 0
      statics.s_nextConstIndex i (Nat.zero_le _) h6
    rw [this]
    simp [hi]
  · rw [h7, getElem?_enum_map, hi]
    rfl
  · rw [h7, enum_map_enum]

/-- On the example, `Shader::SetConstantBuffers` returns. -/
theorem Example.produced_eq :
    Shader.SetConstantBuffers Example.device Example.pool Example.compiling =
      some (Example.produced.1, Example.produced.2.1, Example.produced.2.2) := rfl

/-- The loop that creates the GPU buffers succeeds on a device on which no `CreateBuffer`
fails. -/
theorem gpuBuffer_foldl_isSome (layouts : List ConstantBufferLayout) :
    ∀ (device : ID3D11Device) (cbs : List ConstantBuffer),
      (∀ created desc, device.CreateBufferFAILED created desc = false) →
      (layouts.foldl (Shader.SetConstantBuffers.gpuBuffer Shader.SetConstantBuffers.cBufferDesc)
        (some (device, cbs))).isSome = true := by
  induction layouts with
  | nil => intro device cbs _; rfl
  | cons L layouts ih =>
    intro device cbs hdev
    rw [List.foldl_cons]
    have : Shader.SetConstantBuffers.gpuBuffer Shader.SetConstantBuffers.cBufferDesc
        (some (device, cbs)) L =
        some ({ device with created := device.created + 1 },
          cbs ++ [Shader.SetConstantBuffers.bufferOf device.created 0 L]) := by
      simp [Shader.SetConstantBuffers.gpuBuffer, ID3D11Device.CreateBuffer, hdev,
        Shader.SetConstantBuffers.bufferOf]
    rw [this]
    exact ih _ _ hdev

/-- `Shader::SetConstantBuffers` returns whenever the vertex and the pixel
reflection pointers are not null and no `CreateBuffer` of the device fails. -/
theorem SetConstantBuffers_isSome (device : ID3D11Device) (statics : CPUConstant.Statics)
    (shader : Shader) (vsRefl psRefl : ID3D11ShaderReflection)
    (hvs : shader.m_vsRefl = some vsRefl) (hps : shader.m_psRefl = some psRefl)
    (hdevice : ∀ created desc, device.CreateBufferFAILED created desc = false) :
    (Shader.SetConstantBuffers device statics shader).isSome = true := by
  unfold Shader.SetConstantBuffers
  simp only [hvs, hps]
  unfold Shader.SetConstantBuffers.gpuCBuffers
  have := gpuBuffer_foldl_isSome
    (Shader.SetConstantBuffers.cpuCBuffers statics
      (Shader.SetConstantBuffers.layouts shader vsRefl psRefl)).1.m_CBLayouts device
    (Shader.SetConstantBuffers.cpuCBuffers statics
      (Shader.SetConstantBuffers.layouts shader vsRefl psRefl)).1.m_cBuffers hdevice
  revert this
  cases (Shader.SetConstantBuffers.cpuCBuffers statics
      (Shader.SetConstantBuffers.layouts shader vsRefl psRefl)).1.m_CBLayouts.foldl
        (Shader.SetConstantBuffers.gpuBuffer Shader.SetConstantBuffers.cBufferDesc)
        (some (device, (Shader.SetConstantBuffers.cpuCBuffers statics
          (Shader.SetConstantBuffers.layouts shader vsRefl psRefl)).1.m_cBuffers)) with
  | none => intro h; exact absurd h (by simp)
  | some r => intro _; rfl

/-- Copies hold no bind. -/
theorem filter_isBind_memcpyCalls (data : Nat) (cs : List CPUConstant) :
    ∀ offset, (memcpyCalls data offset cs).filter ContextCall.isBind = [] := by
  induction cs with
  | nil => intro offset; rfl
  | cons c cs ih =>
    intro offset
    have h : (ContextCall.memcpy data offset c.bytes).isBind = false := rfl
    simp [memcpyCalls, ih, h]

/-- The binds among the calls for a buffer: the entry of `SetShaderConstants`
for its stage, when it is dirty. -/
theorem filter_isBind_issued (statics : CPUConstant.Statics) (ms : List ConstantBufferMapping)
    (i : Nat) (CB : ConstantBuffer) :
    (Shader.UpdateConstants.issued statics ms i CB).filter ContextCall.isBind =
      if CB.dirty then
        [SetShaderConstants CB.shdType.toNat CB.bufferSlot 1 [ID3D11Buffer.pointer CB.data]]
      else [] := by
  unfold Shader.UpdateConstants.issued
  split
  · have h1 : ∀ p, (ContextCall.Map p).isBind = false := fun _ => rfl
    have h2 : ∀ p, (ContextCall.Unmap p).isBind = false := fun _ => rfl
    simp [List.filter_cons, List.filter_append, filter_isBind_memcpyCalls,
      isBind_SetShaderConstants, h1, h2]
  · rfl

/-- The binds among the calls for a list of buffers: one for each dirty buffer,
in the order of the buffers. -/
theorem filter_isBind_issued_enumFrom (statics : CPUConstant.Statics)
    (ms : List ConstantBufferMapping) (l : List ConstantBuffer) :
    ∀ k, ((l.enumFrom k).flatMap fun p =>
        Shader.UpdateConstants.issued statics ms p.1 p.2).filter ContextCall.isBind =
      (l.filter fun CB => CB.dirty).map fun CB =>
        SetShaderConstants CB.shdType.toNat CB.bufferSlot 1 [ID3D11Buffer.pointer CB.data] := by
  induction l with
  | nil => intro k; rfl
  | cons CB l ih =>
    intro k
    rw [List.enumFrom_cons, List.flatMap_cons, List.filter_append, ih, filter_isBind_issued]
    cases hd : CB.dirty <;> simp [hd]

/-- The entry of `SetShaderConstants` for a stage. -/
theorem SetShaderConstants_toNat (shdType : ShaderType) :
    SetShaderConstants shdType.toNat =
      match shdType with
      | .VS => ContextCall.VSSetConstantBuffers
      | .GS => ContextCall.GSSetConstantBuffers
      | .DS => ContextCall.DSSetConstantBuffers
      | .HS => ContextCall.HSSetConstantBuffers
      | .CS => ContextCall.CSSetConstantBuffers
      | .PS => ContextCall.PSSetConstantBuffers := by
  cases shdType <;> rfl

/-- The calls for a dirty buffer end with its bind. -/
theorem bind_mem_issued (statics : CPUConstant.Statics) (ms : List ConstantBufferMapping)
    (i : Nat) (CB : ConstantBuffer) (hdirty : CB.dirty = true) :
    SetShaderConstants CB.shdType.toNat CB.bufferSlot 1 [ID3D11Buffer.pointer CB.data] ∈
      Shader.UpdateConstants.issued statics ms i CB := by
  simp [Shader.UpdateConstants.issued, hdirty]

/-- A constant whose block is null is the same with its block set to null. -/
theorem CPUConstant.data_none_eq (c : CPUConstant) (h : c._data = none) :
    { c with _data := none } = c := by
  cases c
  simp at h
  simp [h]

/-- The closed form of `CPUConstant::CleanUp`: the blocks of the slots below
`MAX_CONSTANT_BUFFERS` are null and nothing else has changed; the slots deleted
are those below `MAX_CONSTANT_BUFFERS` whose block was not null, in order. -/
theorem CleanUp_eq (statics : CPUConstant.Statics) (n : Nat) :
    CPUConstant.CleanUp n statics =
      ({ statics with
          s_constants := fun i =>
            if i < n then { statics.s_constants i with _data := none }
            else statics.s_constants i },
        (List.range n).filter fun i => (statics.s_constants i)._data.isSome) := by
  induction n with
  | zero =>
    simp [CPUConstant.CleanUp]
  | succ n ih =>
    have hstep : CPUConstant.CleanUp (n + 1) statics =
        CPUConstant.CleanUp.slot (CPUConstant.CleanUp n statics) n := by
      simp [CPUConstant.CleanUp, List.range_succ, List.foldl_append]
    rw [hstep, ih]
    cases hd : (statics.s_constants n)._data with
    | none =>
      have : CPUConstant.CleanUp.slot
          ({ statics with
              s_constants := fun i =>
                if i < n then { statics.s_constants i with _data := none }
                else statics.s_constants i },
            (List.range n).filter fun i => (statics.s_constants i)._data.isSome) n =
          ({ statics with
              s_constants := fun i =>
                if i < n then { statics.s_constants i with _data := none }
                else statics.s_constants i },
            (List.range n).filter fun i => (statics.s_constants i)._data.isSome) := by
        simp [CPUConstant.CleanUp.slot, hd]
      rw [this]
      refine Prod.ext ?_ ?_
      · show CPUConstant.Statics.mk _ _ = CPUConstant.Statics.mk _ _
        congr 1
        funext i
        by_cases h1 : i < n
        · simp [h1, Nat.lt_succ_of_lt h1]
        · by_cases h2 : i = n
          · subst h2
            simp [CPUConstant.data_none_eq _ hd]
          · have : ¬ i < n + 1 := by omega
            simp [h1, this]
      · simp [List.range_succ, List.filter_append, hd]
    | some block =>
      have : CPUConstant.CleanUp.slot
          ({ statics with
              s_constants := fun i =>
                if i < n then { statics.s_constants i with _data := none }
                else statics.s_constants i },
            (List.range n).filter fun i => (statics.s_constants i)._data.isSome) n =
          ({ statics with
              s_constants := Function.update (fun i =>
                if i < n then { statics.s_constants i with _data := none }
                else statics.s_constants i) n { statics.s_constants n with _data := none } },
            ((List.range n).filter fun i => (statics.s_constants i)._data.isSome) ++ [n]) := by
        simp [CPUConstant.CleanUp.slot, hd]
      rw [this]
      refine Prod.ext ?_ ?_
      · show CPUConstant.Statics.mk _ _ = CPUConstant.Statics.mk _ _
        congr 1
        funext i
        by_cases h2 : i = n
        · subst h2
          simp [Function.update]
        · by_cases h1 : i < n
          · simp [Function.update, h2, h1, Nat.lt_succ_of_lt h1]
          · have : ¬ i < n + 1 := by omega
            simp [Function.update, h2, h1, this]
      · simp [List.range_succ, List.filter_append, hd]

/-- The loop of `Shader::~Shader` over the constant buffers: every buffer ends
with a null pointer, and the buffers that were not null are released, in
order. -/
theorem destructor_cbuf_foldl (l : List ConstantBuffer) :
    ∀ acc : List ConstantBuffer × List Nat,
      l.foldl Shader.destructor.cbuf acc =
        (acc.1 ++ l.map (fun cbuf => { cbuf with data := none }),
          acc.2 ++ l.filterMap fun cbuf => cbuf.data.map fun buffer => buffer.address) := by
  induction l with
  | nil => intro acc; simp
  | cons cbuf l ih =>
    intro acc
    rw [List.foldl_cons, ih]
    cases hd : cbuf.data with
    | none =>
      have : ({ cbuf with data := none } : ConstantBuffer) = cbuf := by
        cases cbuf; simp at hd; simp [hd]
      simp [Shader.destructor.cbuf, hd, this]
    | some buffer => simp [Shader.destructor.cbuf, hd]

/-- The members that `Shader::SetConstantBuffers` leaves as they are. -/
theorem SetConstantBuffers_frame (device dev1 : ID3D11Device) (statics st1 : CPUConstant.Statics)
    (shader sh1 : Shader)
    (h : Shader.SetConstantBuffers device statics shader = some (sh1, st1, dev1)) :
    sh1.m_psRefl = shader.m_psRefl ∧ sh1.m_vsRefl = shader.m_vsRefl ∧
    sh1.m_gsRefl = shader.m_gsRefl ∧ sh1.m_textures = shader.m_textures ∧
    sh1.m_samplers = shader.m_samplers ∧ sh1.m_vertexShader = shader.m_vertexShader ∧
    sh1.m_pixelShader = shader.m_pixelShader ∧ sh1.m_geometryShader = shader.m_geometryShader ∧
    sh1.m_layout = shader.m_layout ∧ sh1.m_name = shader.m_name ∧ sh1.m_id = shader.m_id := by
  unfold Shader.SetConstantBuffers at h
  cases hvs : shader.m_vsRefl with
  | none => simp [hvs] at h
  | some vsRefl =>
    cases hps : shader.m_psRefl with
    | none => simp [hvs, hps] at h
    | some psRefl =>
      simp only [hvs, hps] at h
      have hL := layouts_eq shader vsRefl psRefl
      generalize Shader.SetConstantBuffers.layouts shader vsRefl psRefl = shL at h hL
      unfold Shader.SetConstantBuffers.gpuCBuffers at h
      simp only [Shader.SetConstantBuffers.cpuCBuffers] at h
      cases hg : shL.m_CBLayouts.foldl
        (Shader.SetConstantBuffers.gpuBuffer Shader.SetConstantBuffers.cBufferDesc)
        (some (device, shL.m_cBuffers)) with
      | none => simp [hg] at h
      | some r =>
        obtain ⟨dev', cbs'⟩ := r
        simp only [hg, Option.some.injEq, Prod.mk.injEq] at h
        obtain ⟨h1, _, _⟩ := h
        subst h1
        subst hL
        simp [hvs, hps]

/-- The loop of `Shader::Compile` over the bound resources: the samplers and the
textures are pushed back in the order of enumeration, each kind with its own
slots counted from the start value of its counter. -/
theorem resource_foldl (l : List D3D11_SHADER_INPUT_BIND_DESC) :
    ∀ (texSlot smpSlot : Nat) (texs : List ShaderTexture) (smps : List ShaderSampler),
      l.foldl Shader.Compile.resource ((texSlot, smpSlot), texs, smps) =
        ((texSlot + (l.filter fun r => r.Type_ = D3D_SHADER_INPUT_TYPE.D3D_SIT_TEXTURE).length,
          smpSlot + (l.filter fun r => r.Type_ = D3D_SHADER_INPUT_TYPE.D3D_SIT_SAMPLER).length),
          texs ++ ((l.filter fun r =>
              r.Type_ = D3D_SHADER_INPUT_TYPE.D3D_SIT_TEXTURE).enumFrom texSlot).map
            (fun p => { name := p.2.Name, shdType := ShaderType.PS, bufferSlot := p.1 }),
          smps ++ ((l.filter fun r =>
              r.Type_ = D3D_SHADER_INPUT_TYPE.D3D_SIT_SAMPLER).enumFrom smpSlot).map
            (fun p => { name := p.2.Name, shdType := ShaderType.PS, bufferSlot := p.1 })) := by
  induction l with
  | nil => intro texSlot smpSlot texs smps; simp
  | cons r l ih =>
    intro texSlot smpSlot texs smps
    rw [List.foldl_cons]
    by_cases hs : r.Type_ = D3D_SHADER_INPUT_TYPE.D3D_SIT_SAMPLER
    · have hstep : Shader.Compile.resource ((texSlot, smpSlot), texs, smps) r =
          ((texSlot, smpSlot + 1), texs,
            smps ++ [{ name := r.Name, shdType := ShaderType.PS, bufferSlot := smpSlot }]) := by
        simp [Shader.Compile.resource, hs]
      rw [hstep, ih]
      simp [hs, List.enumFrom_cons, Nat.add_assoc, Nat.add_comm 1]
    · by_cases ht : r.Type_ = D3D_SHADER_INPUT_TYPE.D3D_SIT_TEXTURE
      · have hstep : Shader.Compile.resource ((texSlot, smpSlot), texs, smps) r =
            ((texSlot + 1, smpSlot),
              texs ++ [{ name := r.Name, shdType := ShaderType.PS, bufferSlot := texSlot }],
              smps) := by
          simp [Shader.Compile.resource, hs, ht]
        rw [hstep, ih]
        simp [ht, List.enumFrom_cons, Nat.add_assoc, Nat.add_comm 1]
      · have hstep : Shader.Compile.resource ((texSlot, smpSlot), texs, smps) r =
            ((texSlot, smpSlot), texs, smps) := by
          simp [Shader.Compile.resource, hs, ht]
        rw [hstep, ih]
        simp [hs, ht]

/-- What `Shader::SetReflections` returns when it does. -/
theorem SetReflections_some (shader sh1 : Shader) (vsBlob psBlob gsBlob : Option ID3D10Blob)
    (h : Shader.SetReflections shader vsBlob psBlob gsBlob = some sh1) :
    ∃ (vs ps : ID3D10Blob) (vsRefl psRefl : ID3D11ShaderReflection),
      vsBlob = some vs ∧ psBlob = some ps ∧ vs.reflection = some vsRefl ∧
      ps.reflection = some psRefl ∧ sh1.m_vsRefl = some vsRefl ∧ sh1.m_psRefl = some psRefl ∧
      sh1.m_textures = shader.m_textures ∧ sh1.m_samplers = shader.m_samplers := by
  unfold Shader.SetReflections at h
  cases vsBlob with
  | none => simp at h
  | some vs =>
    cases hvr : vs.reflection with
    | none => simp [hvr] at h
    | some vsRefl =>
      cases psBlob with
      | none => simp [hvr] at h
      | some ps =>
        cases hpr : ps.reflection with
        | none => simp [hvr, hpr] at h
        | some psRefl =>
          refine ⟨vs, ps, vsRefl, psRefl, rfl, rfl, hvr, hpr, ?_⟩
          cases gsBlob with
          | none =>
            simp [hvr, hpr] at h
            subst h
            simp
          | some gs =>
            cases hgr : gs.reflection with
            | none => simp [hvr, hpr, hgr] at h
            | some gsRefl =>
              simp [hvr, hpr, hgr] at h
              subst h
              simp

/-- What the part of `Shader::Compile` behind the compilation returns when it
does: the pixel blob is not null, and the textures and samplers of its
reflection are pushed back. -/
theorem create_some (world w1 : World) (vsBlob : ID3D10Blob) (psBlob gsBlob : Option ID3D10Blob)
    (layouts : List InputLayout) (geoShader : Bool)
    (h : Shader.Compile.create world vsBlob psBlob gsBlob layouts geoShader = some w1) :
    ∃ (ps : ID3D10Blob) (psRefl : ID3D11ShaderReflection),
      psBlob = some ps ∧ ps.reflection = some psRefl ∧
      w1.shader.m_psRefl = some psRefl ∧
      (w1.shader.m_textures, w1.shader.m_samplers) =
        (psRefl.BoundResources.foldl Shader.Compile.resource
          ((0, 0), world.shader.m_textures, world.shader.m_samplers)).2 := by
  simp only [Shader.Compile.create, bind, Option.bind_eq_some, pure] at h
  obtain ⟨sh0, hrefl, vertex, hvertex, ps, hps, pixel, hpixel, geometry, hgeo, layout, hlayout,
    buffers, hbuffers, sRefl, hsRefl, hw⟩ := h
  obtain ⟨vs, ps', vsRefl, psRefl, hvs, hps', hvr, hpr, hv, hp, ht, hs⟩ :=
    SetReflections_some _ _ _ _ _ hrefl
  have hpsEq : ps = ps' := by
    rw [hps] at hps'
    exact Option.some.inj hps'
  subst hpsEq
  obtain ⟨f1, _, _, f4, f5, _⟩ :=
    SetConstantBuffers_frame _ _ _ _ _ _ (show Shader.SetConstantBuffers layout.2 world.statics
      { geometry.1 with m_layout := some layout.1 } = some (buffers.1, buffers.2.1, buffers.2.2)
      from hbuffers)
  have hgeoFields : geometry.1.m_psRefl = some psRefl ∧
      geometry.1.m_textures = world.shader.m_textures ∧
      geometry.1.m_samplers = world.shader.m_samplers := by
    unfold Shader.Compile.geometryProgram at hgeo
    cases geoShader with
    | false =>
      simp at hgeo
      subst hgeo
      simp [hp, ht, hs]
    | true =>
      cases gsBlob with
      | none => simp at hgeo
      | some gs =>
        cases hc : pixel.2.CreateGeometryShader gs with
        | none => simp [hc] at hgeo
        | some g =>
          simp [hc] at hgeo
          subst hgeo
          simp [hp, ht, hs]
  have hsReflEq : sRefl = psRefl := by
    rw [f1] at hsRefl
    simp only [hgeoFields.1] at hsRefl
    exact (Option.some.inj hsRefl).symm
  subst hsReflEq
  refine ⟨ps, sRefl, hps, hpr, ?_, ?_⟩
  · simp only [Option.some.injEq] at hw
    subst hw
    simp [Shader.Compile.resources, f1, hgeoFields.1]
  · simp only [Option.some.injEq] at hw
    subst hw
    simp [Shader.Compile.resources, f4, f5, hgeoFields.2.1, hgeoFields.2.2]

/-- The name of a slot after the block of a slot has been overwritten. -/
theorem update_data_name (pool : Nat → CPUConstant) (k id : Nat) (data : Option (List Byte)) :
    (Function.update pool k { pool k with _data := data } id)._name = (pool id)._name := by
  by_cases h : id = k
  · subst h; simp
  · simp [Function.update, h]

/-- The closed form of the scan of `SetConstant`: the constants of the entries
whose name matches get the bytes `data`, the buffers of these entries are marked
dirty, and nothing else changes. -/
theorem SetConstant_step_foldl (name : String) (data : List Byte)
    (l : List ConstantBufferMapping) :
    ∀ (statics : CPUConstant.Statics) (cbs : List ConstantBuffer) (found : Bool),
      (∀ id, (l.foldl (Shader.SetConstant.step name data) (statics, cbs, found)).1.s_constants id =
        if l.any (fun m => m.2 == id && decide ((statics.s_constants id)._name = name)) then
          { statics.s_constants id with _data := some data }
        else statics.s_constants id) ∧
      (l.foldl (Shader.SetConstant.step name data) (statics, cbs, found)).1.s_nextConstIndex =
        statics.s_nextConstIndex ∧
      (∀ i, (l.foldl (Shader.SetConstant.step name data) (statics, cbs, found)).2.1[i]? =
        (cbs[i]?).map fun CB =>
          if l.any (fun m => m.1 == i && decide ((statics.s_constants m.2)._name = name)) then
            { CB with dirty := true }
          else CB) ∧
      (l.foldl (Shader.SetConstant.step name data) (statics, cbs, found)).2.2 =
        (found || l.any fun m => decide ((statics.s_constants m.2)._name = name)) := by
  induction l with
  | nil =>
    intro statics cbs found
    refine ⟨fun id => by simp, rfl, fun i => ?_, by simp⟩
    cases h : cbs[i]? <;> simp [h]
  | cons m l ih =>
    intro statics cbs found
    rw [List.foldl_cons]
    by_cases hm : (statics.s_constants m.2)._name = name
    · have hstep : Shader.SetConstant.step name data (statics, cbs, found) m =
          ({ statics with
              s_constants := Function.update statics.s_constants m.2
                { statics.s_constants m.2 with _data := some data } },
            (match cbs[m.1]? with
              | some CB => cbs.set m.1 { CB with dirty := true }
              | none => cbs),
            true) := by
        simp [Shader.SetConstant.step, CPUConstant.Get, hm]
      rw [hstep]
      obtain ⟨h1, h2, h3, h4⟩ := ih
        { statics with
          s_constants := Function.update statics.s_constants m.2
            { statics.s_constants m.2 with _data := some data } }
        (match cbs[m.1]? with
          | some CB => cbs.set m.1 { CB with dirty := true }
          | none => cbs) true
      simp only [update_data_name] at h1 h3 h4
      refine ⟨?_, ?_, ?_, ?_⟩
      · intro id
        rw [h1 id]
        by_cases hid : id = m.2
        · subst hid
          simp [hm]
        · have hne : (m.2 == id) = false := beq_false_of_ne fun h => hid h.symm
          simp only [List.any_cons, hne, Bool.false_and, Bool.false_or]
          simp [Function.update, hid]
      · rw [h2]
      · intro i
        rw [h3 i]
        by_cases hi : i = m.1
        · subst hi
          cases hc : cbs[m.1]? with
          | none => simp [hc]
          | some CB =>
            have hlt : m.1 < cbs.length := by
              rcases Nat.lt_or_ge m.1 cbs.length with h | h
              · exact h
              · rw [List.getElem?_eq_none_iff.mpr h] at hc
                exact absurd hc (by simp)
            simp [hc, hm, List.getElem?_set, hlt]
        · have hne : ¬ m.1 = i := fun h => hi h.symm
          have hb : (m.1 == i) = false := beq_false_of_ne hne
          have hget : (match cbs[m.1]? with
              | some CB => cbs.set m.1 { CB with dirty := true }
              | none => cbs)[i]? = cbs[i]? := by
            cases cbs[m.1]? with
            | none => rfl
            | some CB => simp [List.getElem?_set, hne]
          rw [hget]
          simp only [List.any_cons, hb, Bool.false_and, Bool.false_or]
      · rw [h4]
        simp [hm]
    · have hstep : Shader.SetConstant.step name data (statics, cbs, found) m =
          (statics, cbs, found) := by
        simp [Shader.SetConstant.step, CPUConstant.Get, hm]
      rw [hstep]
      obtain ⟨h1, h2, h3, h4⟩ := ih statics cbs found
      refine ⟨?_, h2, ?_, ?_⟩
      · intro id
        rw [h1 id]
        by_cases hid : m.2 = id
        · subst hid
          simp [hm]
        · have hb : (m.2 == id) = false := beq_false_of_ne hid
          simp only [List.any_cons, hb, Bool.false_and, Bool.false_or]
      · intro i
        rw [h3 i]
        have hd : decide ((statics.s_constants m.2)._name = name) = false := by simp [hm]
        simp only [List.any_cons, hd, Bool.and_false, Bool.false_or]
      · rw [h4]
        have hd : decide ((statics.s_constants m.2)._name = name) = false := by simp [hm]
        simp only [List.any_cons, hd, Bool.false_or]

/-- On the example, `SetConstant1f("exposure", v)` returns. -/
theorem Example.exposureSet_eq :
    Renderer.SetConstant1f Example.tonemappingPool Example.tonemapping "exposure"
        { b0 := 1, b1 := 2, b2 := 3, b3 := 4 } =
      some (Example.exposureSet.1, Example.exposureSet.2.1, Example.exposureSet.2.2) := rfl

/-- The statement on the geometry stage returns when the geometry blob is not
null if asked for and `CreateGeometryShader` does not fail; it keeps the
reflections of the shader and the answers of the device. -/
theorem geometryProgram_some (shader : Shader) (device : ID3D11Device)
    (gsBlob : Option ID3D10Blob) (geoShader : Bool)
    (hgeo : geoShader = true → gsBlob.isSome = true)
    (hG : ∀ created blob, device.CreateGeometryShaderFAILED created blob = false) :
    ∃ geometry, Shader.Compile.geometryProgram shader device gsBlob geoShader = some geometry ∧
      geometry.1.m_vsRefl = shader.m_vsRefl ∧ geometry.1.m_psRefl = shader.m_psRefl ∧
      geometry.2.CreateBufferFAILED = device.CreateBufferFAILED ∧
      geometry.2.CreateInputLayoutFAILED = device.CreateInputLayoutFAILED := by
  cases geoShader with
  | false => exact ⟨(shader, device), rfl, rfl, rfl, rfl, rfl⟩
  | true =>
    obtain ⟨gs, hgs⟩ := Option.isSome_iff_exists.mp (hgeo rfl)
    subst hgs
    refine ⟨({ shader with m_geometryShader := some (device.created + 1) },
      { device with created := device.created + 1 }), ?_, rfl, rfl, rfl, rfl⟩
    simp [Shader.Compile.geometryProgram, ID3D11Device.CreateGeometryShader, hG]

/-- When no blob is null where it is used, every blob has its reflection and no
call on the device fails, the part of `Shader::Compile` behind the compilation
returns. -/
theorem create_isSome (world : World) (vsBlob ps : ID3D10Blob) (gsBlob : Option ID3D10Blob)
    (layouts : List InputLayout) (geoShader : Bool)
    (vsRefl psRefl : ID3D11ShaderReflection)
    (hvr : vsBlob.reflection = some vsRefl) (hpr : ps.reflection = some psRefl)
    (hgr : ∀ gs, gsBlob = some gs → gs.reflection.isSome = true)
    (hgeo : geoShader = true → gsBlob.isSome = true)
    (hB : ∀ created desc, world.device.CreateBufferFAILED created desc = false)
    (hV : ∀ created blob, world.device.CreateVertexShaderFAILED created blob = false)
    (hP : ∀ created blob, world.device.CreatePixelShaderFAILED created blob = false)
    (hG : ∀ created blob, world.device.CreateGeometryShaderFAILED created blob = false)
    (hL : ∀ created descs blob,
      world.device.CreateInputLayoutFAILED created descs blob = false) :
    (Shader.Compile.create world vsBlob (some ps) gsBlob layouts geoShader).isSome = true := by
  have hsome : (Shader.SetReflections world.shader (some vsBlob) (some ps) gsBlob).isSome =
      true := by
    cases gsBlob with
    | none => simp [Shader.SetReflections, hvr, hpr]
    | some gs =>
      obtain ⟨gsRefl, hgsRefl⟩ := Option.isSome_iff_exists.mp (hgr gs rfl)
      simp [Shader.SetReflections, hvr, hpr, hgsRefl]
  obtain ⟨sh0, hsh0⟩ := Option.isSome_iff_exists.mp hsome
  obtain ⟨vs1, ps1, vsRefl1, psRefl1, e1, e2, e3, e4, hv0, hp0, _⟩ :=
    SetReflections_some _ _ _ _ _ hsh0
  cases Option.some.inj e1
  cases Option.some.inj e2
  rw [hvr] at e3
  rw [hpr] at e4
  cases Option.some.inj e3
  cases Option.some.inj e4
  obtain ⟨geometry, hgeometry, hgv, hgp, hgB, hgL⟩ := geometryProgram_some
    { ({ sh0 with m_vertexShader := some (world.device.created + 1) } : Shader) with
      m_pixelShader := some (world.device.created + 1 + 1) }
    { ({ world.device with created := world.device.created + 1 } : ID3D11Device) with
      created := world.device.created + 1 + 1 } gsBlob geoShader hgeo hG
  have hbuf := SetConstantBuffers_isSome
    { geometry.2 with created := geometry.2.created + 1 } world.statics
    { geometry.1 with m_layout := some (geometry.2.created + 1) } vsRefl psRefl
    (hgv.trans hv0) (hgp.trans hp0) (by intro c d; show geometry.2.CreateBufferFAILED c d = false
                                        rw [hgB]; exact hB c d)
  obtain ⟨buffers, hbuffers⟩ := Option.isSome_iff_exists.mp hbuf
  obtain ⟨f1, _⟩ := SetConstantBuffers_frame _ _ _ _ _ _
    (show Shader.SetConstantBuffers _ _ _ = some (buffers.1, buffers.2.1, buffers.2.2)
      from hbuffers)
  have hgL2 : ∀ c d b, geometry.2.CreateInputLayoutFAILED c d b = false := by
    intro c d b
    rw [hgL]
    exact hL c d b
  have hp1 : buffers.1.m_psRefl = some psRefl := by
    rw [f1]
    exact hgp.trans hp0
  simp only [Shader.Compile.create, bind, pure, hsh0, Option.some_bind,
    ID3D11Device.CreateVertexShader, ID3D11Device.CreatePixelShader,
    ID3D11Device.CreateInputLayout, hV, hP, hgL2, hgeometry, hbuffers, Bool.false_eq_true,
    if_false, hp1]
  rfl

/-- The closed form of the loop over the instances of a batch that begins
inside the render list. -/
theorem instances_eq {XMMATRIX : Type} (mul : XMMATRIX → XMMATRIX → XMMATRIX)
    (viewProj : XMMATRIX) (renderList : List (GameObject XMMATRIX)) (batchCount : Nat)
    (remaining : Nat) :
    ∀ (instanceID : Nat) (state : ShadowMapPass.RenderShadowMaps.Instanced XMMATRIX),
      DRAW_INSTANCED_COUNT_DEPTH_PASS * batchCount + instanceID ≤ renderList.length →
      ShadowMapPass.RenderShadowMaps.instances mul viewProj renderList batchCount remaining
          instanceID state =
        some (instanceID + min remaining
            (renderList.length - (DRAW_INSTANCED_COUNT_DEPTH_PASS * batchCount + instanceID)),
          { cbuffer :=
              { objMatrices := fun j =>
                  if instanceID ≤ j ∧ j < instanceID + min remaining (renderList.length -
                      (DRAW_INSTANCED_COUNT_DEPTH_PASS * batchCount + instanceID)) then
                    match renderList[DRAW_INSTANCED_COUNT_DEPTH_PASS * batchCount + j]? with
                    | some pObj => { wvp := mul pObj.WorldTransformationMatrix viewProj }
                    | none => state.cbuffer.objMatrices j
                  else state.cbuffer.objMatrices j },
            calls := state.calls,
            read := state.read ++
              List.range' (DRAW_INSTANCED_COUNT_DEPTH_PASS * batchCount + instanceID)
                (min remaining (renderList.length -
                  (DRAW_INSTANCED_COUNT_DEPTH_PASS * batchCount + instanceID))) }) := by
  induction remaining with
  | zero =>
    intro instanceID state _
    obtain ⟨⟨objMatrices⟩, calls, read⟩ := state
    simp only [ShadowMapPass.RenderShadowMaps.instances, Nat.zero_min, Nat.add_zero,
      List.range'_zero, List.append_nil]
    have hno : ∀ j, ¬(instanceID ≤ j ∧ j < instanceID) := fun j hj => by omega
    simp only [hno, if_false]
  | succ r ih =>
    intro instanceID state h
    simp only [ShadowMapPass.RenderShadowMaps.instances]
    by_cases hEq : DRAW_INSTANCED_COUNT_DEPTH_PASS * batchCount + instanceID = renderList.length
    · obtain ⟨⟨objMatrices⟩, calls, read⟩ := state
      rw [if_pos hEq]
      have hm : min (r + 1) (renderList.length -
          (DRAW_INSTANCED_COUNT_DEPTH_PASS * batchCount + instanceID)) = 0 := by omega
      rw [hm]
      have hno : ∀ j, ¬(instanceID ≤ j ∧ j < instanceID) := fun j hj => by omega
      simp only [Nat.add_zero, hno, if_false, List.range'_zero, List.append_nil]
    · rw [if_neg hEq]
      have hlt : DRAW_INSTANCED_COUNT_DEPTH_PASS * batchCount + instanceID < renderList.length := by
        omega
      simp only [List.getElem?_eq_getElem hlt]
      have h1 : DRAW_INSTANCED_COUNT_DEPTH_PASS * batchCount + (instanceID + 1) ≤
          renderList.length := by omega
      rw [ih (instanceID + 1) _ h1]
      have hm : min (r + 1) (renderList.length -
          (DRAW_INSTANCED_COUNT_DEPTH_PASS * batchCount + instanceID)) =
          min r (renderList.length -
            (DRAW_INSTANCED_COUNT_DEPTH_PASS * batchCount + (instanceID + 1))) + 1 := by omega
      rw [hm]
      generalize min r (renderList.length -
        (DRAW_INSTANCED_COUNT_DEPTH_PASS * batchCount + (instanceID + 1))) = m
      simp only [Option.some.injEq, Prod.mk.injEq,
        ShadowMapPass.RenderShadowMaps.Instanced.mk.injEq, InstancedObjectCBuffer.mk.injEq,
        true_and]
      refine ⟨by omega, ?_, ?_⟩
      · funext j
        by_cases hj : j = instanceID
        · subst hj
          have c1 : ¬(j + 1 ≤ j ∧ j < j + 1 + m) := fun hj => by omega
          have c2 : j ≤ j ∧ j < j + (m + 1) := ⟨Nat.le_refl _, by omega⟩
          simp only [c1, c2, if_false, Function.update_same, List.getElem?_eq_getElem hlt,
            and_self, if_true]
        · by_cases hin : instanceID + 1 ≤ j ∧ j < instanceID + 1 + m
          · have c2 : instanceID ≤ j ∧ j < instanceID + (m + 1) := ⟨by omega, by omega⟩
            simp only [hin, c2, and_self, if_true, Function.update_noteq hj]
          · have c2 : ¬(instanceID ≤ j ∧ j < instanceID + (m + 1)) := fun hc => by omega
            simp only [hin, c2, if_false, Function.update_noteq hj]
      · rw [List.range'_succ, List.append_assoc]
        rfl

/-- A batch that begins inside the render list fills the struct with its
objects and is left with the expected number of instances. -/
theorem instances_batch {XMMATRIX : Type} (mul : XMMATRIX → XMMATRIX → XMMATRIX)
    (viewProj : XMMATRIX) (renderList : List (GameObject XMMATRIX)) (batchCount : Nat)
    (state : ShadowMapPass.RenderShadowMaps.Instanced XMMATRIX)
    (h : DRAW_INSTANCED_COUNT_DEPTH_PASS * batchCount ≤ renderList.length) :
    ShadowMapPass.RenderShadowMaps.instances mul viewProj renderList batchCount
        DRAW_INSTANCED_COUNT_DEPTH_PASS 0 state =
      some (ShadowMapPass.RenderShadowMaps.instanceCount renderList.length batchCount,
        { cbuffer := ShadowMapPass.RenderShadowMaps.filled mul viewProj renderList state.cbuffer
            (DRAW_INSTANCED_COUNT_DEPTH_PASS * batchCount)
            (ShadowMapPass.RenderShadowMaps.instanceCount renderList.length batchCount),
          calls := state.calls,
          read := state.read ++ List.range' (DRAW_INSTANCED_COUNT_DEPTH_PASS * batchCount)
            (ShadowMapPass.RenderShadowMaps.instanceCount renderList.length batchCount) }) := by
  rw [instances_eq mul viewProj renderList batchCount _ 0 state (by omega)]
  simp only [Nat.add_zero, Nat.zero_add, Nat.zero_le, true_and,
    ShadowMapPass.RenderShadowMaps.instanceCount, ShadowMapPass.RenderShadowMaps.filled]

/-- The multiples of the batch size up to the quotient are inside the list. -/
theorem batch_start_le (n batchCount : Nat)
    (h : batchCount ≤ n / DRAW_INSTANCED_COUNT_DEPTH_PASS) :
    DRAW_INSTANCED_COUNT_DEPTH_PASS * batchCount ≤ n :=
  Nat.le_trans (Nat.mul_le_mul_left _ h) (Nat.mul_div_le n _)

/-- The closed form of the loop over the batches: with fuel for the batches that
are left, the loop ends behind the batch `renderList.size() /
DRAW_INSTANCED_COUNT_DEPTH_PASS`, each batch having done what is expected of
it. -/
theorem batches_eq {XMMATRIX : Type} (mul : XMMATRIX → XMMATRIX → XMMATRIX)
    (viewProj : XMMATRIX) (renderList : List (GameObject XMMATRIX)) (k : Nat) :
    ∀ (batchCount fuel : Nat) (state : ShadowMapPass.RenderShadowMaps.Instanced XMMATRIX),
      batchCount + k = renderList.length / DRAW_INSTANCED_COUNT_DEPTH_PASS → k + 1 ≤ fuel →
      ShadowMapPass.RenderShadowMaps.batches mul viewProj renderList fuel batchCount state =
        some (renderList.length / DRAW_INSTANCED_COUNT_DEPTH_PASS + 1,
          (List.range' batchCount (k + 1)).foldl
            (ShadowMapPass.RenderShadowMaps.batchOf mul viewProj renderList) state) := by
  induction k with
  | zero =>
    intro batchCount fuel state hb hfuel
    obtain ⟨fuel, rfl⟩ : ∃ f, fuel = f + 1 := ⟨fuel - 1, by omega⟩
    have hle := batch_start_le renderList.length batchCount (by omega)
    simp only [ShadowMapPass.RenderShadowMaps.batches, instances_batch _ _ _ _ _ hle]
    rw [if_neg (by omega)]
    simp only [Nat.add_zero] at hb
    rw [← hb]
    rfl
  | succ k ih =>
    intro batchCount fuel state hb hfuel
    obtain ⟨fuel, rfl⟩ : ∃ f, fuel = f + 1 := ⟨fuel - 1, by omega⟩
    have hle := batch_start_le renderList.length batchCount (by omega)
    simp only [ShadowMapPass.RenderShadowMaps.batches, instances_batch _ _ _ _ _ hle]
    rw [if_pos (by omega), ih (batchCount + 1) fuel _ (by omega) (by omega)]
    rw [List.range'_succ batchCount, List.foldl_cons]
    rfl

/-- With less fuel than batches are left, the loop over the batches does not
end. -/
theorem batches_none {XMMATRIX : Type} (mul : XMMATRIX → XMMATRIX → XMMATRIX)
    (viewProj : XMMATRIX) (renderList : List (GameObject XMMATRIX)) (fuel : Nat) :
    ∀ (batchCount : Nat) (state : ShadowMapPass.RenderShadowMaps.Instanced XMMATRIX),
      batchCount + fuel ≤ renderList.length / DRAW_INSTANCED_COUNT_DEPTH_PASS →
      ShadowMapPass.RenderShadowMaps.batches mul viewProj renderList fuel batchCount state =
        none := by
  induction fuel with
  | zero => intro batchCount state _; rfl
  | succ fuel ih =>
    intro batchCount state hb
    have hle := batch_start_le renderList.length batchCount (by omega)
    simp only [ShadowMapPass.RenderShadowMaps.batches, instances_batch _ _ _ _ _ hle]
    rw [if_pos (by omega)]
    exact ih _ _ (by omega)

/-- The state after one batch more. -/
theorem afterBatches_succ {XMMATRIX : Type} (mul : XMMATRIX → XMMATRIX → XMMATRIX)
    (viewProj : XMMATRIX) (renderList : List (GameObject XMMATRIX))
    (state : ShadowMapPass.RenderShadowMaps.Instanced XMMATRIX) (m : Nat) :
    ShadowMapPass.RenderShadowMaps.afterBatches mul viewProj renderList state (m + 1) =
      ShadowMapPass.RenderShadowMaps.batchOf mul viewProj renderList
        (ShadowMapPass.RenderShadowMaps.afterBatches mul viewProj renderList state m) m := by
  simp [ShadowMapPass.RenderShadowMaps.afterBatches, List.range_succ]

/-- The calls made by the first batches: three for each batch. -/
theorem afterBatches_calls {XMMATRIX : Type} (mul : XMMATRIX → XMMATRIX → XMMATRIX)
    (viewProj : XMMATRIX) (renderList : List (GameObject XMMATRIX))
    (state : ShadowMapPass.RenderShadowMaps.Instanced XMMATRIX) (m : Nat) :
    (ShadowMapPass.RenderShadowMaps.afterBatches mul viewProj renderList state m).calls =
      state.calls ++ (List.range m).flatMap fun b =>
        [RendererCall.SetConstantStruct "ObjMats"
           (ShadowMapPass.RenderShadowMaps.afterBatches mul viewProj renderList state
             (b + 1)).cbuffer,
         RendererCall.Apply,
         RendererCall.DrawIndexedInstanced
           (ShadowMapPass.RenderShadowMaps.instanceCount renderList.length b)] := by
  induction m with
  | zero => simp [ShadowMapPass.RenderShadowMaps.afterBatches]
  | succ m ih =>
    rw [List.range_succ, List.flatMap_append, ← List.append_assoc, ← ih]
    simp [afterBatches_succ, ShadowMapPass.RenderShadowMaps.batchOf]

/-- The indices read by the first batches: those of the render list, in order,
as far as the batches reach. -/
theorem afterBatches_read {XMMATRIX : Type} (mul : XMMATRIX → XMMATRIX → XMMATRIX)
    (viewProj : XMMATRIX) (renderList : List (GameObject XMMATRIX))
    (state : ShadowMapPass.RenderShadowMaps.Instanced XMMATRIX) (m : Nat) :
    (ShadowMapPass.RenderShadowMaps.afterBatches mul viewProj renderList state m).read =
      state.read ++
        List.range (min (DRAW_INSTANCED_COUNT_DEPTH_PASS * m) renderList.length) := by
  induction m with
  | zero => simp [ShadowMapPass.RenderShadowMaps.afterBatches]
  | succ m ih =>
    rw [afterBatches_succ]
    simp only [ShadowMapPass.RenderShadowMaps.batchOf, ih, List.append_assoc,
      ShadowMapPass.RenderShadowMaps.instanceCount]
    congr 1
    rw [Nat.mul_succ, List.range_eq_range', List.range_eq_range']
    by_cases h : DRAW_INSTANCED_COUNT_DEPTH_PASS * m ≤ renderList.length
    · rw [Nat.min_eq_left h]
      have := List.range'_append 0 (DRAW_INSTANCED_COUNT_DEPTH_PASS * m)
        (min DRAW_INSTANCED_COUNT_DEPTH_PASS
          (renderList.length - DRAW_INSTANCED_COUNT_DEPTH_PASS * m)) 1
      simp only [Nat.one_mul, Nat.zero_add] at this
      rw [this]
      congr 1
      omega
    · have h0 : min DRAW_INSTANCED_COUNT_DEPTH_PASS
          (renderList.length - DRAW_INSTANCED_COUNT_DEPTH_PASS * m) = 0 := by omega
      rw [h0, List.range'_zero, List.append_nil]
      congr 1
      omega

/-- The instance counts of the first batches add up to the objects they
reach. -/
theorem instanceCount_sum (n m : Nat) :
    ((List.range m).map (ShadowMapPass.RenderShadowMaps.instanceCount n)).sum =
      min (DRAW_INSTANCED_COUNT_DEPTH_PASS * m) n := by
  induction m with
  | zero => simp
  | succ m ih =>
    rw [List.range_succ, List.map_append, List.sum_append, ih, Nat.mul_succ]
    simp only [List.map_cons, List.map_nil, List.sum_cons, List.sum_nil, Nat.add_zero,
      ShadowMapPass.RenderShadowMaps.instanceCount]
    omega

/-- The batches up to the quotient reach the whole list. -/
theorem batches_reach (n : Nat) :
    min (DRAW_INSTANCED_COUNT_DEPTH_PASS * (n / DRAW_INSTANCED_COUNT_DEPTH_PASS + 1)) n = n := by
  have h := Nat.lt_mul_div_succ n (show 0 < DRAW_INSTANCED_COUNT_DEPTH_PASS by decide)
  omega

/-- The example list of `n` objects has `n` objects. -/
theorem Example.objects_length (n : Nat) : (Example.objects n).length = n := by
  simp [Example.objects]

/-- The entries of the struct that a batch has filled hold the objects of the
batch. -/
theorem afterBatches_entry {XMMATRIX : Type} (mul : XMMATRIX → XMMATRIX → XMMATRIX)
    (viewProj : XMMATRIX) (renderList : List (GameObject XMMATRIX))
    (state : ShadowMapPass.RenderShadowMaps.Instanced XMMATRIX) (b j : Nat)
    (hj : j < min DRAW_INSTANCED_COUNT_DEPTH_PASS
      (renderList.length - DRAW_INSTANCED_COUNT_DEPTH_PASS * b)) :
    ∃ pObj, renderList[DRAW_INSTANCED_COUNT_DEPTH_PASS * b + j]? = some pObj ∧
      (ShadowMapPass.RenderShadowMaps.afterBatches mul viewProj renderList state
        (b + 1)).cbuffer.objMatrices j =
        { wvp := mul pObj.WorldTransformationMatrix viewProj } := by
  have hlt : DRAW_INSTANCED_COUNT_DEPTH_PASS * b + j < renderList.length := by omega
  refine ⟨renderList[DRAW_INSTANCED_COUNT_DEPTH_PASS * b + j], List.getElem?_eq_getElem hlt, ?_⟩
  rw [afterBatches_succ]
  simp only [ShadowMapPass.RenderShadowMaps.batchOf, ShadowMapPass.RenderShadowMaps.filled,
    ShadowMapPass.RenderShadowMaps.instanceCount, hj, if_true, List.getElem?_eq_getElem hlt]

/-- The instance counts among the calls of the first batches. -/
theorem afterBatches_draws {XMMATRIX : Type} (mul : XMMATRIX → XMMATRIX → XMMATRIX)
    (viewProj : XMMATRIX) (renderList : List (GameObject XMMATRIX))
    (state : ShadowMapPass.RenderShadowMaps.Instanced XMMATRIX) (m : Nat) :
    RendererCall.draws
        (ShadowMapPass.RenderShadowMaps.afterBatches mul viewProj renderList state m).calls =
      RendererCall.draws state.calls ++
        (List.range m).map (ShadowMapPass.RenderShadowMaps.instanceCount renderList.length) := by
  induction m with
  | zero => simp [ShadowMapPass.RenderShadowMaps.afterBatches]
  | succ m ih =>
    rw [afterBatches_succ, List.range_succ, List.map_append, ← List.append_assoc, ← ih]
    simp [ShadowMapPass.RenderShadowMaps.batchOf, RendererCall.draws, List.filterMap_append]

/-- The copies of a list of constants are as many as the constants. -/
theorem countP_isCopy_memcpyCalls (data : Nat) (cs : List CPUConstant) :
    ∀ offset, (memcpyCalls data offset cs).countP ContextCall.isCopy = cs.length := by
  induction cs with
  | nil => intro offset; simp [memcpyCalls]
  | cons c cs ih => intro offset; simp [memcpyCalls, ih, ContextCall.isCopy]

/-- No entry of `SetShaderConstants` is a copy. -/
theorem isCopy_SetShaderConstants (index a b : Nat) (c : List Nat) :
    (SetShaderConstants index a b c).isCopy = false := by
  unfold SetShaderConstants
  split <;> rfl

/-- The calls for a dirty buffer hold one copy for each entry mapped to it. -/
theorem countP_isCopy_issued (statics : CPUConstant.Statics) (ms : List ConstantBufferMapping)
    (i : Nat) (CB : ConstantBuffer) (hdirty : CB.dirty = true) :
    (Shader.UpdateConstants.issued statics ms i CB).countP ContextCall.isCopy =
      (ms.filter fun indexIDPair => indexIDPair.1 == i).length := by
  have h1 : ∀ p, (ContextCall.Map p).isCopy = false := fun _ => rfl
  have h2 : ∀ p, (ContextCall.Unmap p).isCopy = false := fun _ => rfl
  simp [Shader.UpdateConstants.issued, hdirty, List.countP_cons, List.countP_append,
    countP_isCopy_memcpyCalls, h1, h2, isCopy_SetShaderConstants, Shader.packed]

/-- The copies in the calls of a list of dirty buffers, buffer by buffer. -/
theorem countP_isCopy_enumFrom (statics : CPUConstant.Statics) (ms : List ConstantBufferMapping)
    (l : List ConstantBuffer) (hdirty : ∀ CB, CB ∈ l → CB.dirty = true) :
    ∀ k, ((l.enumFrom k).flatMap fun p =>
        Shader.UpdateConstants.issued statics ms p.1 p.2).countP ContextCall.isCopy =
      ((List.range' k l.length).map fun i =>
        (ms.filter fun indexIDPair => indexIDPair.1 == i).length).sum := by
  induction l with
  | nil => intro k; simp
  | cons CB l ih =>
    intro k
    rw [List.enumFrom_cons, List.flatMap_cons, List.countP_append,
      ih (fun CB h => hdirty CB (List.mem_cons_of_mem _ h)),
      countP_isCopy_issued statics ms k CB (hdirty CB (List.mem_cons_self _ _))]
    simp [List.range'_succ]

/-- An entry is counted for one index below a bound on its first component. -/
theorem sum_filter_fst (ms : List ConstantBufferMapping) (N : Nat)
    (h : ∀ m, m ∈ ms → m.1 < N) :
    ((List.range' 0 N).map fun i =>
      (ms.filter fun indexIDPair => indexIDPair.1 == i).length).sum = ms.length := by
  induction ms with
  | nil => simp
  | cons m ms ih =>
    have hone : ∀ M, ((List.range' 0 M).map fun i => if m.1 = i then 1 else 0).sum =
        if m.1 < M then 1 else 0 := by
      intro M
      induction M with
      | zero => simp
      | succ M ihM =>
        rw [List.range'_concat, List.map_append, List.sum_append, ihM]
        simp only [Nat.zero_add, Nat.one_mul, List.map_cons, List.map_nil, List.sum_cons,
          List.sum_nil]
        split <;> split <;> split <;> omega
    have hsplit : (fun i => ((m :: ms).filter fun indexIDPair => indexIDPair.1 == i).length) =
        fun i => (if m.1 = i then 1 else 0) +
          (ms.filter fun indexIDPair => indexIDPair.1 == i).length := by
      funext i
      by_cases hmi : m.1 = i
      · simp [List.filter_cons, hmi]; omega
      · simp [List.filter_cons, hmi]
    rw [hsplit, List.sum_map_add, hone, ih (fun p hp => h p (List.mem_cons_of_mem _ hp)),
      if_pos (h m (List.mem_cons_self _ _)), List.length_cons]
    omega

/-- The first components of the mappings of a list of layouts are indices of
the list, counted from `slot`. -/
theorem mappings_fst_lt (layouts : List ConstantBufferLayout) (slot id : Nat)
    (m : ConstantBufferMapping) (hm : m ∈ Shader.SetConstantBuffers.mappings slot id layouts) :
    m.1 < slot + layouts.length := by
  have hfst := mappings_fst layouts slot id
  have hmem : m.1 ∈ (Shader.SetConstantBuffers.mappings slot id layouts).map Prod.fst :=
    List.mem_map_of_mem _ hm
  rw [hfst, List.mem_flatMap] at hmem
  obtain ⟨p, hp, hrep⟩ := hmem
  have heq : m.1 = p.1 := (List.mem_replicate.mp hrep).2
  obtain ⟨i, L⟩ := p
  have := List.fst_lt_add_of_mem_enumFrom hp
  simp only at heq
  omega

/-! ## The properties -/

/-- C1: for every shader state and every index `i` of a dirty constant buffer,
`Shader::UpdateConstants` leaves in GPU buffer `i`, from its first byte on and
with nothing behind, exactly the concatenation of the raw bytes (the `_size`
bytes at `_data`) of the CPU constants whose entry of `m_constantsUnsorted` has
the first component `i`, in the stored order of `m_constantsUnsorted`, with no
gap between two constants. -/
theorem C1_UpdateConstants_packs_dirty_buffer (statics : CPUConstant.Statics)
    (shader : Shader) (context : ID3D11DeviceContext) (i : Nat) (CB : ConstantBuffer)
    (buffer : ID3D11Buffer) (hCB : shader.m_cBuffers[i]? = some CB)
    (hdirty : CB.dirty = true) (hdata : CB.data = some buffer) :
    (Shader.UpdateConstants statics shader context).1.m_cBuffers[i]? =
      some
        { CB with
          data := some
            { buffer with
              contents :=
                (shader.m_constantsUnsorted.filter fun indexIDPair => indexIDPair.1 == i).flatMap
                  fun indexIDPair =>
                    CPUConstant.read (CPUConstant.Get statics indexIDPair.2)._data
                      (CPUConstant.Get statics indexIDPair.2)._size },
          dirty := false } := by
  rw [UpdateConstants_eq]
  show (shader.m_cBuffers.enum.map _)[i]? = _
  rw [getElem?_enum_map, hCB]
  simp [Shader.UpdateConstants.uploaded, hdirty, hdata, packed_bytes]

/-- Witness of C1: the dirty buffer of the example shader receives the bytes of
the constants 0 and 2. -/
theorem C1_UpdateConstants_packs_dirty_buffer_witness :
    Example.shader.m_cBuffers[0]? = some Example.dirtyCB ∧
    Example.dirtyCB.dirty = true ∧
    Example.dirtyCB.data = some Example.buffer ∧
    (Shader.UpdateConstants Example.statics Example.shader { calls := [] }).1.m_cBuffers[0]? =
      some
        { Example.dirtyCB with
          data := some { Example.buffer with contents := [some 1, some 2, some 1, some 2] },
          dirty := false } :=
  ⟨rfl, rfl, rfl,
    (C1_UpdateConstants_packs_dirty_buffer Example.statics Example.shader { calls := [] } 0
      Example.dirtyCB Example.buffer rfl rfl rfl).trans (by decide)⟩

/-- C4: for every shader state, after one call of `Shader::UpdateConstants`
every `ConstantBuffer` has `dirty == false`, and a second call with no change in
between leaves the shader (with the contents of every GPU buffer) as it is and
adds no call to the device context: no `Map`, no copy, no `Unmap`, no bind. -/
theorem C4_UpdateConstants_twice (statics : CPUConstant.Statics) (shader : Shader)
    (context : ID3D11DeviceContext) :
    ((Shader.UpdateConstants statics shader context).1.m_cBuffers.all fun CB => !CB.dirty) = true ∧
    (Shader.UpdateConstants statics (Shader.UpdateConstants statics shader context).1
        (Shader.UpdateConstants statics shader context).2).1 =
      (Shader.UpdateConstants statics shader context).1 ∧
    (Shader.UpdateConstants statics (Shader.UpdateConstants statics shader context).1
        (Shader.UpdateConstants statics shader context).2).2.calls =
      (Shader.UpdateConstants statics shader context).2.calls := by
  have hclean : ∀ CB, CB ∈ (Shader.UpdateConstants statics shader context).1.m_cBuffers →
      CB.dirty = false := by
    intro CB hmem
    rw [UpdateConstants_eq] at hmem
    simp only [List.mem_map] at hmem
    obtain ⟨p, _, rfl⟩ := hmem
    exact uploaded_dirty _ _ _ _
  refine ⟨?_, ?_, ?_⟩
  · rw [List.all_eq_true]
    intro CB hmem
    simp [hclean CB hmem]
  · rw [UpdateConstants_of_clean _ _ _ hclean]
  · rw [UpdateConstants_of_clean _ _ _ hclean]

/-- C5: for every shader state and every index `i` of a constant buffer with
`dirty == false`, `Shader::UpdateConstants` leaves the entry `i` of `m_cBuffers`
as it is (the contents of GPU buffer `i` and its clear dirty flag included), and
does exactly what the loop does when the iteration for `i` is left out, so that
no call is made for buffer `i`; the calls it adds hold as many `Map` and as many
binds as there are dirty buffers. -/
theorem C5_UpdateConstants_skips_clean_buffer (statics : CPUConstant.Statics)
    (shader : Shader) (context : ID3D11DeviceContext) (i : Nat) (CB : ConstantBuffer)
    (hCB : shader.m_cBuffers[i]? = some CB) (hclean : CB.dirty = false) :
    (Shader.UpdateConstants statics shader context).1.m_cBuffers[i]? = some CB ∧
    Shader.UpdateConstants statics shader context =
      ((List.range shader.m_cBuffers.length).filter fun j => j != i).foldl
        (fun state j => Shader.UpdateConstants.body statics j state) (shader, context) ∧
    ((Shader.UpdateConstants statics shader context).2.calls.drop context.calls.length).countP
        ContextCall.isMap = shader.m_cBuffers.countP (fun CB => CB.dirty) ∧
    ((Shader.UpdateConstants statics shader context).2.calls.drop context.calls.length).countP
        ContextCall.isBind = shader.m_cBuffers.countP (fun CB => CB.dirty) := by
  refine ⟨?_, ?_, ?_, ?_⟩
  · rw [UpdateConstants_eq]
    show (shader.m_cBuffers.enum.map _)[i]? = _
    rw [getElem?_enum_map, hCB]
    simp [Shader.UpdateConstants.uploaded, hclean]
  · exact foldl_body_skip statics i CB hclean _ (shader, context) hCB
  · exact UpdateConstants_count statics shader context _ (countP_isMap_issued statics _)
  · exact UpdateConstants_count statics shader context _ (countP_isBind_issued statics _)

/-- Witness of C5: the clean buffer of the example shader is left as it is. -/
theorem C5_UpdateConstants_skips_clean_buffer_witness :
    Example.shader.m_cBuffers[1]? = some Example.cleanCB ∧
    Example.cleanCB.dirty = false ∧
    (Shader.UpdateConstants Example.statics Example.shader { calls := [] }).1.m_cBuffers[1]? =
      some Example.cleanCB :=
  ⟨rfl, rfl,
    (C5_UpdateConstants_skips_clean_buffer Example.statics Example.shader { calls := [] } 1
      Example.cleanCB rfl rfl).1⟩

/-- C6: for every shader state, after `Shader::ClearConstantBuffers` every
`ConstantBuffer` of `m_cBuffers` has `dirty == true`, the number of buffers and
the stage, the slot and the device buffer of each are as before, and a following
`Shader::UpdateConstants` uploads every buffer again: each device buffer then
holds the bytes of its constants, and one `Map` and one bind are made for each
buffer. -/
theorem C6_ClearConstantBuffers_marks_all_dirty (statics : CPUConstant.Statics)
    (shader : Shader) (context : ID3D11DeviceContext) :
    (shader.ClearConstantBuffers.m_cBuffers.all fun CB => CB.dirty) = true ∧
    shader.ClearConstantBuffers.m_cBuffers.length = shader.m_cBuffers.length ∧
    (shader.ClearConstantBuffers.m_cBuffers.map fun CB => (CB.shdType, CB.bufferSlot, CB.data)) =
      (shader.m_cBuffers.map fun CB => (CB.shdType, CB.bufferSlot, CB.data)) ∧
    (Shader.UpdateConstants statics shader.ClearConstantBuffers context).1.m_cBuffers =
      (shader.m_cBuffers.enum.map fun p =>
        { p.2 with
          data := p.2.data.map fun (buffer : ID3D11Buffer) =>
            { buffer with
              contents :=
                (shader.m_constantsUnsorted.filter fun indexIDPair =>
                    indexIDPair.1 == p.1).flatMap
                  fun indexIDPair =>
                    CPUConstant.read (CPUConstant.Get statics indexIDPair.2)._data
                      (CPUConstant.Get statics indexIDPair.2)._size },
          dirty := false }) ∧
    ((Shader.UpdateConstants statics shader.ClearConstantBuffers context).2.calls.drop
        context.calls.length).countP ContextCall.isMap = shader.m_cBuffers.length ∧
    ((Shader.UpdateConstants statics shader.ClearConstantBuffers context).2.calls.drop
        context.calls.length).countP ContextCall.isBind = shader.m_cBuffers.length := by
  have hcount : (shader.ClearConstantBuffers.m_cBuffers.countP fun CB => CB.dirty) =
      shader.m_cBuffers.length := by
    simp [Shader.ClearConstantBuffers, List.countP_map, Function.comp_def]
  refine ⟨?_, ?_, ?_, ?_, ?_, ?_⟩
  · simp [Shader.ClearConstantBuffers]
  · simp [Shader.ClearConstantBuffers]
  · simp [Shader.ClearConstantBuffers]
  · rw [UpdateConstants_eq]
    show (shader.ClearConstantBuffers.m_cBuffers.enum.map _) = _
    have : shader.ClearConstantBuffers.m_cBuffers.enum =
        shader.m_cBuffers.enum.map fun p => (p.1, { p.2 with dirty := true }) := by
      simp only [Shader.ClearConstantBuffers, List.enum, List.enumFrom_map]
      rfl
    rw [this, List.map_map]
    apply List.map_congr_left
    intro p _
    simp [Shader.UpdateConstants.uploaded, packed_bytes, Shader.ClearConstantBuffers]
  · rw [UpdateConstants_count statics _ context _ (countP_isMap_issued statics _), hcount]
  · rw [UpdateConstants_count statics _ context _ (countP_isBind_issued statics _), hcount]

/-- C7: for every pool state with `s_nextConstIndex = n` below the capacity
`MAX_CONSTANT_BUFFERS` of the pool, `CPUConstant::GetNextAvailable` returns the
identifier `n` with a reference to the slot `n`, which lies in the pool, and
advances `s_nextConstIndex` to `n + 1` without touching a slot; hence the
identifiers returned by successive calls are `n, n + 1, ...`: strictly
increasing and pairwise distinct, so that no slot is handed out twice. -/
theorem C7_GetNextAvailable_hands_out_next_slot (MAX_CONSTANT_BUFFERS : Nat)
    (statics : CPUConstant.Statics) (n : Nat) (hn : statics.s_nextConstIndex = n)
    (hcapacity : n < MAX_CONSTANT_BUFFERS) :
    (CPUConstant.GetNextAvailable statics).1 = (n, n) ∧
    (CPUConstant.GetNextAvailable statics).1.1 < MAX_CONSTANT_BUFFERS ∧
    (CPUConstant.GetNextAvailable statics).2.s_nextConstIndex = n + 1 ∧
    (CPUConstant.GetNextAvailable statics).2.s_constants = statics.s_constants ∧
    ∀ count : Nat,
      (CPUConstant.GetNextAvailableTimes count statics).1 = List.range' n count ∧
      (CPUConstant.GetNextAvailableTimes count statics).1.Pairwise (fun a b => a < b) ∧
      (CPUConstant.GetNextAvailableTimes count statics).1.Nodup ∧
      (CPUConstant.GetNextAvailableTimes count statics).2.s_nextConstIndex = n + count := by
  subst hn
  refine ⟨rfl, hcapacity, rfl, rfl, ?_⟩
  intro count
  rw [GetNextAvailableTimes_eq]
  refine ⟨rfl, ?_, ?_, rfl⟩
  · simpa using List.pairwise_lt_range' statics.s_nextConstIndex count
  · exact List.nodup_range' statics.s_nextConstIndex count

/-- Witness of C7: a pool of 512 slots of which 3 are taken. -/
theorem C7_GetNextAvailable_hands_out_next_slot_witness :
    ({ Example.statics with s_nextConstIndex := 3 } : CPUConstant.Statics).s_nextConstIndex = 3 ∧
    3 < 512 ∧
    (CPUConstant.GetNextAvailable { Example.statics with s_nextConstIndex := 3 }).1 = (3, 3) :=
  ⟨rfl, by decide,
    (C7_GetNextAvailable_hands_out_next_slot 512 { Example.statics with s_nextConstIndex := 3 } 3
      rfl (by decide)).1⟩

/-- Counterexample to C8: in a pool of 512 slots that are all taken
(`s_nextConstIndex` is 512), `CPUConstant::GetNextAvailable` does not fail: it
returns the identifier 512, which is outside the pool, with a reference behind
the array, and advances `s_nextConstIndex` to 513. -/
theorem C8_GetNextAvailable_exhausted_counterexample :
    (CPUConstant.GetNextAvailable { Example.statics with s_nextConstIndex := 512 }).1 =
      (512, 512) ∧
    ¬ (CPUConstant.GetNextAvailable { Example.statics with s_nextConstIndex := 512 }).1.2 < 512 ∧
    (CPUConstant.GetNextAvailable { Example.statics with s_nextConstIndex := 512 }).2.s_nextConstIndex
      = 513 :=
  ⟨rfl, by decide, rfl⟩

/-- C8, amended: `CPUConstant::GetNextAvailable` checks no capacity. When the
pool is exhausted, that is when `s_nextConstIndex = n` is at or above the
capacity `MAX_CONSTANT_BUFFERS`, it still returns: the identifier is `n`, which
is outside the pool, the reference is to the index `n` behind the array, no slot
is touched, and `s_nextConstIndex` becomes `n + 1`. -/
theorem C8_GetNextAvailable_exhausted (MAX_CONSTANT_BUFFERS : Nat)
    (statics : CPUConstant.Statics) (n : Nat) (hn : statics.s_nextConstIndex = n)
    (hexhausted : MAX_CONSTANT_BUFFERS ≤ n) :
    (CPUConstant.GetNextAvailable statics).1 = (n, n) ∧
    MAX_CONSTANT_BUFFERS ≤ (CPUConstant.GetNextAvailable statics).1.2 ∧
    (CPUConstant.GetNextAvailable statics).2.s_nextConstIndex = n + 1 ∧
    (CPUConstant.GetNextAvailable statics).2.s_constants = statics.s_constants := by
  subst hn
  exact ⟨rfl, hexhausted, rfl, rfl⟩

/-- Witness of C8, amended: a pool of 512 slots with `s_nextConstIndex` at
600. -/
theorem C8_GetNextAvailable_exhausted_witness :
    ({ Example.statics with s_nextConstIndex := 600 } : CPUConstant.Statics).s_nextConstIndex
      = 600 ∧
    512 ≤ 600 ∧
    (CPUConstant.GetNextAvailable { Example.statics with s_nextConstIndex := 600 }).1 =
      (600, 600) :=
  ⟨rfl, by decide,
    (C8_GetNextAvailable_exhausted 512 { Example.statics with s_nextConstIndex := 600 } 600
      rfl (by decide)).1⟩

/-- C9: for every list of registered layouts whose member variables find room
in the pool (`n` plus their number is at most the capacity
`MAX_CONSTANT_BUFFERS`, `n` being `s_nextConstIndex` when the call began), after
`Shader::SetConstantBuffers` the CPU constant allocated for a member variable,
the `k`-th of all the variables of `m_CBLayouts` taken in order, is the one of
the `k`-th entry pushed back to `m_constantsUnsorted` (behind the entries
`m_constants` held before the call, if any) and lies in the slot `n + k`, which
is a slot of the pool; its `_name` is the reflected name of the variable, its
`_size` the reflected size, and its `_data` a block of exactly `_size` bytes that
are all zero. -/
theorem C9_SetConstantBuffers_initialises_constants (MAX_CONSTANT_BUFFERS : Nat)
    (device dev1 : ID3D11Device)
    (statics st1 : CPUConstant.Statics) (shader sh1 : Shader)
    (hset : Shader.SetConstantBuffers device statics shader = some (sh1, st1, dev1))
    (hcapacity : statics.s_nextConstIndex +
      (sh1.m_CBLayouts.flatMap fun cbLayout => cbLayout.vars).length ≤ MAX_CONSTANT_BUFFERS)
    (k : Nat) (varDesc : D3D11_SHADER_VARIABLE_DESC)
    (hvar : (sh1.m_CBLayouts.flatMap fun cbLayout => cbLayout.vars)[k]? = some varDesc) :
    ∃ indexIDPair : ConstantBufferMapping,
      sh1.m_constantsUnsorted[shader.m_constants.length + k]? = some indexIDPair ∧
      indexIDPair.2 = statics.s_nextConstIndex + k ∧
      indexIDPair.2 < MAX_CONSTANT_BUFFERS ∧
      (CPUConstant.Get st1 indexIDPair.2)._name = varDesc.Name ∧
      (CPUConstant.Get st1 indexIDPair.2)._size = varDesc.Size ∧
      (CPUConstant.Get st1 indexIDPair.2)._data =
        some (List.replicate (CPUConstant.Get st1 indexIDPair.2)._size 0) := by
  obtain ⟨_, h2, _, _, _, h6, _, _⟩ := SetConstantBuffers_some _ _ _ _ _ _ hset
  have hsnd := mappings_snd sh1.m_CBLayouts 0 statics.s_nextConstIndex
  have hk : k < (sh1.m_CBLayouts.flatMap fun cbLayout => cbLayout.vars).length := by
    rcases Nat.lt_or_ge k (sh1.m_CBLayouts.flatMap fun cbLayout => cbLayout.vars).length with h | h
    · exact h
    · rw [List.getElem?_eq_none_iff.mpr h] at hvar
      exact absurd hvar (by simp)
  have hid : ((Shader.SetConstantBuffers.mappings 0 statics.s_nextConstIndex
      sh1.m_CBLayouts).map Prod.snd)[k]? = some (statics.s_nextConstIndex + k) := by
    rw [hsnd, List.getElem?_range' _ _ hk]
    simp
  rw [List.getElem?_map] at hid
  have hget : sh1.m_constantsUnsorted[shader.m_constants.length + k]? =
      (Shader.SetConstantBuffers.mappings 0 statics.s_nextConstIndex sh1.m_CBLayouts)[k]? := by
    rw [h2, List.getElem?_append_right (Nat.le_add_right _ _)]
    simp
  cases hm : (Shader.SetConstantBuffers.mappings 0 statics.s_nextConstIndex sh1.m_CBLayouts)[k]? with
  | none => rw [hm] at hid; exact absurd hid (by simp)
  | some m =>
    rw [hm] at hid
    simp only [Option.map_some', Option.some.injEq] at hid
    have hpool := h6 k varDesc hvar
    have hlt : statics.s_nextConstIndex + k < MAX_CONSTANT_BUFFERS := by omega
    have hin : m.2 < MAX_CONSTANT_BUFFERS := by rw [hid]; exact hlt
    refine ⟨m, by rw [hget, hm], hid, hin, ?_, ?_, ?_⟩ <;>
      simp [CPUConstant.Get, hid, hpool, Shader.SetConstantBuffers.constantOf]

/-- Witness of C9: the constant of the variable `m` of the example, in a pool
of 512 slots of which 3 are taken. -/
theorem C9_SetConstantBuffers_initialises_constants_witness :
    Shader.SetConstantBuffers Example.device Example.pool Example.compiling =
      some (Example.produced.1, Example.produced.2.1, Example.produced.2.2) ∧
    Example.pool.s_nextConstIndex +
      (Example.produced.1.m_CBLayouts.flatMap fun cbLayout => cbLayout.vars).length ≤ 512 ∧
    (Example.produced.1.m_CBLayouts.flatMap fun cbLayout => cbLayout.vars)[1]? =
      some { Name := "m", StartOffset := 4, Size := 12 } ∧
    ∃ indexIDPair : ConstantBufferMapping,
      Example.produced.1.m_constantsUnsorted[1]? = some indexIDPair ∧
      indexIDPair.2 < 512 ∧
      (CPUConstant.Get Example.produced.2.1 indexIDPair.2)._name = "m" ∧
      (CPUConstant.Get Example.produced.2.1 indexIDPair.2)._size = 12 :=
  ⟨Example.produced_eq, by decide, by decide,
    (C9_SetConstantBuffers_initialises_constants 512 Example.device Example.produced.2.2
      Example.pool Example.produced.2.1 Example.compiling Example.produced.1 Example.produced_eq
      (by decide) 1 { Name := "m", StartOffset := 4, Size := 12 } (by decide)).imp
      fun _ h => ⟨h.1, h.2.2.1, h.2.2.2.1, h.2.2.2.2.1⟩⟩

/-- C10: for every list of registered layouts whose member variables find room
in the pool (`n` plus their number is at most the capacity
`MAX_CONSTANT_BUFFERS`, `n` being `s_nextConstIndex` when the call began), after
`Shader::SetConstantBuffers` (on a shader that had no mapping yet)
`m_constantsUnsorted` has exactly one entry for each member variable of each
layout, layout after layout in the order of `m_CBLayouts` (the first components
are the indices of the layouts, each repeated once for each of its variables)
and, in a layout, in the order of declaration (the constants of the entries bear
the names of the variables in that order); the identifiers of the entries are
the consecutive values `n, n + 1, ...`, all of them slots of the pool, and
`s_nextConstIndex` ends behind the last of them, at most at the capacity. -/
theorem C10_SetConstantBuffers_mappings (MAX_CONSTANT_BUFFERS : Nat)
    (device dev1 : ID3D11Device)
    (statics st1 : CPUConstant.Statics) (shader sh1 : Shader)
    (hconstants : shader.m_constants = [])
    (hset : Shader.SetConstantBuffers device statics shader = some (sh1, st1, dev1))
    (hcapacity : statics.s_nextConstIndex +
      (sh1.m_CBLayouts.flatMap fun cbLayout => cbLayout.vars).length ≤ MAX_CONSTANT_BUFFERS) :
    sh1.m_constantsUnsorted.length =
      (sh1.m_CBLayouts.flatMap fun cbLayout => cbLayout.vars).length ∧
    sh1.m_constantsUnsorted.map Prod.fst =
      (sh1.m_CBLayouts.enum.flatMap fun p => List.replicate p.2.vars.length p.1) ∧
    sh1.m_constantsUnsorted.map Prod.snd =
      List.range' statics.s_nextConstIndex
        (sh1.m_CBLayouts.flatMap fun cbLayout => cbLayout.vars).length ∧
    (sh1.m_constantsUnsorted.map fun indexIDPair => (CPUConstant.Get st1 indexIDPair.2)._name) =
      ((sh1.m_CBLayouts.flatMap fun cbLayout => cbLayout.vars).map fun varDesc => varDesc.Name) ∧
    st1.s_nextConstIndex =
      statics.s_nextConstIndex +
        (sh1.m_CBLayouts.flatMap fun cbLayout => cbLayout.vars).length ∧
    (∀ id : Nat, id ∈ sh1.m_constantsUnsorted.map Prod.snd → id < MAX_CONSTANT_BUFFERS) ∧
    st1.s_nextConstIndex ≤ MAX_CONSTANT_BUFFERS := by
  obtain ⟨_, h2, _, h4, _, h6, _, _⟩ := SetConstantBuffers_some _ _ _ _ _ _ hset
  rw [hconstants, List.nil_append] at h2
  have hsnd := mappings_snd sh1.m_CBLayouts 0 statics.s_nextConstIndex
  have hfst := mappings_fst sh1.m_CBLayouts 0 statics.s_nextConstIndex
  rw [← h2] at hsnd hfst
  refine ⟨?_, hfst, hsnd, ?_, h4, ?_, ?_⟩
  rotate_left 2
  · intro id hid
    rw [hsnd, List.mem_range'_1] at hid
    omega
  · rw [h4]
    exact hcapacity
  · have := congrArg List.length hsnd
    simpa using this
  · have hcomp : (sh1.m_constantsUnsorted.map fun indexIDPair =>
        (CPUConstant.Get st1 indexIDPair.2)._name) =
        (sh1.m_constantsUnsorted.map Prod.snd).map fun id => (st1.s_constants id)._name := by
      simp [CPUConstant.Get, Function.comp_def]
    rw [hcomp, hsnd]
    apply List.ext_getElem?
    intro k
    rw [List.getElem?_map, List.getElem?_map]
    rcases Nat.lt_or_ge k (sh1.m_CBLayouts.flatMap fun cbLayout => cbLayout.vars).length with h | h
    · rw [List.getElem?_range' _ _ h, List.getElem?_eq_getElem h]
      simp only [Option.map_some', Nat.one_mul]
      rw [h6 k _ (List.getElem?_eq_getElem h)]
      rfl
    · rw [List.getElem?_eq_none_iff.mpr h, List.getElem?_eq_none_iff.mpr (by simpa using h)]
      rfl

/-- Witness of C10: the four mappings of the example, with the identifiers 3 to
6, in a pool of 512 slots. -/
theorem C10_SetConstantBuffers_mappings_witness :
    Example.compiling.m_constants = [] ∧
    Shader.SetConstantBuffers Example.device Example.pool Example.compiling =
      some (Example.produced.1, Example.produced.2.1, Example.produced.2.2) ∧
    Example.pool.s_nextConstIndex +
      (Example.produced.1.m_CBLayouts.flatMap fun cbLayout => cbLayout.vars).length ≤ 512 ∧
    Example.produced.1.m_constantsUnsorted = [(0, 3), (0, 4), (0, 5), (1, 6)] ∧
    Example.produced.1.m_constantsUnsorted.map Prod.snd =
      List.range' Example.pool.s_nextConstIndex
        (Example.produced.1.m_CBLayouts.flatMap fun cbLayout => cbLayout.vars).length :=
  ⟨rfl, Example.produced_eq, by decide, by decide,
    (C10_SetConstantBuffers_mappings 512 Example.device Example.produced.2.2 Example.pool
      Example.produced.2.1 Example.compiling Example.produced.1 rfl Example.produced_eq
      (by decide)).2.2.1⟩

/-- C11: the bytes `Shader::UpdateConstants` writes, the binds it issues and the
dirty flags it leaves depend only on `m_cBuffers`, `m_constantsUnsorted` and the
pool: two shader states that agree on `m_cBuffers` and `m_constantsUnsorted`,
whatever their name-sorted lists `m_constants` (and their other members) are,
end with the same constant buffers (contents of the GPU buffers and dirty flags)
and the same calls on the device context, and `m_constants` is left as it
was. -/
theorem C11_UpdateConstants_ignores_sorted_view (statics : CPUConstant.Statics)
    (shader shader2 : Shader) (context : ID3D11DeviceContext)
    (hbuffers : shader.m_cBuffers = shader2.m_cBuffers)
    (hunsorted : shader.m_constantsUnsorted = shader2.m_constantsUnsorted) :
    (Shader.UpdateConstants statics shader context).1.m_cBuffers =
      (Shader.UpdateConstants statics shader2 context).1.m_cBuffers ∧
    (Shader.UpdateConstants statics shader context).2 =
      (Shader.UpdateConstants statics shader2 context).2 ∧
    (Shader.UpdateConstants statics shader context).1.m_constants = shader.m_constants ∧
    (Shader.UpdateConstants statics shader2 context).1.m_constants = shader2.m_constants := by
  rw [UpdateConstants_eq, UpdateConstants_eq, hbuffers, hunsorted]
  exact ⟨rfl, rfl, rfl, rfl⟩

/-- Witness of C11: the example shader, and the same with another sorted list. -/
theorem C11_UpdateConstants_ignores_sorted_view_witness :
    Example.shader.m_cBuffers =
      ({ Example.shader with m_constants := [(7, 7), (0, 2)] } : Shader).m_cBuffers ∧
    Example.shader.m_constantsUnsorted =
      ({ Example.shader with m_constants := [(7, 7), (0, 2)] } : Shader).m_constantsUnsorted ∧
    Example.shader.m_constants ≠
      ({ Example.shader with m_constants := [(7, 7), (0, 2)] } : Shader).m_constants ∧
    (Shader.UpdateConstants Example.statics Example.shader { calls := [] }).2 =
      (Shader.UpdateConstants Example.statics
        { Example.shader with m_constants := [(7, 7), (0, 2)] } { calls := [] }).2 :=
  ⟨rfl, rfl, by decide,
    (C11_UpdateConstants_ignores_sorted_view Example.statics Example.shader
      { Example.shader with m_constants := [(7, 7), (0, 2)] } { calls := [] } rfl rfl).2.1⟩

/-- C12, evaluated: when the vertex stage fails to compile, `Shader::Compile`
reports the failure and returns with the shader, the pool and the device as they
were; when the pixel stage fails, or the geometry stage that was asked for, the
failure is reported but the call goes on, a null blob is dereferenced and the
call does not return. This holds on the example and for every state: behind the
compilation, a null pixel blob, or a null geometry blob when a geometry stage was
asked for, gives no result. -/
theorem C12_Compile_stage_failure :
    ((Shader.Compile (Example.compiler "VSMain") Example.world "tonemapping" [] true).map fun w =>
        (w.shader, w.statics.s_nextConstIndex, w.device.created, w.released, w.log)) =
      some (Example.world.shader, Example.world.statics.s_nextConstIndex,
        Example.world.device.created, [],
        [LogEntry.Info "\tCompiling  \"tonemapping\"...\t",
          LogEntry.Error ERROR_LOG.CANT_OPEN_FILE "tonemapping_vs.hlsl"]) ∧
    (Shader.Compile (Example.compiler "PSMain") Example.world "tonemapping" [] false).isSome =
      false ∧
    (Shader.Compile (Example.compiler "GSMain") Example.world "tonemapping" [] true).isSome =
      false ∧
    (Shader.Compile (Example.compiler "") Example.world "tonemapping" [] true).isSome = true ∧
    (∀ world vsBlob gsBlob layouts geoShader,
      (Shader.Compile.create world vsBlob none gsBlob layouts geoShader).isSome = false) ∧
    (∀ world vsBlob psBlob layouts,
      (Shader.Compile.create world vsBlob psBlob none layouts true).isSome = false) := by
  refine ⟨by decide, by decide, by decide, by decide, ?_, ?_⟩
  · intro world vsBlob gsBlob layouts geoShader
    cases hvr : vsBlob.reflection <;>
      simp [Shader.Compile.create, Shader.SetReflections, hvr, bind]
  · intro world vsBlob psBlob layouts
    cases h : Shader.Compile.create world vsBlob psBlob none layouts true with
    | none => rfl
    | some w1 =>
      simp only [Shader.Compile.create, bind, Option.bind_eq_some, pure] at h
      obtain ⟨sh0, hrefl, vertex, hvertex, ps, hps, pixel, hpixel, geometry, hgeo, _⟩ := h
      simp [Shader.Compile.geometryProgram] at hgeo

/-- Counterexample to C13: the padded buffer of the example is dirty and was
created with 16 bytes while the one constant mapped to it has 12 bytes, and
`Shader::UpdateConstants` completes: it has written 12 bytes, its last call is
the bind of that buffer, and it leaves every buffer clean. -/
theorem C13_UpdateConstants_size_mismatch_counterexample :
    (Example.produced.1.m_cBuffers[1]?).map
        (fun CB => (CB.dirty, CB.data.map fun buffer => buffer.desc.ByteWidth)) =
      some (true, some 16) ∧
    ((Example.produced.1.m_constantsUnsorted.filter fun indexIDPair => indexIDPair.1 == 1).map
        fun indexIDPair => (CPUConstant.Get Example.produced.2.1 indexIDPair.2)._size) = [12] ∧
    ((Shader.UpdateConstants Example.produced.2.1 Example.produced.1
          { calls := [] }).1.m_cBuffers.map
        fun CB => (CB.dirty, CB.data.map fun buffer => buffer.contents.length)) =
      [(false, some 32), (false, some 12)] ∧
    (Shader.UpdateConstants Example.produced.2.1 Example.produced.1
        { calls := [] }).2.calls.getLast? =
      some (ContextCall.PSSetConstantBuffers 0 1 [2]) := by
  decide

/-- C13, amended: `Shader::UpdateConstants` compares nothing with the size of
the buffer. For every shader state in which the sizes of the constants mapped to
a dirty buffer sum to less than the `ByteWidth` its GPU buffer was created with,
the call completes as for any other buffer: the sum of these sizes is the number
of bytes written, which is not the size of the buffer, the buffer is bound
through the entry of its stage, and its dirty flag is cleared. -/
theorem C13_UpdateConstants_size_mismatch (statics : CPUConstant.Statics)
    (shader : Shader) (context : ID3D11DeviceContext) (i : Nat) (CB : ConstantBuffer)
    (buffer : ID3D11Buffer) (hCB : shader.m_cBuffers[i]? = some CB)
    (hdirty : CB.dirty = true) (hdata : CB.data = some buffer)
    (hmismatch :
      ((shader.m_constantsUnsorted.filter fun indexIDPair => indexIDPair.1 == i).map
        fun indexIDPair => (CPUConstant.Get statics indexIDPair.2)._size).sum <
      buffer.desc.ByteWidth) :
    ∃ written : List Cell,
      (Shader.UpdateConstants statics shader context).1.m_cBuffers[i]? =
        some { CB with data := some { buffer with contents := written }, dirty := false } ∧
      written.length =
        ((shader.m_constantsUnsorted.filter fun indexIDPair => indexIDPair.1 == i).map
          fun indexIDPair => (CPUConstant.Get statics indexIDPair.2)._size).sum ∧
      written.length < buffer.desc.ByteWidth ∧
      SetShaderConstants CB.shdType.toNat CB.bufferSlot 1 [buffer.address] ∈
        (Shader.UpdateConstants statics shader context).2.calls := by
  have hlen : ((Shader.packed statics shader.m_constantsUnsorted i).flatMap
      CPUConstant.bytes).length =
      ((shader.m_constantsUnsorted.filter fun indexIDPair => indexIDPair.1 == i).map
        fun indexIDPair => (CPUConstant.Get statics indexIDPair.2)._size).sum := by
    rw [length_flatMap_bytes]
    simp [Shader.packed, Function.comp_def]
  refine ⟨(Shader.packed statics shader.m_constantsUnsorted i).flatMap CPUConstant.bytes,
    ?_, hlen, ?_, ?_⟩
  · rw [UpdateConstants_eq]
    show (shader.m_cBuffers.enum.map _)[i]? = _
    rw [getElem?_enum_map, hCB]
    simp [Shader.UpdateConstants.uploaded, hdirty, hdata]
  · rw [hlen]; exact hmismatch
  · rw [UpdateConstants_eq]
    show _ ∈ context.calls ++ _
    apply List.mem_append_right
    rw [List.mem_flatMap]
    refine ⟨(i, CB), List.mk_mem_enum_iff_getElem?.mpr hCB, ?_⟩
    have := bind_mem_issued statics shader.m_constantsUnsorted i CB hdirty
    simpa [hdata, ID3D11Buffer.pointer] using this

/-- Witness of C13, amended: the dirty buffer of the example shader, created
with 16 bytes, to which two constants of 2 bytes are mapped. -/
theorem C13_UpdateConstants_size_mismatch_witness :
    Example.shader.m_cBuffers[0]? = some Example.dirtyCB ∧
    Example.dirtyCB.dirty = true ∧
    Example.dirtyCB.data = some Example.buffer ∧
    ((Example.shader.m_constantsUnsorted.filter fun indexIDPair => indexIDPair.1 == 0).map
        fun indexIDPair => (CPUConstant.Get Example.statics indexIDPair.2)._size).sum <
      Example.buffer.desc.ByteWidth ∧
    ∃ written : List Cell,
      (Shader.UpdateConstants Example.statics Example.shader { calls := [] }).1.m_cBuffers[0]? =
        some { Example.dirtyCB with
          data := some { Example.buffer with contents := written }, dirty := false } ∧
      written.length = 4 := by
  refine ⟨rfl, rfl, rfl, by decide, ?_⟩
  obtain ⟨written, h1, h2, _, _⟩ :=
    C13_UpdateConstants_size_mismatch Example.statics Example.shader { calls := [] } 0
      Example.dirtyCB Example.buffer rfl rfl rfl (by decide)
  exact ⟨written, h1, h2.trans (by decide)⟩

/-- C14: setting the constant named `exposure` (or of any other name) on the
bound shader with `Renderer::SetConstant1f(name, v)` changes only the byte
buffers of the constants of that name that the shader declares, which receive
the bytes of `v`, and sets dirty only on the constant buffers that own such a
constant; the bytes of every other CPU constant, the names and the sizes of all
of them, every other constant buffer with its dirty flag, and the other members
of the shader are unchanged. -/
theorem C14_SetConstant1f_changes_only_named_constant (statics st1 : CPUConstant.Statics)
    (shader sh1 : Shader) (name : String) (value : float) (found : Bool)
    (hset : Renderer.SetConstant1f statics shader name value = some (st1, sh1, found)) :
    (∀ id, (∀ m, m ∈ shader.m_constantsUnsorted → m.2 = id →
        (CPUConstant.Get statics id)._name ≠ name) →
      CPUConstant.Get st1 id = CPUConstant.Get statics id) ∧
    (∀ id, (CPUConstant.Get st1 id)._name = (CPUConstant.Get statics id)._name ∧
      (CPUConstant.Get st1 id)._size = (CPUConstant.Get statics id)._size) ∧
    (∀ m, m ∈ shader.m_constantsUnsorted → (CPUConstant.Get statics m.2)._name = name →
      (CPUConstant.Get st1 m.2)._data = some value.bytes ∧
      (CPUConstant.Get statics m.2)._size = 4) ∧
    (∀ i, (∀ m, m ∈ shader.m_constantsUnsorted → m.1 = i →
        (CPUConstant.Get statics m.2)._name ≠ name) →
      sh1.m_cBuffers[i]? = shader.m_cBuffers[i]?) ∧
    (∀ i CB, shader.m_cBuffers[i]? = some CB →
      (∃ m, m ∈ shader.m_constantsUnsorted ∧ m.1 = i ∧
        (CPUConstant.Get statics m.2)._name = name) →
      sh1.m_cBuffers[i]? = some { CB with dirty := true }) ∧
    sh1 = { shader with m_cBuffers := sh1.m_cBuffers } ∧
    st1.s_nextConstIndex = statics.s_nextConstIndex ∧
    (found = true ↔
      ∃ m, m ∈ shader.m_constantsUnsorted ∧ (CPUConstant.Get statics m.2)._name = name) := by
  unfold Renderer.SetConstant1f at hset
  split at hset
  · rename_i hsize
    simp only [Option.some.injEq, Shader.SetConstant, Prod.mk.injEq] at hset
    obtain ⟨h1, h2, h3⟩ := hset
    obtain ⟨c1, c2, c3, c4⟩ := SetConstant_step_foldl name value.bytes shader.m_constantsUnsorted
      statics shader.m_cBuffers false
    rw [h1] at c1 c2
    rw [h3] at c4
    have hb : sh1.m_cBuffers = (shader.m_constantsUnsorted.foldl
        (Shader.SetConstant.step name value.bytes) (statics, shader.m_cBuffers, false)).2.1 := by
      rw [← h2]
    rw [← hb] at c3
    rw [List.all_eq_true] at hsize
    refine ⟨?_, ?_, ?_, ?_, ?_, ?_, c2, ?_⟩
    · intro id hid
      show st1.s_constants id = statics.s_constants id
      rw [c1 id, if_neg]
      rw [Bool.not_eq_true, List.any_eq_false]
      intro m hm
      by_cases h : m.2 = id
      · have := hid m hm h
        simp only [CPUConstant.Get] at this
        simp [this]
      · simp [h]
    · intro id
      show (st1.s_constants id)._name = (statics.s_constants id)._name ∧
        (st1.s_constants id)._size = (statics.s_constants id)._size
      rw [c1 id]
      split <;> exact ⟨rfl, rfl⟩
    · intro m hm hname
      refine ⟨?_, ?_⟩
      · show (st1.s_constants m.2)._data = some value.bytes
        rw [c1 m.2, if_pos]
        rw [List.any_eq_true]
        exact ⟨m, hm, by simpa [CPUConstant.Get] using hname⟩
      · have := hsize m hm
        simp only [decide_eq_true_eq] at this
        exact this hname
    · intro i hi
      rw [c3 i]
      have : (shader.m_constantsUnsorted.any fun m =>
          m.1 == i && decide ((statics.s_constants m.2)._name = name)) = false := by
        rw [List.any_eq_false]
        intro m hm
        by_cases h : m.1 = i
        · have := hi m hm h
          simp only [CPUConstant.Get] at this
          simp [this]
        · simp [h]
      simp only [this]
      cases shader.m_cBuffers[i]? <;> simp
    · intro i CB hCB hex
      rw [c3 i, hCB]
      have : (shader.m_constantsUnsorted.any fun m =>
          m.1 == i && decide ((statics.s_constants m.2)._name = name)) = true := by
        rw [List.any_eq_true]
        obtain ⟨m, hm, h1, h2⟩ := hex
        exact ⟨m, hm, by simpa [CPUConstant.Get, h1] using h2⟩
      simp [this]
    · rw [← h2]
    · rw [c4]
      simp [List.any_eq_true, CPUConstant.Get]
  · exact absurd hset (by simp)

/-- Witness of C14: on the example, `SetConstant1f("exposure", v)` gives the
constant `exposure` the bytes of `v`, marks the second buffer dirty, and leaves
the constant `color` and the first buffer as they are. -/
theorem C14_SetConstant1f_changes_only_named_constant_witness :
    Renderer.SetConstant1f Example.tonemappingPool Example.tonemapping "exposure"
        { b0 := 1, b1 := 2, b2 := 3, b3 := 4 } =
      some (Example.exposureSet.1, Example.exposureSet.2.1, Example.exposureSet.2.2) ∧
    CPUConstant.Get Example.exposureSet.1 1 =
      { _name := "exposure", _size := 4, _data := some [1, 2, 3, 4] } ∧
    (Example.exposureSet.2.1.m_cBuffers.map fun CB => CB.dirty) = [false, true] ∧
    (CPUConstant.Get Example.exposureSet.1 0 = CPUConstant.Get Example.tonemappingPool 0 ∧
      CPUConstant.Get Example.exposureSet.1 2 = CPUConstant.Get Example.tonemappingPool 2) :=
  ⟨Example.exposureSet_eq, by decide, by decide,
    (C14_SetConstant1f_changes_only_named_constant Example.tonemappingPool Example.exposureSet.1
      Example.tonemapping Example.exposureSet.2.1 "exposure" { b0 := 1, b1 := 2, b2 := 3, b3 := 4 }
      Example.exposureSet.2.2 Example.exposureSet_eq).1 0 (by decide),
    (C14_SetConstant1f_changes_only_named_constant Example.tonemappingPool Example.exposureSet.1
      Example.tonemapping Example.exposureSet.2.1 "exposure" { b0 := 1, b1 := 2, b2 := 3, b3 := 4 }
      Example.exposureSet.2.2 Example.exposureSet_eq).1 2 (by decide)⟩

/-- C15, as the code has it: `Shader::~Shader` releases, each once and in this
order, the device buffers of the constant buffers, the input layout, the pixel,
the vertex and the geometry program, and the vertex and the pixel reflection
objects, as far as they are not null, and sets these pointers to null; it does
not touch `m_gsRefl`, so that the geometry reflection object that
`Shader::SetReflections` has stored is neither released nor set to null. So it
is on a shader with the three stages whose geometry reflection is at the address
103, and on the shader that `Shader::Compile` produces when a geometry stage is
asked for. -/
theorem C15_destructor_keeps_geometry_reflection (shader : Shader) :
    (Shader.destructor shader).1 =
      { shader with
        m_cBuffers := shader.m_cBuffers.map fun cbuf => { cbuf with data := none },
        m_layout := none, m_pixelShader := none, m_vertexShader := none,
        m_geometryShader := none, m_vsRefl := none, m_psRefl := none } ∧
    (Shader.destructor shader).1.m_gsRefl = shader.m_gsRefl ∧
    (Shader.destructor shader).2 =
      (shader.m_cBuffers.filterMap fun cbuf => cbuf.data.map fun buffer => buffer.address)
        ++ shader.m_layout.toList ++ shader.m_pixelShader.toList
        ++ shader.m_vertexShader.toList ++ shader.m_geometryShader.toList
        ++ (shader.m_vsRefl.map fun refl => refl.address).toList
        ++ (shader.m_psRefl.map fun refl => refl.address).toList ∧
    (Shader.destructor Example.compiled).1.m_gsRefl =
      some { address := 103, ConstantBuffers := [], BoundResources := [] } ∧
    (Shader.destructor Example.compiled).2 = [5, 4, 2, 1, 3, 101, 100] ∧
    103 ∉ (Shader.destructor Example.compiled).2 ∧
    ((Shader.Compile (Example.compiler "") Example.world "tonemapping" [] true).map fun w =>
        ((Shader.destructor w.shader).1.m_gsRefl.map fun refl => refl.address,
          (Shader.destructor w.shader).2)) =
      some (some 103, [5, 6, 4, 2, 1, 3, 101, 102]) := by
  refine ⟨?_, ?_, ?_, by decide, by decide, by decide, by decide⟩
  · simp only [Shader.destructor, destructor_cbuf_foldl]
    cases shader.m_layout <;> cases shader.m_pixelShader <;> cases shader.m_vertexShader <;>
      cases shader.m_geometryShader <;> cases shader.m_vsRefl <;> cases shader.m_psRefl <;>
      simp [Shader.destructor.release, Shader.destructor.releaseRefl]
  · simp only [Shader.destructor]
  · simp only [Shader.destructor, destructor_cbuf_foldl]
    cases shader.m_layout <;> cases shader.m_pixelShader <;> cases shader.m_vertexShader <;>
      cases shader.m_geometryShader <;> cases shader.m_vsRefl <;> cases shader.m_psRefl <;>
      simp [Shader.destructor.release, Shader.destructor.releaseRefl]

/-- C16: for every pool state, after `CPUConstant::CleanUp` every one of the
`MAX_CONSTANT_BUFFERS` slots of the pool has a null block; the blocks deleted
are those of the slots that had one, each once; and a second `CleanUp` deletes
nothing and leaves the pool as the first one left it. -/
theorem C16_CleanUp_releases_all (MAX_CONSTANT_BUFFERS : Nat) (statics : CPUConstant.Statics)
    (i : Nat) (hi : i < MAX_CONSTANT_BUFFERS) :
    ((CPUConstant.CleanUp MAX_CONSTANT_BUFFERS statics).1.s_constants i)._data = none ∧
    (CPUConstant.CleanUp MAX_CONSTANT_BUFFERS statics).2 =
      ((List.range MAX_CONSTANT_BUFFERS).filter fun k =>
        (statics.s_constants k)._data.isSome) ∧
    (CPUConstant.CleanUp MAX_CONSTANT_BUFFERS statics).2.Nodup ∧
    (CPUConstant.CleanUp MAX_CONSTANT_BUFFERS
      (CPUConstant.CleanUp MAX_CONSTANT_BUFFERS statics).1).2 = [] ∧
    (CPUConstant.CleanUp MAX_CONSTANT_BUFFERS
      (CPUConstant.CleanUp MAX_CONSTANT_BUFFERS statics).1).1.s_constants =
      (CPUConstant.CleanUp MAX_CONSTANT_BUFFERS statics).1.s_constants := by
  refine ⟨?_, ?_, ?_, ?_, ?_⟩
  · rw [CleanUp_eq]
    simp [hi]
  · rw [CleanUp_eq]
  · rw [CleanUp_eq]
    exact (List.nodup_range _).filter _
  · rw [CleanUp_eq, CleanUp_eq]
    simp only [List.filter_eq_nil_iff]
    intro k hk
    have : k < MAX_CONSTANT_BUFFERS := List.mem_range.mp hk
    simp [this]
  · rw [CleanUp_eq, CleanUp_eq]
    funext k
    by_cases hk : k < MAX_CONSTANT_BUFFERS <;> simp [hk]

/-- Witness of C16: a pool of 4 slots that all hold a block. -/
theorem C16_CleanUp_releases_all_witness :
    2 < 4 ∧
    ((CPUConstant.CleanUp 4 Example.statics).1.s_constants 2)._data = none ∧
    (CPUConstant.CleanUp 4 Example.statics).2 = [0, 1, 2, 3] :=
  ⟨by decide, (C16_CleanUp_releases_all 4 Example.statics 2 (by decide)).1,
    (C16_CleanUp_releases_all 4 Example.statics 2 (by decide)).2.1.trans (by decide)⟩

/-- C17: whenever `Shader::Compile` gets past the compilation of the vertex stage
and returns, the pixel stage was compiled and its reflection taken, and for the
bound resources of that reflection, whatever they are, the call has appended to
`m_samplers` exactly the resources of type sampler and to `m_textures` exactly
those of type texture, each in the order of enumeration and tagged with the
pixel stage, the k-th sampler with `bufferSlot` k and the k-th texture with
`bufferSlot` k, so that the two counters are independent and a resource of
another type takes no slot. The call does return when the stages asked for
compile, every blob has its reflection, and no call on the device fails. -/
theorem C17_Compile_textures_and_samplers
    (D3DCompileFromFile : String → String → String → Except (Option String) ID3D10Blob)
    (world : World) (shaderFileName : String) (layouts : List InputLayout) (geoShader : Bool)
    (vsBlob : ID3D10Blob)
    (hvs : D3DCompileFromFile (shaderFileName ++ "_vs.hlsl") "VSMain"
      (shaderCompilerVersions ShaderType.VS.toNat) = Except.ok vsBlob) :
    (∀ w1, Shader.Compile D3DCompileFromFile world shaderFileName layouts geoShader = some w1 →
      ∃ (psBlob : ID3D10Blob) (psRefl : ID3D11ShaderReflection),
        D3DCompileFromFile (shaderFileName ++ "_ps.hlsl") "PSMain"
          (shaderCompilerVersions ShaderType.PS.toNat) = Except.ok psBlob ∧
        psBlob.reflection = some psRefl ∧
        w1.shader.m_psRefl = some psRefl ∧
        w1.shader.m_samplers = world.shader.m_samplers ++
          (psRefl.BoundResources.filter fun r =>
            r.Type_ = D3D_SHADER_INPUT_TYPE.D3D_SIT_SAMPLER).enum.map
            (fun p => { name := p.2.Name, shdType := ShaderType.PS, bufferSlot := p.1 }) ∧
        w1.shader.m_textures = world.shader.m_textures ++
          (psRefl.BoundResources.filter fun r =>
            r.Type_ = D3D_SHADER_INPUT_TYPE.D3D_SIT_TEXTURE).enum.map
            (fun p => { name := p.2.Name, shdType := ShaderType.PS, bufferSlot := p.1 })) ∧
    (∀ (psBlob : ID3D10Blob) (vsRefl psRefl : ID3D11ShaderReflection),
      D3DCompileFromFile (shaderFileName ++ "_ps.hlsl") "PSMain"
        (shaderCompilerVersions ShaderType.PS.toNat) = Except.ok psBlob →
      vsBlob.reflection = some vsRefl → psBlob.reflection = some psRefl →
      (geoShader = true → ∃ gsBlob, D3DCompileFromFile (shaderFileName ++ "_gs.hlsl") "GSMain"
        (shaderCompilerVersions ShaderType.GS.toNat) = Except.ok gsBlob ∧
        gsBlob.reflection.isSome = true) →
      (∀ created desc, world.device.CreateBufferFAILED created desc = false) →
      (∀ created blob, world.device.CreateVertexShaderFAILED created blob = false) →
      (∀ created blob, world.device.CreatePixelShaderFAILED created blob = false) →
      (∀ created blob, world.device.CreateGeometryShaderFAILED created blob = false) →
      (∀ created descs blob, world.device.CreateInputLayoutFAILED created descs blob = false) →
      (Shader.Compile D3DCompileFromFile world shaderFileName layouts geoShader).isSome = true) := by
  refine ⟨?_, ?_⟩
  · intro w1 hcompile
    simp only [Shader.Compile, hvs] at hcompile
    obtain ⟨ps, psRefl, hps, hpr, hrefl, hres⟩ := create_some _ _ _ _ _ _ _ hcompile
    rw [resource_foldl] at hres
    simp only [Prod.mk.injEq] at hres
    cases hc : D3DCompileFromFile (shaderFileName ++ "_ps.hlsl") "PSMain"
        (shaderCompilerVersions ShaderType.PS.toNat) with
    | error e => simp [hc] at hps
    | ok psBlob =>
      simp only [hc, Option.some.injEq] at hps
      subst hps
      exact ⟨psBlob, psRefl, rfl, hpr, hrefl, hres.2, hres.1⟩
  · intro psBlob vsRefl psRefl hps hvr hpr hgs hB hV hP hG hL
    simp only [Shader.Compile, hvs, hps]
    refine create_isSome _ _ _ _ _ _ vsRefl psRefl hvr hpr ?_ ?_ hB hV hP hG hL
    · intro gs hgsEq
      cases geoShader with
      | false => simp at hgsEq
      | true =>
        obtain ⟨gsBlob, hg, hgr⟩ := hgs rfl
        simp only [hg, if_true, Option.some.injEq] at hgsEq
        subst hgsEq
        exact hgr
    · intro hgeo
      obtain ⟨gsBlob, hg, _⟩ := hgs hgeo
      simp [hgeo, hg]

/-- Witness of C17: on the example, where the pixel stage reports a sampler, a
constant buffer, two textures and another sampler, the compilation returns with
the samplers in the slots 0 and 1 and the textures in the slots 0 and 1. -/
theorem C17_Compile_textures_and_samplers_witness :
    Example.compiler "" ("tonemapping" ++ "_vs.hlsl") "VSMain"
        (shaderCompilerVersions ShaderType.VS.toNat) = Except.ok Example.vsBlob ∧
    (Shader.Compile (Example.compiler "") Example.world "tonemapping" [] true).isSome = true ∧
    ((Shader.Compile (Example.compiler "") Example.world "tonemapping" [] true).map fun w =>
        (w.shader.m_samplers, w.shader.m_textures)) =
      some ([{ name := "Sampler", shdType := ShaderType.PS, bufferSlot := 0 },
          { name := "PointSampler", shdType := ShaderType.PS, bufferSlot := 1 }],
        [{ name := "ColorTexture", shdType := ShaderType.PS, bufferSlot := 0 },
          { name := "DepthTexture", shdType := ShaderType.PS, bufferSlot := 1 }]) :=
  ⟨rfl,
    (C17_Compile_textures_and_samplers (Example.compiler "") Example.world "tonemapping" [] true
      Example.vsBlob rfl).2 Example.psBlob Example.orderRefl Example.texturedRefl
      rfl rfl rfl (fun _ => ⟨Example.gsBlob, rfl, rfl⟩)
      (fun _ _ => rfl) (fun _ _ => rfl) (fun _ _ => rfl) (fun _ _ => rfl) (fun _ _ _ => rfl),
    by decide⟩

/-- C18: for every stage reflection reporting `n` constant buffers, one call of
`Shader::RegisterConstantBufferLayout` appends exactly `n` layouts to
`m_CBLayouts`, in the order of enumeration, and changes no other member; the
`j`-th of them (from 0) has `bufSlot == j`, the stage passed in as `shdType`, the
descriptions of its variables and of their types in the order of reflection, and
as `buffSize` the sum of the sizes of its variables; when `n == 0` the shader is
left as it is (the function has no failure). -/
theorem C18_RegisterConstantBufferLayout_appends (shader : Shader)
    (sRefl : ID3D11ShaderReflection) (type : ShaderType) :
    shader.RegisterConstantBufferLayout sRefl type =
      { shader with
        m_CBLayouts := shader.m_CBLayouts ++ sRefl.ConstantBuffers.enum.map fun p =>
          { desc := p.2.GetDesc,
            vars := p.2.vars.map fun pVariable => pVariable.desc,
            types := p.2.vars.map fun pVariable => pVariable.type,
            shdType := type,
            bufSlot := p.1,
            buffSize :=
              ((p.2.vars.map fun pVariable => pVariable.desc).map fun varDesc =>
                varDesc.Size).sum } } ∧
    (shader.RegisterConstantBufferLayout sRefl type).m_CBLayouts.length =
      shader.m_CBLayouts.length + sRefl.ConstantBuffers.length ∧
    shader.RegisterConstantBufferLayout { sRefl with ConstantBuffers := [] } type = shader := by
  refine ⟨?_, ?_, ?_⟩
  · rw [RegisterConstantBufferLayout_eq]
    simp [Shader.RegisterConstantBufferLayout.layoutOf, Function.comp_def]
  · rw [RegisterConstantBufferLayout_eq]
    simp
  · rw [RegisterConstantBufferLayout_eq]
    simp

/-- C19: after `Shader::SetConstantBuffers` on a shader that had no constant
buffer yet, as a freshly constructed one, `m_cBuffers` has exactly one
`ConstantBuffer` for each entry of `m_CBLayouts`, in the same order; the `i`-th
buffer has the stage and the `bufSlot` of the `i`-th layout, points to a GPU
buffer created with a `ByteWidth` equal to the `desc.Size` of that layout (and
the usage, bind and access flags of a dynamic constant buffer), and starts with
`dirty == true`. The call does return when the two reflections are there and no
`CreateBuffer` fails. -/
theorem C19_SetConstantBuffers_creates_buffers (device : ID3D11Device)
    (statics : CPUConstant.Statics) (shader : Shader)
    (hbuffers : shader.m_cBuffers = []) :
    (∀ (sh1 : Shader) (st1 : CPUConstant.Statics) (dev1 : ID3D11Device),
      Shader.SetConstantBuffers device statics shader = some (sh1, st1, dev1) →
        sh1.m_cBuffers.length = sh1.m_CBLayouts.length ∧
        (sh1.m_cBuffers.map fun CB =>
            (CB.shdType, CB.bufferSlot, CB.data.map (fun buffer => buffer.desc), CB.dirty)) =
          (sh1.m_CBLayouts.map fun cbLayout =>
            (cbLayout.shdType, cbLayout.bufSlot,
              some
                { ByteWidth := cbLayout.desc.Size, Usage := D3D11_USAGE_DYNAMIC,
                  BindFlags := D3D11_BIND_CONSTANT_BUFFER, CPUAccessFlags := D3D11_CPU_ACCESS_WRITE,
                  MiscFlags := 0, StructureByteStride := 0 },
              true)) ∧
        (sh1.m_cBuffers.map fun CB => ID3D11Buffer.pointer CB.data) =
          List.range' (device.created + 1) sh1.m_CBLayouts.length ∧
        dev1.created = device.created + sh1.m_CBLayouts.length) ∧
    (∀ vsRefl psRefl, shader.m_vsRefl = some vsRefl → shader.m_psRefl = some psRefl →
      (∀ created desc, device.CreateBufferFAILED created desc = false) →
      (Shader.SetConstantBuffers device statics shader).isSome = true) := by
  refine ⟨?_, ?_⟩
  · intro sh1 st1 dev1 hset
    obtain ⟨_, _, _, _, _, _, h7, h8⟩ := SetConstantBuffers_some _ _ _ _ _ _ hset
    rw [hbuffers, List.nil_append] at h7
    refine ⟨?_, ?_, ?_, h8⟩
    · rw [h7]; simp
    · rw [h7, List.map_map]
      conv => rhs; rw [← List.enum_map_snd sh1.m_CBLayouts, List.map_map]
      apply List.map_congr_left
      intro p _
      simp [Shader.SetConstantBuffers.bufferOf, Shader.SetConstantBuffers.cBufferDesc]
    · rw [h7, List.map_map]
      apply List.ext_getElem?
      intro k
      rw [List.getElem?_map, List.getElem?_enum]
      rcases Nat.lt_or_ge k sh1.m_CBLayouts.length with h | h
      · rw [List.getElem?_range' _ _ h, List.getElem?_eq_getElem h]
        simp [Shader.SetConstantBuffers.bufferOf, ID3D11Buffer.pointer]
      · rw [List.getElem?_eq_none_iff.mpr h, List.getElem?_eq_none_iff.mpr (by simpa using h)]
        rfl
  · intro vsRefl psRefl hvs hps hdevice
    exact SetConstantBuffers_isSome _ _ _ _ _ hvs hps hdevice

/-- Witness of C19: the two constant buffers of the example. -/
theorem C19_SetConstantBuffers_creates_buffers_witness :
    Example.compiling.m_cBuffers = [] ∧
    Shader.SetConstantBuffers Example.device Example.pool Example.compiling =
      some (Example.produced.1, Example.produced.2.1, Example.produced.2.2) ∧
    Example.produced.1.m_CBLayouts.length = 2 ∧
    Example.produced.1.m_cBuffers.length = Example.produced.1.m_CBLayouts.length :=
  ⟨rfl, Example.produced_eq, by decide,
    ((C19_SetConstantBuffers_creates_buffers Example.device Example.pool Example.compiling
      rfl).1 Example.produced.1 Example.produced.2.1 Example.produced.2.2
      Example.produced_eq).1⟩

/-- C20: for every shader state, the binds `Shader::UpdateConstants` issues are
exactly one for each dirty `ConstantBuffer`, in the order of the indices of the
buffers; the bind of a buffer is made through the entry point of its recorded
stage (`VSSetConstantBuffers` for a vertex buffer, `GSSetConstantBuffers` for a
geometry buffer, `PSSetConstantBuffers` for a pixel buffer), at the start slot
`bufferSlot`, with one buffer, the device buffer of the `ConstantBuffer`
itself. -/
theorem C20_UpdateConstants_binds (statics : CPUConstant.Statics) (shader : Shader)
    (context : ID3D11DeviceContext) :
    ((Shader.UpdateConstants statics shader context).2.calls.drop context.calls.length).filter
        ContextCall.isBind =
      (shader.m_cBuffers.filter fun CB => CB.dirty).map fun CB =>
        match CB.shdType with
        | .VS => ContextCall.VSSetConstantBuffers CB.bufferSlot 1 [ID3D11Buffer.pointer CB.data]
        | .GS => ContextCall.GSSetConstantBuffers CB.bufferSlot 1 [ID3D11Buffer.pointer CB.data]
        | .DS => ContextCall.DSSetConstantBuffers CB.bufferSlot 1 [ID3D11Buffer.pointer CB.data]
        | .HS => ContextCall.HSSetConstantBuffers CB.bufferSlot 1 [ID3D11Buffer.pointer CB.data]
        | .CS => ContextCall.CSSetConstantBuffers CB.bufferSlot 1 [ID3D11Buffer.pointer CB.data]
        | .PS => ContextCall.PSSetConstantBuffers CB.bufferSlot 1 [ID3D11Buffer.pointer CB.data] := by
  rw [UpdateConstants_eq]
  simp only [List.drop_left]
  show ((shader.m_cBuffers.enumFrom 0).flatMap _).filter _ = _
  rw [filter_isBind_issued_enumFrom]
  apply List.map_congr_left
  intro CB _
  rw [SetShaderConstants_toNat]
  cases CB.shdType <;> rfl

/-- C22: after `Shader::SetConstantBuffers` (on a shader that had no mapping and
no constant buffer yet, the member variables finding room in the pool of
capacity `MAX_CONSTANT_BUFFERS`), the first component of every entry of
`m_constantsUnsorted` is the index in `m_CBLayouts`, counted over all the stages
and not the `bufSlot` of a stage, of the layout that declared the constant of
the entry, which lies in a slot of the pool, so it is smaller than
`m_cBuffers.size()`. Hence
`Shader::UpdateConstants`, every buffer being dirty, makes exactly one copy for
each entry, and the GPU buffer of index `i` holds the constants of the layout of
index `i` and nothing else, whatever the stages and the slots of the buffers
are: two buffers of different stages with the same slot do not receive the
constants of each other. The call does return when the two reflections are
there and no `CreateBuffer` fails. -/
theorem C22_SetConstantBuffers_index_of_layout (MAX_CONSTANT_BUFFERS : Nat)
    (device : ID3D11Device)
    (statics : CPUConstant.Statics) (shader : Shader)
    (hconstants : shader.m_constants = []) (hbuffers : shader.m_cBuffers = []) :
    (∀ (sh1 : Shader) (st1 : CPUConstant.Statics) (dev1 : ID3D11Device),
      Shader.SetConstantBuffers device statics shader = some (sh1, st1, dev1) →
      statics.s_nextConstIndex +
        (sh1.m_CBLayouts.flatMap fun cbLayout => cbLayout.vars).length ≤
          MAX_CONSTANT_BUFFERS →
        sh1.m_cBuffers.length = sh1.m_CBLayouts.length ∧
        (∀ indexIDPair, indexIDPair ∈ sh1.m_constantsUnsorted →
          indexIDPair.1 < sh1.m_cBuffers.length ∧
          indexIDPair.2 < MAX_CONSTANT_BUFFERS ∧
          ∃ cbLayout varDesc, sh1.m_CBLayouts[indexIDPair.1]? = some cbLayout ∧
            varDesc ∈ cbLayout.vars ∧
            CPUConstant.Get st1 indexIDPair.2 =
              Shader.SetConstantBuffers.constantOf varDesc) ∧
        (∀ (context : ID3D11DeviceContext) (i : Nat) (cbLayout : ConstantBufferLayout),
          sh1.m_CBLayouts[i]? = some cbLayout →
          ((Shader.UpdateConstants st1 sh1 context).1.m_cBuffers[i]?).map
              (fun CB => (CB.shdType, CB.bufferSlot,
                CB.data.map fun buffer => (buffer.address, buffer.contents))) =
            some (cbLayout.shdType, cbLayout.bufSlot,
              some (device.created + 1 + i,
                (cbLayout.vars.map Shader.SetConstantBuffers.constantOf).flatMap
                  CPUConstant.bytes))) ∧
        (∀ (context : ID3D11DeviceContext),
          ((Shader.UpdateConstants st1 sh1 context).2.calls.drop context.calls.length).countP
              ContextCall.isCopy =
            sh1.m_constantsUnsorted.length)) ∧
    (∀ vsRefl psRefl, shader.m_vsRefl = some vsRefl → shader.m_psRefl = some psRefl →
      (∀ created desc, device.CreateBufferFAILED created desc = false) →
      (Shader.SetConstantBuffers device statics shader).isSome = true) := by
  refine ⟨?_, ?_⟩
  · intro sh1 st1 dev1 hset hcapacity
    obtain ⟨_, h2, _, _, _, _, h7, _⟩ := SetConstantBuffers_some _ _ _ _ _ _ hset
    rw [hconstants, List.nil_append] at h2
    rw [hbuffers, List.nil_append] at h7
    have hsnd := mappings_snd sh1.m_CBLayouts 0 statics.s_nextConstIndex
    rw [← h2] at hsnd
    have hlen : sh1.m_cBuffers.length = sh1.m_CBLayouts.length := by
      rw [h7]; simp
    have hlt : ∀ m, m ∈ sh1.m_constantsUnsorted → m.1 < sh1.m_CBLayouts.length := by
      intro m hm
      rw [h2] at hm
      have := mappings_fst_lt _ _ _ m hm
      omega
    have hdirty : ∀ CB, CB ∈ sh1.m_cBuffers → CB.dirty = true := by
      intro CB hCB
      rw [h7, List.mem_map] at hCB
      obtain ⟨p, _, rfl⟩ := hCB
      rfl
    refine ⟨hlen, ?_, ?_, ?_⟩
    · intro m hm
      have hi := hlt m hm
      have hid : m.2 ∈ sh1.m_constantsUnsorted.map Prod.snd := List.mem_map_of_mem _ hm
      rw [hsnd, List.mem_range'_1] at hid
      have hin : m.2 < MAX_CONSTANT_BUFFERS := Nat.lt_of_lt_of_le hid.2 hcapacity
      refine ⟨by omega, hin, sh1.m_CBLayouts[m.1], ?_⟩
      obtain ⟨hpacked, _, _⟩ := SetConstantBuffers_buffer _ _ _ _ _ _ hconstants hbuffers hset
        m.1 _ (List.getElem?_eq_getElem hi)
      have hmem : CPUConstant.Get st1 m.2 ∈ Shader.packed st1 sh1.m_constantsUnsorted m.1 := by
        unfold Shader.packed
        exact List.mem_map.mpr ⟨m, List.mem_filter.mpr ⟨hm, by simp⟩, rfl⟩
      rw [hpacked, List.mem_map] at hmem
      obtain ⟨v, hv, hget⟩ := hmem
      exact ⟨v, List.getElem?_eq_getElem hi, hv, hget.symm⟩
    · intro context i cbLayout hi
      obtain ⟨hpacked, hCB, _⟩ := SetConstantBuffers_buffer _ _ _ _ _ _ hconstants hbuffers hset
        i cbLayout hi
      rw [UpdateConstants_eq]
      show ((sh1.m_cBuffers.enum.map _)[i]?).map _ = _
      rw [getElem?_enum_map, hCB]
      simp [Shader.UpdateConstants.uploaded, Shader.SetConstantBuffers.bufferOf, hpacked]
    · intro context
      rw [UpdateConstants_eq]
      simp only [List.drop_left]
      rw [List.enum, countP_isCopy_enumFrom st1 sh1.m_constantsUnsorted sh1.m_cBuffers hdirty 0,
        hlen]
      exact sum_filter_fst _ _ hlt
  · intro vsRefl psRefl hvs hps hdevice
    exact SetConstantBuffers_isSome _ _ _ _ _ hvs hps hdevice

/-- Witness of C22: on the example, the buffer of the vertex stage and the
buffer of the pixel stage both have the slot 0; the entries of the three vertex
constants have the index 0 and the entry of the pixel constant the index 1, and
after the upload the first buffer holds the 32 bytes of the vertex constants and
the second one the 12 bytes of the pixel constant; the pool has 512 slots. -/
theorem C22_SetConstantBuffers_index_of_layout_witness :
    Example.compiling.m_constants = [] ∧ Example.compiling.m_cBuffers = [] ∧
    Shader.SetConstantBuffers Example.device Example.pool Example.compiling =
      some (Example.produced.1, Example.produced.2.1, Example.produced.2.2) ∧
    Example.pool.s_nextConstIndex +
      (Example.produced.1.m_CBLayouts.flatMap fun cbLayout => cbLayout.vars).length ≤ 512 ∧
    (Example.produced.1.m_cBuffers.map fun CB => (CB.shdType, CB.bufferSlot)) =
      [(ShaderType.VS, 0), (ShaderType.PS, 0)] ∧
    Example.produced.1.m_constantsUnsorted.map Prod.fst = [0, 0, 0, 1] ∧
    ((Shader.UpdateConstants Example.produced.2.1 Example.produced.1
          { calls := [] }).1.m_cBuffers.map
        fun CB => CB.data.map fun buffer => buffer.contents.length) = [some 32, some 12] ∧
    ((Shader.UpdateConstants Example.produced.2.1 Example.produced.1
        { calls := [] }).2.calls.drop 0).countP ContextCall.isCopy =
      Example.produced.1.m_constantsUnsorted.length :=
  ⟨rfl, rfl, Example.produced_eq, by decide, by decide, by decide, by decide,
    ((C22_SetConstantBuffers_index_of_layout 512 Example.device Example.pool Example.compiling
      rfl rfl).1 Example.produced.1 Example.produced.2.1 Example.produced.2.2
      Example.produced_eq (by decide)).2.2.2 { calls := [] }⟩

/-- C23: in the loop over the batches of one render list of
`ShadowMapPass::RenderShadowMaps`, for every render list of length `n` and the
batch size 256, the batch `b` fills the entries `0..c-1` of the struct with the
objects at the indices `256*b .. 256*b + c - 1` of the list, where
`c = min(256, n - 256*b)`, and draws `c` instances; the indices at which the list
is read are `0, ..., n - 1`, each once and in this order, so that every index
read is smaller than `n` and every object is drawn in exactly one batch, in list
order; and the instance counts of the draws add up to `n`. The loop ends, behind
the batch `n / 256`, with any fuel of at least `n / 256 + 1`. -/
theorem C23_RenderShadowMaps_batches {XMMATRIX : Type}
    (mul : XMMATRIX → XMMATRIX → XMMATRIX) (viewProj : XMMATRIX)
    (renderList : List (GameObject XMMATRIX))
    (state : ShadowMapPass.RenderShadowMaps.Instanced XMMATRIX) (fuel : Nat)
    (hfuel : renderList.length / DRAW_INSTANCED_COUNT_DEPTH_PASS + 1 ≤ fuel) :
    DRAW_INSTANCED_COUNT_DEPTH_PASS = 256 ∧
    ShadowMapPass.RenderShadowMaps.batches mul viewProj renderList fuel 0 state =
      some (renderList.length / DRAW_INSTANCED_COUNT_DEPTH_PASS + 1,
        ShadowMapPass.RenderShadowMaps.afterBatches mul viewProj renderList state
          (renderList.length / DRAW_INSTANCED_COUNT_DEPTH_PASS + 1)) ∧
    (ShadowMapPass.RenderShadowMaps.afterBatches mul viewProj renderList state
        (renderList.length / DRAW_INSTANCED_COUNT_DEPTH_PASS + 1)).calls =
      state.calls ++
        (List.range (renderList.length / DRAW_INSTANCED_COUNT_DEPTH_PASS + 1)).flatMap
          (fun b =>
            [RendererCall.SetConstantStruct "ObjMats"
               (ShadowMapPass.RenderShadowMaps.afterBatches mul viewProj renderList state
                 (b + 1)).cbuffer,
             RendererCall.Apply,
             RendererCall.DrawIndexedInstanced
               (min DRAW_INSTANCED_COUNT_DEPTH_PASS
                 (renderList.length - DRAW_INSTANCED_COUNT_DEPTH_PASS * b))]) ∧
    (∀ b j, j < min DRAW_INSTANCED_COUNT_DEPTH_PASS
        (renderList.length - DRAW_INSTANCED_COUNT_DEPTH_PASS * b) →
      ∃ pObj, renderList[DRAW_INSTANCED_COUNT_DEPTH_PASS * b + j]? = some pObj ∧
        (ShadowMapPass.RenderShadowMaps.afterBatches mul viewProj renderList state
          (b + 1)).cbuffer.objMatrices j =
          { wvp := mul pObj.WorldTransformationMatrix viewProj }) ∧
    (ShadowMapPass.RenderShadowMaps.afterBatches mul viewProj renderList state
        (renderList.length / DRAW_INSTANCED_COUNT_DEPTH_PASS + 1)).read =
      state.read ++ List.range renderList.length ∧
    RendererCall.draws
        (ShadowMapPass.RenderShadowMaps.afterBatches mul viewProj renderList state
          (renderList.length / DRAW_INSTANCED_COUNT_DEPTH_PASS + 1)).calls =
      RendererCall.draws state.calls ++
        (List.range (renderList.length / DRAW_INSTANCED_COUNT_DEPTH_PASS + 1)).map
          (fun b => min DRAW_INSTANCED_COUNT_DEPTH_PASS
            (renderList.length - DRAW_INSTANCED_COUNT_DEPTH_PASS * b)) ∧
    ((List.range (renderList.length / DRAW_INSTANCED_COUNT_DEPTH_PASS + 1)).map fun b =>
        min DRAW_INSTANCED_COUNT_DEPTH_PASS
          (renderList.length - DRAW_INSTANCED_COUNT_DEPTH_PASS * b)).sum =
      renderList.length := by
  refine ⟨rfl, ?_, ?_, ?_, ?_, ?_, ?_⟩
  · have := batches_eq mul viewProj renderList
      (renderList.length / DRAW_INSTANCED_COUNT_DEPTH_PASS) 0 fuel state (by omega) hfuel
    rw [this, ← List.range_eq_range']
    rfl
  · exact afterBatches_calls mul viewProj renderList state _
  · intro b j hj
    exact afterBatches_entry mul viewProj renderList state b j hj
  · rw [afterBatches_read, batches_reach]
  · exact afterBatches_draws mul viewProj renderList state _
  · have := instanceCount_sum renderList.length
      (renderList.length / DRAW_INSTANCED_COUNT_DEPTH_PASS + 1)
    rw [batches_reach] at this
    exact this

/-- Witness of C23: a render list of 600 objects is drawn in the batches of
256, 256 and 88 instances. -/
theorem C23_RenderShadowMaps_batches_witness :
    (Example.objects 600).length / DRAW_INSTANCED_COUNT_DEPTH_PASS + 1 ≤ 5 ∧
    RendererCall.draws
        (ShadowMapPass.RenderShadowMaps.afterBatches (fun a b => a * b) 2 (Example.objects 600)
          Example.instanced 3).calls = [256, 256, 88] ∧
    ShadowMapPass.RenderShadowMaps.batches (fun a b => a * b) 2 (Example.objects 600) 5 0
        Example.instanced =
      some (3, ShadowMapPass.RenderShadowMaps.afterBatches (fun a b => a * b) 2
        (Example.objects 600) Example.instanced 3) := by
  have hlen : (Example.objects 600).length / DRAW_INSTANCED_COUNT_DEPTH_PASS + 1 ≤ 5 := by
    rw [Example.objects_length]
    decide
  have h := C23_RenderShadowMaps_batches (fun a b => a * b) 2 (Example.objects 600)
    Example.instanced 5 hlen
  have hq : (Example.objects 600).length / DRAW_INSTANCED_COUNT_DEPTH_PASS + 1 = 3 := by
    rw [Example.objects_length]
    decide
  rw [hq] at h
  refine ⟨hlen, ?_, h.2.1⟩
  rw [h.2.2.2.2.2.1, Example.objects_length]
  decide

/-- C24: in the loop over the batches of one render list of
`ShadowMapPass::RenderShadowMaps`, for every render list of length `n` the
do-while ends after exactly `n / 256 + 1` runs of its body (no smaller number of
runs ends it, and with any larger fuel it ends behind the batch `n / 256`); each
run issues one `SetConstantStruct`, one `Apply` and one
`DrawIndexedInstanced`, in this order; and whenever `n` is a multiple of 256, the
empty list included, the last run calls `DrawIndexedInstanced` with an instance
count of 0. -/
theorem C24_RenderShadowMaps_iterations {XMMATRIX : Type}
    (mul : XMMATRIX → XMMATRIX → XMMATRIX) (viewProj : XMMATRIX)
    (renderList : List (GameObject XMMATRIX))
    (state : ShadowMapPass.RenderShadowMaps.Instanced XMMATRIX) (fuel : Nat) :
    (fuel ≤ renderList.length / 256 →
      ShadowMapPass.RenderShadowMaps.batches mul viewProj renderList fuel 0 state = none) ∧
    (renderList.length / 256 + 1 ≤ fuel →
      ∃ final : ShadowMapPass.RenderShadowMaps.Instanced XMMATRIX,
        ShadowMapPass.RenderShadowMaps.batches mul viewProj renderList fuel 0 state =
          some (renderList.length / 256 + 1, final) ∧
        (∃ cbuffers : Nat → InstancedObjectCBuffer XMMATRIX,
          final.calls = state.calls ++
            (List.range (renderList.length / 256 + 1)).flatMap (fun b =>
              [RendererCall.SetConstantStruct "ObjMats" (cbuffers b),
               RendererCall.Apply,
               RendererCall.DrawIndexedInstanced (min 256 (renderList.length - 256 * b))])) ∧
        final.calls.length = state.calls.length + 3 * (renderList.length / 256 + 1) ∧
        (RendererCall.draws final.calls).length =
          (RendererCall.draws state.calls).length + (renderList.length / 256 + 1) ∧
        (renderList.length % 256 = 0 →
          ∃ earlier, final.calls = earlier ++ [RendererCall.DrawIndexedInstanced 0])) := by
  have hD : DRAW_INSTANCED_COUNT_DEPTH_PASS = 256 := rfl
  refine ⟨?_, ?_⟩
  · intro hfuel
    exact batches_none mul viewProj renderList fuel 0 state (by rw [hD]; omega)
  · intro hfuel
    have hrun := batches_eq mul viewProj renderList
      (renderList.length / DRAW_INSTANCED_COUNT_DEPTH_PASS) 0 fuel state (by omega)
      (by rw [hD]; exact hfuel)
    rw [← List.range_eq_range'] at hrun
    have hcalls := afterBatches_calls mul viewProj renderList state
      (renderList.length / DRAW_INSTANCED_COUNT_DEPTH_PASS + 1)
    have hdraws := afterBatches_draws mul viewProj renderList state
      (renderList.length / DRAW_INSTANCED_COUNT_DEPTH_PASS + 1)
    simp only [hD, ShadowMapPass.RenderShadowMaps.instanceCount] at hrun hcalls hdraws
    refine ⟨_, hrun, ⟨fun b => (ShadowMapPass.RenderShadowMaps.afterBatches mul viewProj
      renderList state (b + 1)).cbuffer, hcalls⟩, ?_, ?_, ?_⟩
    · show (ShadowMapPass.RenderShadowMaps.afterBatches mul viewProj renderList state
        (renderList.length / 256 + 1)).calls.length = _
      rw [hcalls]
      simp [List.length_flatMap, Function.comp_def]
      omega
    · show (RendererCall.draws (ShadowMapPass.RenderShadowMaps.afterBatches mul viewProj
        renderList state (renderList.length / 256 + 1)).calls).length = _
      rw [hdraws]
      simp
    · intro hmod
      show ∃ earlier, (ShadowMapPass.RenderShadowMaps.afterBatches mul viewProj renderList state
        (renderList.length / 256 + 1)).calls = _
      rw [hcalls, List.range_succ, List.flatMap_append]
      have h0 : min 256 (renderList.length - 256 * (renderList.length / 256)) = 0 := by omega
      refine ⟨state.calls ++ (List.range (renderList.length / 256)).flatMap (fun b =>
          [RendererCall.SetConstantStruct "ObjMats"
             (ShadowMapPass.RenderShadowMaps.afterBatches mul viewProj renderList state
               (b + 1)).cbuffer,
           RendererCall.Apply,
           RendererCall.DrawIndexedInstanced (min 256 (renderList.length - 256 * b))]) ++
        [RendererCall.SetConstantStruct "ObjMats"
           (ShadowMapPass.RenderShadowMaps.afterBatches mul viewProj renderList state
             (renderList.length / 256 + 1)).cbuffer,
         RendererCall.Apply], ?_⟩
      simp [h0]

/-- Witness of C24: a render list of 512 objects takes three runs of the body,
not two, and the third draws no instance; the empty list takes one run. -/
theorem C24_RenderShadowMaps_iterations_witness :
    2 ≤ (Example.objects 512).length / 256 ∧
    (Example.objects 512).length / 256 + 1 ≤ 3 ∧
    (Example.objects 512).length % 256 = 0 ∧
    ShadowMapPass.RenderShadowMaps.batches (fun a b => a * b) 2 (Example.objects 512) 2 0
      Example.instanced = none ∧
    (∃ final : ShadowMapPass.RenderShadowMaps.Instanced Nat,
      ShadowMapPass.RenderShadowMaps.batches (fun a b => a * b) 2 (Example.objects 512) 3 0
        Example.instanced = some ((Example.objects 512).length / 256 + 1, final) ∧
      ∃ earlier, final.calls = earlier ++ [RendererCall.DrawIndexedInstanced 0]) ∧
    ((ShadowMapPass.RenderShadowMaps.batches (fun a b => a * b) 2 (Example.objects 0) 1 0
        Example.instanced).map fun r => (r.1, RendererCall.draws r.2.calls)) =
      some (1, [0]) := by
  have h1 : 2 ≤ (Example.objects 512).length / 256 := by
    rw [Example.objects_length]
  have h2 : (Example.objects 512).length / 256 + 1 ≤ 3 := by
    rw [Example.objects_length]
  have h3 : (Example.objects 512).length % 256 = 0 := by
    rw [Example.objects_length]
  refine ⟨h1, h2, h3, ?_, ?_, by decide⟩
  · exact (C24_RenderShadowMaps_iterations (fun a b => a * b) 2 (Example.objects 512)
      Example.instanced 2).1 h1
  · obtain ⟨final, hrun, _, _, _, hlast⟩ :=
      (C24_RenderShadowMaps_iterations (fun a b => a * b) 2 (Example.objects 512)
        Example.instanced 3).2 h2
    exact ⟨final, hrun, hlast h3⟩

/-- C25: the comparison that `Shader::SetConstantBuffers` gives to `std::sort`
compares the names of the constants with `<=`: it holds of two entries exactly
when the name of the first is at most the name of the second. So it holds of
any two entries whose constants have equal names, in both orders of the
arguments, and of an entry and itself: it is reflexive and not asymmetric, and it
is not a strict weak ordering on any range of mappings that holds two entries
(or one entry) of constants with the same name. -/
theorem C25_compare_not_strict_weak (statics : CPUConstant.Statics) :
    (∀ lhs rhs, Shader.SetConstantBuffers.compare statics lhs rhs = true ↔
      (CPUConstant.Get statics lhs.2)._name ≤ (CPUConstant.Get statics rhs.2)._name) ∧
    (∀ lhs rhs,
      (CPUConstant.Get statics lhs.2)._name = (CPUConstant.Get statics rhs.2)._name →
      Shader.SetConstantBuffers.compare statics lhs rhs = true ∧
      Shader.SetConstantBuffers.compare statics rhs lhs = true) ∧
    (∀ lhs, Shader.SetConstantBuffers.compare statics lhs lhs = true) ∧
    (∀ lhs rhs,
      (CPUConstant.Get statics lhs.2)._name = (CPUConstant.Get statics rhs.2)._name →
      ¬(Shader.SetConstantBuffers.compare statics lhs rhs = true →
        Shader.SetConstantBuffers.compare statics rhs lhs = false)) ∧
    (∀ (range : List ConstantBufferMapping) lhs rhs, lhs ∈ range → rhs ∈ range →
      (CPUConstant.Get statics lhs.2)._name = (CPUConstant.Get statics rhs.2)._name →
      ¬StrictWeakOrdering (Shader.SetConstantBuffers.compare statics) range) := by
  have hiff : ∀ lhs rhs, Shader.SetConstantBuffers.compare statics lhs rhs = true ↔
      (CPUConstant.Get statics lhs.2)._name ≤ (CPUConstant.Get statics rhs.2)._name := by
    intro lhs rhs
    simp [Shader.SetConstantBuffers.compare]
  have heq : ∀ lhs rhs,
      (CPUConstant.Get statics lhs.2)._name = (CPUConstant.Get statics rhs.2)._name →
      Shader.SetConstantBuffers.compare statics lhs rhs = true ∧
      Shader.SetConstantBuffers.compare statics rhs lhs = true := by
    intro lhs rhs h
    exact ⟨(hiff lhs rhs).mpr (le_of_eq h), (hiff rhs lhs).mpr (le_of_eq h.symm)⟩
  refine ⟨hiff, heq, fun lhs => (heq lhs lhs rfl).1, ?_, ?_⟩
  · intro lhs rhs h hasym
    have := hasym (heq lhs rhs h).1
    rw [(heq lhs rhs h).2] at this
    exact Bool.noConfusion this
  · intro range lhs rhs hl hr h hswo
    have := hswo.2.1 lhs hl rhs hr (heq lhs rhs h).1
    rw [(heq lhs rhs h).2] at this
    exact Bool.noConfusion this

/-- Witness of C25: two constants named `c` of the example pool, mapped to the
buffers 0 and 1. -/
theorem C25_compare_not_strict_weak_witness :
    ((0, 0) : ConstantBufferMapping) ∈ [((0, 0) : ConstantBufferMapping), (1, 1)] ∧
    ((1, 1) : ConstantBufferMapping) ∈ [((0, 0) : ConstantBufferMapping), (1, 1)] ∧
    (CPUConstant.Get Example.statics 0)._name = (CPUConstant.Get Example.statics 1)._name ∧
    ¬StrictWeakOrdering (Shader.SetConstantBuffers.compare Example.statics)
      [((0, 0) : ConstantBufferMapping), (1, 1)] :=
  ⟨by decide, by decide, rfl,
    (C25_compare_not_strict_weak Example.statics).2.2.2.2 [(0, 0), (1, 1)] (0, 0) (1, 1)
      (by decide) (by decide) rfl⟩

end VQEngine
